import Mathlib

/-!
# Thermal control core of Marlin (RepRapPro fork)

A shallow embedding of `Marlin/temperature.cpp` and `Marlin/temperature.h`.

* Floating point values are elements of an arbitrary linear ordered field `α` with a floor
  function, so every definition is executable over `ℚ` and every theorem holds over `ℝ`.
* C arrays indexed by the extruder are functions `Nat → _`.
* Machine integers are `Int` or `Nat` with explicit wrap-around at the places where the
  source stores into a narrower type.
* Preprocessor switches and constants of `Configuration.h` are fields of `Config`.
* The global and function-static variables are the fields of `State`.
-/

namespace Marlin

set_option linter.unusedSectionVars false

/-! ## Machine integers -/

/-- Threshold of the fault debounce counters (`#define DUD_TEMP_COUNT 3`). -/
def DUD_TEMP_COUNT : Int := 3

/-- Value stored in a `char` (signed, 8 bit, two's complement). -/
def wrapChar (x : Int) : Int := (x + 128) % 256 - 128

/-- Value stored in an AVR `int` (signed, 16 bit, two's complement). -/
def wrapInt16 (x : Int) : Int := (x + 32768) % 65536 - 32768

/-- Value stored in an `unsigned char`. -/
def wrapU8 (x : Int) : Nat := (x % 256).toNat

/-- Value stored in an `unsigned long` (32 bit). -/
def wrapU32 (x : Int) : Nat := (x % 4294967296).toNat

/-- Value stored in a `long` (signed, 32 bit, two's complement). -/
def wrapInt32 (x : Int) : Int := (x + 2147483648) % 4294967296 - 2147483648

/-- Array store `a[i] = v`. -/
def setAt {β : Type} (a : Nat → β) (i : Nat) (v : β) : Nat → β :=
  fun j => if j = i then v else a j

/-- Modelled from the spec: the Arduino core `constrain(amt,low,high)` clamp used by the
regulator ("clamped to", "clamp(P + I - D, 0, max duty)"); the definition in `Arduino.h` is
`((amt)<(low)?(low):((amt)>(high)?(high):(amt)))`. -/
def constrain {β : Type} [LinearOrder β] (amt low high : β) : β :=
  if amt < low then low else if high < amt then high else amt

/-! ## Configuration and state -/

section Interrupt

variable {α : Type}

/-- Preprocessor configuration (`Configuration.h`, `pins.h`) and the two `libm` functions
the conversion routines call. -/
structure Config (α : Type) where
  /-- Number of extruders, `EXTRUDERS`. -/
  EXTRUDERS : Nat := 1
  /-- Build for a master board that delegates extruders above 0 to a slave board. -/
  REPRAPPRO_MULTIMATERIALS : Bool := false
  /-- PID regulation compiled in. -/
  PIDTEMP : Bool := true
  PID_MAX : Int := 255
  FULL_PID_BAND : Int := 150
  K1 : α
  PID_dT : α
  BED_CHECK_INTERVAL : Nat := 5000
  HEATER_MAXTEMP : α
  HEATER_MINTEMP : α
  /-- `TEMP_0_PIN > -1`. -/
  TEMP_0_PIN : Bool := true
  /-- `TEMP_1_PIN > -1`. -/
  TEMP_1_PIN : Bool := false
  /-- `TEMP_2_PIN > -1`. -/
  TEMP_2_PIN : Bool := false
  /-- `TEMP_BED_PIN > -1`. -/
  TEMP_BED_PIN : Bool := true
  /-- `HEATER_0_PIN > -1`. -/
  HEATER_0_PIN : Bool := true
  /-- `HEATER_1_PIN > -1`. -/
  HEATER_1_PIN : Bool := false
  /-- `HEATER_2_PIN > -1`. -/
  HEATER_2_PIN : Bool := false
  /-- `HEATER_BED_PIN > -1`. -/
  HEATER_BED_PIN : Bool := true
  /-- `defined(HEATER_0_USES_AD595) || defined(HEATER_0_USES_MAX6675)`. -/
  HEATER_0_USES_AD595 : Bool := false
  HEATER_1_USES_AD595 : Bool := false
  HEATER_2_USES_AD595 : Bool := false
  HEATER_0_MINTEMP : Option Int := none
  HEATER_0_MAXTEMP : Option Int := none
  HEATER_1_MINTEMP : Option Int := none
  HEATER_1_MAXTEMP : Option Int := none
  HEATER_2_MINTEMP : Option Int := none
  HEATER_2_MAXTEMP : Option Int := none
  BED_MINTEMP : Option Int := none
  BED_MAXTEMP : Option Int := none
  ABS_ZERO : α
  AD_RANGE : Int := 16383
  DEFAULT_Kp : α
  DEFAULT_Ki : α
  DEFAULT_Kd : α
  PID_INTEGRAL_DRIVE_MAX : Int := 255
  /-- The `exp` of the C library. -/
  exp : α → α
  /-- The `log` of the C library. -/
  log : α → α
  /-- Temperature reported by the slave board (`slaveDegHotend`, slave_comms.h). -/
  slaveDegHotend : Nat → α
  /-- Thermistor constant reported by the slave board (`getSlaveExtruderBeta`). -/
  getSlaveExtruderBeta : Int → α
  /-- Thermistor constant reported by the slave board (`getSlaveExtruderRs`). -/
  getSlaveExtruderRs : Int → α
  /-- Thermistor constant reported by the slave board (`getSlaveExtruderRInf`). -/
  getSlaveExtruderRInf : Int → α
  /-- Values stored by `getSlavePIDValues` in its four reference arguments. -/
  getSlavePIDValues : Int → α × α × α × α

/-- Number of locally regulated channels, `EXTRUDERS_T` (temperature.h:31-35). -/
def EXTRUDERS_T (cfg : Config α) : Nat :=
  if cfg.REPRAPPRO_MULTIMATERIALS then 1 else cfg.EXTRUDERS

/-- Lines written to the serial port and commands sent to the slave board. -/
inductive Event (α : Type) where
  | max_temp_error (e : Nat)
  | min_temp_error (e : Nat)
  | bed_temp_error
  | slaveSetTargetHotend (celsius : α) (e : Nat)
  | setSlaveExtruderThermistor (e : Int) (b r i : α)
  | setSlavePIDValues (e : Int) (Kpi Kii Kdi Kmi : α)
  /-- The line `ok p:.. i:.. d:.. w:..` of `setPIDValues`. -/
  | pid_values (p i d : α) (w : Int)
  /-- The line `PID Autotune start`. -/
  | autotune_start
  /-- The line ` bias: .. d: .. min: .. max: ..`. -/
  | autotune_bias (bias d : Int) (min max : α)
  /-- The line ` Ku: .. Tu: ..`. -/
  | autotune_Ku_Tu (Ku Tu : α)
  /-- The lines ` Clasic PID `, ` Kp: ..`, ` Ki: ..`, ` Kd: ..`. -/
  | autotune_pid (Kp Ki Kd : α)
  /-- The line `ok T:.. @:..`. -/
  | autotune_temp (T : α) (power : Nat)
  /-- The line `PID Autotune failed! Temperature to high`. -/
  | autotune_too_high
  /-- The line `PID Autotune failed! timeout`. -/
  | autotune_timeout
  /-- The line `PID Autotune finished ! Place the Kp, Ki and Kd constants in the
  configuration.h`. -/
  | autotune_finished

/-- Recogniser of the bed fault report. -/
def Event.isBedTempError : Event α → Bool
  | Event.bed_temp_error => true
  | _ => false

/-- Global variables of temperature.cpp, the static variables of the timer ISR, the heater
output pins, the serial output and the `Stopped` flag of the outer firmware. -/
structure State (α : Type) where
  target_raw : Nat → Int
  target_raw_bed : Int
  current_raw : Nat → Int
  current_raw_bed : Int
  eBeta : α
  eRs : α
  eRInf : α
  bBeta : α
  bRs : α
  bRInf : α
  pid_setpoint : Nat → α
  Kp : α
  Ki : α
  Ki_Max : Int
  Kd : α
  dudMaxCount : Int
  dudMinCount : Int
  dudBedCount : Int
  temp_meas_ready : Bool
  previous_millis_bed_heater : Nat
  temp_iState : Nat → α
  temp_dState : Nat → α
  pTerm : Nat → α
  iTerm : Nat → α
  dTerm : Nat → α
  pid_error : Nat → α
  temp_iState_min : Nat → α
  temp_iState_max : Nat → α
  pid_reset : Nat → Bool
  soft_pwm : Nat → Nat
  minttemp : Nat → Int
  maxttemp : Nat → Int
  bed_minttemp : Int
  bed_maxttemp : Int
  /-- Static variables of `ISR(TIMER0_COMPB_vect)`. -/
  temp_count : Nat
  raw_temp_0_value : Nat
  raw_temp_1_value : Nat
  raw_temp_2_value : Nat
  raw_temp_bed_value : Nat
  temp_state : Nat
  pwm_count : Nat
  soft_pwm_0 : Nat
  soft_pwm_1 : Nat
  soft_pwm_2 : Nat
  /-- Output pins, `true` is HIGH. -/
  heater_0_pin : Bool
  heater_1_pin : Bool
  heater_2_pin : Bool
  heater_bed_pin : Bool
  /-- Result of `IsStopped()`. -/
  stopped : Bool
  /-- Serial output and slave commands, oldest first. -/
  serial : List (Event α)

/-! ## Fault reports (temperature.cpp:717-742) -/

/-- `max_temp_error(e)`: one report unless the firmware is stopped. -/
def max_temp_error (e : Nat) (s : State α) : State α :=
  if s.stopped = false then { s with serial := s.serial ++ [Event.max_temp_error e] } else s

/-- `min_temp_error(e)`: one report unless the firmware is stopped. -/
def min_temp_error (e : Nat) (s : State α) : State α :=
  if s.stopped = false then { s with serial := s.serial ++ [Event.min_temp_error e] } else s

/-- `bed_temp_error()`: one report unless the firmware is stopped. -/
def bed_temp_error (s : State α) : State α :=
  if s.stopped = false then { s with serial := s.serial ++ [Event.bed_temp_error] } else s

/-! ## Timer interrupt (temperature.cpp:756-1007) -/

/-- The local `heatOn` of the ISR (line 770). -/
def heatOn (s : State α) : Bool :=
  decide (0 ≤ s.dudMinCount) && decide (0 ≤ s.dudMaxCount)

/-- Lines 773-774: `soft_pwm_0 = soft_pwm[0]; if(soft_pwm_0 > 0) WRITE(HEATER_0_PIN,heatOn);`. -/
def pwmLoad0 (hOn : Bool) (s : State α) : State α :=
  { s with
    soft_pwm_0 := s.soft_pwm 0
    heater_0_pin := if 0 < s.soft_pwm 0 then hOn else s.heater_0_pin }

/-- Lines 778-781, compiled when `EXTRUDERS_T > 1`. -/
def pwmLoad1 (cfg : Config α) (hOn : Bool) (s : State α) : State α :=
  if 1 < cfg.EXTRUDERS then
    { s with
      soft_pwm_1 := s.soft_pwm 1
      heater_1_pin := if 0 < s.soft_pwm 1 then hOn else s.heater_1_pin }
  else s

/-- Lines 782-785, compiled when `EXTRUDERS_T > 2`. -/
def pwmLoad2 (cfg : Config α) (hOn : Bool) (s : State α) : State α :=
  if 2 < cfg.EXTRUDERS then
    { s with
      soft_pwm_2 := s.soft_pwm 2
      heater_2_pin := if 0 < s.soft_pwm 2 then hOn else s.heater_2_pin }
  else s

/-- The block `if(pwm_count == 0){...}` (lines 772-787). -/
def pwmLoad (cfg : Config α) (hOn : Bool) (s : State α) : State α :=
  if s.pwm_count = 0 then
    if cfg.REPRAPPRO_MULTIMATERIALS then pwmLoad0 hOn s
    else pwmLoad2 cfg hOn (pwmLoad1 cfg hOn (pwmLoad0 hOn s))
  else s

/-- Line 788: `if(soft_pwm_0 <= pwm_count) WRITE(HEATER_0_PIN,0);`. -/
def pwmOff0 (s : State α) : State α :=
  { s with heater_0_pin := if s.soft_pwm_0 ≤ s.pwm_count then false else s.heater_0_pin }

/-- Lines 792-797: the same comparison for the extruders 1 and 2 of a build without a
slave board. -/
def pwmOff12 (cfg : Config α) (s : State α) : State α :=
  if cfg.REPRAPPRO_MULTIMATERIALS then s
  else
    { s with
      heater_1_pin :=
        if 1 < cfg.EXTRUDERS ∧ s.soft_pwm_1 ≤ s.pwm_count then false else s.heater_1_pin
      heater_2_pin :=
        if 2 < cfg.EXTRUDERS ∧ s.soft_pwm_2 ≤ s.pwm_count then false else s.heater_2_pin }

/-- Lines 799-800: `pwm_count++; pwm_count &= 0x7f;` on an `unsigned char`. -/
def pwmAdvance (s : State α) : State α :=
  { s with pwm_count := ((s.pwm_count + 1) % 256) &&& 0x7f }

/-- Soft PWM part of the ISR (lines 770-800). -/
def isrPwm (cfg : Config α) (s : State α) : State α :=
  pwmAdvance (pwmOff12 cfg (pwmOff0 (pwmLoad cfg (heatOn s) s)))

/-- The `switch(temp_state)` of the ISR (lines 802-891); `adc` is the value of the ADC
register on this tick. -/
def isrSample (cfg : Config α) (adc : Nat) (s : State α) : State α :=
  match s.temp_state with
  | 0 => { s with temp_state := 1 }
  | 1 =>
    { s with
      raw_temp_0_value :=
        if cfg.TEMP_0_PIN then wrapU32 (s.raw_temp_0_value + adc) else s.raw_temp_0_value
      temp_state := 2 }
  | 2 => { s with temp_state := 3 }
  | 3 =>
    { s with
      raw_temp_bed_value :=
        if cfg.TEMP_BED_PIN then wrapU32 (s.raw_temp_bed_value + adc) else s.raw_temp_bed_value
      temp_state := 4 }
  | 4 => { s with temp_state := 5 }
  | 5 =>
    { s with
      raw_temp_1_value :=
        if cfg.TEMP_1_PIN then wrapU32 (s.raw_temp_1_value + adc) else s.raw_temp_1_value
      temp_state := 6 }
  | 6 => { s with temp_state := 7 }
  | 7 =>
    { s with
      raw_temp_2_value :=
        if cfg.TEMP_2_PIN then wrapU32 (s.raw_temp_2_value + adc) else s.raw_temp_2_value
      temp_state := 0
      temp_count := (s.temp_count + 1) % 256 }
  | _ => s

/-- Raw value published for an accumulator: the sum itself for a linear sensor, otherwise
`16383 - sum` computed in `unsigned long`; either is stored in an `int`. -/
def publishRaw (linear : Bool) (acc : Nat) : Int :=
  if linear then wrapInt16 acc else wrapInt16 (wrapU32 (16383 - (acc : Int)))

/-- Lines 895-928: publication of the readings, the ready flag and the reset of the
accumulators. -/
def isrPublish (cfg : Config α) (s : State α) : State α :=
  { s with
    current_raw := fun e =>
      if e = 0 then publishRaw cfg.HEATER_0_USES_AD595 s.raw_temp_0_value
      else if e = 1 ∧ ¬ cfg.REPRAPPRO_MULTIMATERIALS ∧ 1 < cfg.EXTRUDERS then
        publishRaw cfg.HEATER_1_USES_AD595 s.raw_temp_1_value
      else if e = 2 ∧ ¬ cfg.REPRAPPRO_MULTIMATERIALS ∧ 2 < cfg.EXTRUDERS then
        publishRaw cfg.HEATER_2_USES_AD595 s.raw_temp_2_value
      else s.current_raw e
    current_raw_bed := publishRaw false s.raw_temp_bed_value
    temp_meas_ready := true
    temp_count := 0
    raw_temp_0_value := 0
    raw_temp_1_value := 0
    raw_temp_2_value := 0
    raw_temp_bed_value := 0 }

/-- Lines 940-959: the maximum check of channel `e`. -/
def isrCheckMax (e : Nat) (s : State α) : State α :=
  if 0 ≤ s.dudMaxCount then
    if s.maxttemp e ≤ s.current_raw e then
      if DUD_TEMP_COUNT < wrapChar (s.dudMaxCount + 1) then
        max_temp_error e { s with dudMaxCount := -1, target_raw := setAt s.target_raw e 0 }
      else { s with dudMaxCount := wrapChar (s.dudMaxCount + 1) }
    else { s with dudMaxCount := 0 }
  else { s with target_raw := setAt s.target_raw e 0 }

/-- Lines 961-980: the minimum check of channel `e`. -/
def isrCheckMin (e : Nat) (s : State α) : State α :=
  if 0 ≤ s.dudMinCount then
    if s.current_raw e ≤ s.minttemp e then
      if DUD_TEMP_COUNT < wrapChar (s.dudMinCount + 1) then
        { min_temp_error e { s with target_raw := setAt s.target_raw e 0 } with
          dudMinCount := -1 }
      else { s with dudMinCount := wrapChar (s.dudMinCount + 1) }
    else { s with dudMinCount := 0 }
  else { s with target_raw := setAt s.target_raw e 0 }

/-- Body of the extruder loop at the end of a window (lines 934-984): a channel above 0 of
a build with a slave board is skipped. -/
def isrCheckExtruder (cfg : Config α) (e : Nat) (s : State α) : State α :=
  if cfg.REPRAPPRO_MULTIMATERIALS ∧ 0 < e then s else isrCheckMin e (isrCheckMax e s)

/-- The extruder loop at the end of a window (lines 932-985). -/
def isrCheckLoop (cfg : Config α) (s : State α) : State α :=
  (List.range (EXTRUDERS_T cfg)).foldl (fun s e => isrCheckExtruder cfg e s) s

/-- Bed check at the end of a window (lines 988-1005), compiled when
`defined(BED_MAXTEMP) && (HEATER_BED_PIN > -1)`. -/
def isrCheckBed (cfg : Config α) (s : State α) : State α :=
  if cfg.BED_MAXTEMP.isSome ∧ cfg.HEATER_BED_PIN then
    if 0 ≤ s.dudBedCount then
      if s.bed_maxttemp ≤ s.current_raw_bed then
        if DUD_TEMP_COUNT ≤ wrapChar (s.dudBedCount + 1) then
          bed_temp_error { s with dudBedCount := -1, target_raw_bed := 0 }
        else { s with dudBedCount := wrapChar (s.dudBedCount + 1) }
      else { s with dudBedCount := 0 }
    else { s with target_raw_bed := 0 }
  else s

/-- End of a sampling window (lines 893-1006). -/
def isrWindowEnd (cfg : Config α) (s : State α) : State α :=
  isrCheckBed cfg (isrCheckLoop cfg (isrPublish cfg s))

/-- One execution of `ISR(TIMER0_COMPB_vect)`. -/
def isr (cfg : Config α) (adc : Nat) (s : State α) : State α :=
  if 16 ≤ (isrSample cfg adc (isrPwm cfg s)).temp_count then
    isrWindowEnd cfg (isrSample cfg adc (isrPwm cfg s))
  else isrSample cfg adc (isrPwm cfg s)

/-- Consecutive executions of the ISR, one ADC register value per tick. -/
def runIsr (cfg : Config α) : List Nat → State α → State α
  | [], s => s
  | adc :: rest, s => runIsr cfg rest (isr cfg adc s)

/-! ## Traces of the interrupt -/

/-- State after the first `n` executions of the ISR from `s0`; `adc k` is the ADC register
value seen by execution number `k` (counted from 0). -/
def isrTrace (cfg : Config α) (adc : Nat → Nat) (s0 : State α) : Nat → State α
  | 0 => s0
  | n + 1 => isr cfg (adc n) (isrTrace cfg adc s0 n)

/-- The execution of the ISR from `s` with register value `adc` reaches the end-of-window
block (`temp_count >= 16` at line 893). -/
def endsWindow (cfg : Config α) (adc : Nat) (s : State α) : Bool :=
  decide (16 ≤ (isrSample cfg adc (isrPwm cfg s)).temp_count)

/-- The published reading of channel `e` is outside its valid raw bounds. -/
def outOfRange (s : State α) (e : Nat) : Bool :=
  decide (s.current_raw e ≤ s.minttemp e) || decide (s.maxttemp e ≤ s.current_raw e)

/-- Length of the run of consecutive out-of-range windows of channel 0 ending with the last
window completed within the first `n` executions of the ISR. -/
def oorRun (cfg : Config α) (adc : Nat → Nat) (s0 : State α) : Nat → Nat
  | 0 => 0
  | n + 1 =>
    if endsWindow cfg (adc n) (isrTrace cfg adc s0 n) then
      if outOfRange (isrTrace cfg adc s0 (n + 1)) 0 then oorRun cfg adc s0 n + 1 else 0
    else oorRun cfg adc s0 n

/-- State after the first `n` executions of the ISR from `s0` when the main loop stores
`w k` in `soft_pwm[0]` after execution number `k`. -/
def pwmTrace (cfg : Config α) (adc : Nat → Nat) (w : Nat → Nat) (s0 : State α) :
    Nat → State α
  | 0 => s0
  | n + 1 =>
    { isr cfg (adc n) (pwmTrace cfg adc w s0 n) with
      soft_pwm := setAt (isr cfg (adc n) (pwmTrace cfg adc w s0 n)).soft_pwm 0 (w n) }

end Interrupt

section Model

variable {α : Type} [LinearOrderedField α] [FloorRing α]

/-- C conversion `(int)x` of a float: truncation toward zero, stored in a 16 bit `int`. -/
def truncInt (x : α) : Int :=
  wrapInt16 (if 0 ≤ x then Int.floor x else Int.ceil x)

/-- State after static initialisation, before `tp_init`. -/
def initState (cfg : Config α) : State α where
  target_raw := fun _ => 0
  target_raw_bed := 0
  current_raw := fun _ => 0
  current_raw_bed := 0
  eBeta := 0
  eRs := 0
  eRInf := 0
  bBeta := 0
  bRs := 0
  bRInf := 0
  pid_setpoint := fun _ => 0
  Kp := cfg.DEFAULT_Kp
  Ki := cfg.DEFAULT_Ki
  Ki_Max := cfg.PID_INTEGRAL_DRIVE_MAX
  Kd := cfg.DEFAULT_Kd
  dudMaxCount := 0
  dudMinCount := 0
  dudBedCount := 0
  temp_meas_ready := false
  previous_millis_bed_heater := 0
  temp_iState := fun _ => 0
  temp_dState := fun _ => 0
  pTerm := fun _ => 0
  iTerm := fun _ => 0
  dTerm := fun _ => 0
  pid_error := fun _ => 0
  temp_iState_min := fun _ => 0
  temp_iState_max := fun _ => 0
  pid_reset := fun _ => false
  soft_pwm := fun _ => 0
  minttemp := fun e => if e = 0 then 50 else 0
  maxttemp := fun e => if e = 0 then 16383 else 0
  bed_minttemp := 0
  bed_maxttemp := 16383
  temp_count := 0
  raw_temp_0_value := 0
  raw_temp_1_value := 0
  raw_temp_2_value := 0
  raw_temp_bed_value := 0
  temp_state := 0
  pwm_count := 1
  soft_pwm_0 := 0
  soft_pwm_1 := 0
  soft_pwm_2 := 0
  heater_0_pin := false
  heater_1_pin := false
  heater_2_pin := false
  heater_bed_pin := false
  stopped := false
  serial := []

/-! ## Conversion routines (temperature.cpp:512-565) -/

/-- `temp2analogi` (lines 514-518). -/
def temp2analogi (cfg : Config α) (celsius : Int) (beta rs r_inf : α) : Int :=
  let r : α := r_inf * cfg.exp (beta / ((celsius : α) - cfg.ABS_ZERO))
  wrapInt16 (cfg.AD_RANGE - truncInt (1 / 2 + (cfg.AD_RANGE : α) * r / (r + rs)))

/-- `analog2tempi` (lines 520-524). -/
def analog2tempi (cfg : Config α) (raw : Int) (beta rs r_inf : α) : α :=
  let rawf : α := ((wrapInt16 (cfg.AD_RANGE - raw) : Int) : α)
  cfg.ABS_ZERO + beta / cfg.log ((rawf * rs / ((cfg.AD_RANGE : α) - rawf)) / r_inf)

/-- `temp2analog` (lines 543-549); the remote variant calls the same formula. -/
def temp2analog (cfg : Config α) (s : State α) (celsius : Int) (_e : Nat) : Int :=
  temp2analogi cfg celsius s.eBeta s.eRs s.eRInf

/-- `analog2temp` (lines 550-556). -/
def analog2temp (cfg : Config α) (s : State α) (raw : Int) (e : Nat) : α :=
  if cfg.REPRAPPRO_MULTIMATERIALS ∧ 0 < e then cfg.slaveDegHotend e
  else analog2tempi cfg raw s.eBeta s.eRs s.eRInf

/-- `temp2analogBed` (lines 558-561). -/
def temp2analogBed (cfg : Config α) (s : State α) (celsius : Int) : Int :=
  temp2analogi cfg celsius s.bBeta s.bRs s.bRInf

/-- `analog2tempBed` (lines 562-565). -/
def analog2tempBed (cfg : Config α) (s : State α) (raw : Int) : α :=
  analog2tempi cfg raw s.bBeta s.bRs s.bRInf

/-! ## Target setters (temperature.h) -/

/-- `degHotend` (temperature.h:91-97 and 150-152). -/
def degHotend (cfg : Config α) (s : State α) (extruder : Nat) : α :=
  if cfg.REPRAPPRO_MULTIMATERIALS ∧ extruder ≠ 0 then cfg.slaveDegHotend extruder
  else analog2temp cfg s (s.current_raw extruder) extruder

/-- Latched branch shared by both variants of `setTargetHotend`: the fault report, then
`target_raw[extruder] = temp2analog(0.0, extruder)` and, with PIDTEMP, a zero setpoint. -/
def setTargetHotendLatched (cfg : Config α) (extruder : Nat) (s : State α) : State α :=
  let s : State α :=
    if s.dudMaxCount < 0 then max_temp_error extruder s else min_temp_error extruder s
  let s : State α :=
    { s with target_raw := setAt s.target_raw extruder (temp2analog cfg s 0 extruder) }
  if cfg.PIDTEMP then { s with pid_setpoint := setAt s.pid_setpoint extruder 0 } else s

/-- Normal branch shared by both variants of `setTargetHotend`. -/
def setTargetHotendNormal (cfg : Config α) (celsius : α) (extruder : Nat) (s : State α) :
    State α :=
  let s : State α :=
    { s with
      target_raw := setAt s.target_raw extruder (temp2analog cfg s (truncInt celsius) extruder) }
  if cfg.PIDTEMP then { s with pid_setpoint := setAt s.pid_setpoint extruder celsius } else s

/-- `setTargetHotend` in the REPRAPPRO_MULTIMATERIALS build (temperature.h:99-122). -/
def setTargetHotendMaster (cfg : Config α) (celsius : α) (extruder : Nat) (s : State α) :
    State α :=
  if extruder = 0 then
    if s.dudMinCount < 0 ∨ s.dudMaxCount < 0 then setTargetHotendLatched cfg extruder s
    else setTargetHotendNormal cfg celsius extruder s
  else { s with serial := s.serial ++ [Event.slaveSetTargetHotend celsius extruder] }

/-- `setTargetHotend` in the build without a slave board (temperature.h:154-178): the
if/else of the other variant followed by the unconditional store of lines 175-177. -/
def setTargetHotendLocal (cfg : Config α) (celsius : α) (extruder : Nat) (s : State α) :
    State α :=
  let s : State α :=
    if s.dudMinCount < 0 ∨ s.dudMaxCount < 0 then setTargetHotendLatched cfg extruder s
    else setTargetHotendNormal cfg celsius extruder s
  if cfg.PIDTEMP then { s with pid_setpoint := setAt s.pid_setpoint extruder celsius } else s

/-- `setTargetHotend(celsius, extruder)` of the configured build. -/
def setTargetHotend (cfg : Config α) (celsius : α) (extruder : Nat) (s : State α) : State α :=
  if cfg.REPRAPPRO_MULTIMATERIALS then setTargetHotendMaster cfg celsius extruder s
  else setTargetHotendLocal cfg celsius extruder s

/-- `setTargetBed` (temperature.h:203-210). -/
def setTargetBed (cfg : Config α) (celsius : α) (s : State α) : State α :=
  if s.dudBedCount < 0 then
    let s : State α := bed_temp_error s
    { s with target_raw_bed := temp2analogBed cfg s 0 }
  else { s with target_raw_bed := temp2analogBed cfg s (truncInt celsius) }

/-- Lines 685-691 of `disable_heater`. -/
def disableHeater0 (cfg : Config α) (s : State α) : State α :=
  if cfg.TEMP_0_PIN then
    { s with
      target_raw := setAt s.target_raw 0 0
      soft_pwm := setAt s.soft_pwm 0 0
      heater_0_pin := if cfg.HEATER_0_PIN then false else s.heater_0_pin }
  else s

/-- Lines 693-699 of `disable_heater`. -/
def disableHeater1 (cfg : Config α) (s : State α) : State α :=
  if cfg.TEMP_1_PIN then
    { s with
      target_raw := setAt s.target_raw 1 0
      soft_pwm := setAt s.soft_pwm 1 0
      heater_1_pin := if cfg.HEATER_1_PIN then false else s.heater_1_pin }
  else s

/-- Lines 701-707 of `disable_heater`. -/
def disableHeater2 (cfg : Config α) (s : State α) : State α :=
  if cfg.TEMP_2_PIN then
    { s with
      target_raw := setAt s.target_raw 2 0
      soft_pwm := setAt s.soft_pwm 2 0
      heater_2_pin := if cfg.HEATER_2_PIN then false else s.heater_2_pin }
  else s

/-- Lines 709-714 of `disable_heater`. -/
def disableHeaterBed (cfg : Config α) (s : State α) : State α :=
  if cfg.TEMP_BED_PIN then
    { s with
      target_raw_bed := 0
      heater_bed_pin := if cfg.HEATER_BED_PIN then false else s.heater_bed_pin }
  else s

/-- Lines 682-683 of `disable_heater`: `setTargetHotend(0,i)` for every local channel. -/
def disableTargets (cfg : Config α) (s : State α) : State α :=
  (List.range (EXTRUDERS_T cfg)).foldl (fun s i => setTargetHotend cfg 0 i s) s

/-- `disable_heater` (temperature.cpp:680-715). -/
def disable_heater (cfg : Config α) (s : State α) : State α :=
  disableHeaterBed cfg (disableHeater2 cfg (disableHeater1 cfg (disableHeater0 cfg
    (setTargetBed cfg 0 (disableTargets cfg s)))))

/-! ## Initialisation (temperature.cpp:569-676) -/

/-- Body of the loop of `tp_init` (lines 577-582). -/
def tpInitChannel (cfg : Config α) (e : Nat) (s : State α) : State α :=
  { s with
    maxttemp := setAt s.maxttemp e (s.maxttemp 0)
    temp_iState_min := if cfg.PIDTEMP then setAt s.temp_iState_min e 0 else s.temp_iState_min
    temp_iState_max :=
      if cfg.PIDTEMP then setAt s.temp_iState_max e ((s.Ki_Max : α) / s.Ki)
      else s.temp_iState_max }

/-- First part of `tp_init`, up to the start of the timer interrupt (lines 571-640). -/
def tp_init_reset (cfg : Config α) (s : State α) : State α :=
  (List.range (EXTRUDERS_T cfg)).foldl (fun s e => tpInitChannel cfg e s)
    { s with dudMaxCount := 0, dudMinCount := 0, dudBedCount := 0 }

/-- The assignment `minttemp[e] = temp2analog(T, e)` of `tp_init` when `T` is defined. -/
def setMinLimit (cfg : Config α) (lim : Option Int) (e : Nat) (s : State α) : State α :=
  match lim with
  | none => s
  | some T => { s with minttemp := setAt s.minttemp e (temp2analog cfg s T e) }

/-- The assignment `maxttemp[e] = temp2analog(T, e)` of `tp_init` when `T` is defined. -/
def setMaxLimit (cfg : Config α) (lim : Option Int) (e : Nat) (s : State α) : State α :=
  match lim with
  | none => s
  | some T => { s with maxttemp := setAt s.maxttemp e (temp2analog cfg s T e) }

/-- Lines 655-660 of `tp_init`: the limits of extruder 1. -/
def tpInitLimits1 (cfg : Config α) (s : State α) : State α :=
  if 1 < EXTRUDERS_T cfg then
    setMaxLimit cfg cfg.HEATER_1_MAXTEMP 1 (setMinLimit cfg cfg.HEATER_1_MINTEMP 1 s)
  else s

/-- Lines 662-667 of `tp_init`: the limits of extruder 2. -/
def tpInitLimits2 (cfg : Config α) (s : State α) : State α :=
  if 2 < EXTRUDERS_T cfg then
    setMaxLimit cfg cfg.HEATER_2_MAXTEMP 2 (setMinLimit cfg cfg.HEATER_2_MINTEMP 2 s)
  else s

/-- Lines 652-668 of `tp_init`: the limits of the extruders above 0, left to the slave
board when there is one. -/
def tpInitLimits12 (cfg : Config α) (s : State α) : State α :=
  if cfg.REPRAPPRO_MULTIMATERIALS then s else tpInitLimits2 cfg (tpInitLimits1 cfg s)

/-- Lines 670-672 of `tp_init`. -/
def tpInitBedMin (cfg : Config α) (s : State α) : State α :=
  match cfg.BED_MINTEMP with
  | none => s
  | some T => { s with bed_minttemp := temp2analogBed cfg s T }

/-- Lines 673-675 of `tp_init`. -/
def tpInitBedMax (cfg : Config α) (s : State α) : State α :=
  match cfg.BED_MAXTEMP with
  | none => s
  | some T => { s with bed_maxttemp := temp2analogBed cfg s T }

/-- Last part of `tp_init`, after `delay(250)` (lines 645-675). -/
def tp_init_limits (cfg : Config α) (s : State α) : State α :=
  tpInitBedMax cfg (tpInitBedMin cfg (tpInitLimits12 cfg
    (setMaxLimit cfg cfg.HEATER_0_MAXTEMP 0 (setMinLimit cfg cfg.HEATER_0_MINTEMP 0 s))))

/-- `tp_init`; `adcs` are the ADC values of the timer interrupts taken during
`delay(250)`. -/
def tp_init (cfg : Config α) (adcs : List Nat) (s : State α) : State α :=
  tp_init_limits cfg (runIsr cfg adcs (tp_init_reset cfg s))

/-! ## Regulation in the main loop (temperature.cpp:363-510) -/

/-- In-band branch of the PID computation (lines 393-405) for the measured temperature
`pid_input` and the error `err` already stored in `pid_error[e]`: the pending reset of the
integral, the three terms and the clamped sum, each assignment reading the values
assigned before it. -/
def pidInBand (cfg : Config α) (e : Nat) (pid_input err : α) (s : State α) : State α × α :=
  let iState0 : α := if s.pid_reset e = true then 0 else s.temp_iState e
  let pTerm : α := s.Kp * err
  let iState : α := constrain (iState0 + err) (s.temp_iState_min e) (s.temp_iState_max e)
  let iTerm : α := s.Ki * iState
  let dTerm : α := (s.Kd * (pid_input - s.temp_dState e)) * (1 - cfg.K1) + cfg.K1 * s.dTerm e
  ({ s with
     pid_error := setAt s.pid_error e err
     pid_reset := if s.pid_reset e = true then setAt s.pid_reset e false else s.pid_reset
     pTerm := setAt s.pTerm e pTerm
     temp_iState := setAt s.temp_iState e iState
     iTerm := setAt s.iTerm e iTerm
     dTerm := setAt s.dTerm e dTerm
     temp_dState := setAt s.temp_dState e pid_input },
   constrain (pTerm + iTerm - dTerm) 0 (cfg.PID_MAX : α))

/-- PID branch of the loop body of `manage_heater` (lines 380-406): the new state and
`pid_output`. -/
def pidOutput (cfg : Config α) (e : Nat) (s : State α) : State α × α :=
  let pid_input : α := analog2temp cfg s (s.current_raw e) e
  let err : α := s.pid_setpoint e - pid_input
  if (cfg.FULL_PID_BAND : α) < err then
    ({ s with pid_error := setAt s.pid_error e err, pid_reset := setAt s.pid_reset e true },
     (cfg.PID_MAX : α))
  else if err < -(cfg.FULL_PID_BAND : α) then
    ({ s with pid_error := setAt s.pid_error e err, pid_reset := setAt s.pid_reset e true }, 0)
  else pidInBand cfg e pid_input err s

/-- The value assigned to `pid_error[e]` at line 383. -/
def pidErrorOf (cfg : Config α) (e : Nat) (s : State α) : α :=
  s.pid_setpoint e - analog2temp cfg s (s.current_raw e) e

/-- Bang-bang branch of the loop body (lines 412-415). -/
def bangBangOutput (cfg : Config α) (e : Nat) (s : State α) : State α × α :=
  (s, if s.current_raw e < s.target_raw e then (cfg.PID_MAX : α) else 0)

/-- Output stage selected by `PIDTEMP`. -/
def heaterOutput (cfg : Config α) (e : Nat) (s : State α) : State α × α :=
  if cfg.PIDTEMP then pidOutput cfg e s else bangBangOutput cfg e s

/-- The duty stored for an output: `(int)pid_output >> 1` in an `unsigned char`. -/
def dutyOf (pid_output : α) : Nat :=
  wrapU8 ((truncInt pid_output) >>> (1 : Nat))

/-- Range gate of the loop body (lines 418-425) applied to the state and `pid_output`
left by the output stage. -/
def storeDuty (e : Nat) (r : State α × α) : State α :=
  if r.1.minttemp e < r.1.current_raw e ∧ r.1.current_raw e < r.1.maxttemp e then
    { r.1 with soft_pwm := setAt r.1.soft_pwm e (dutyOf r.2) }
  else { r.1 with soft_pwm := setAt r.1.soft_pwm e 0 }

/-- Loop body of `manage_heater` for channel `e` (lines 378-425). -/
def manageChannel (cfg : Config α) (e : Nat) (s : State α) : State α :=
  storeDuty e (heaterOutput cfg e s)

/-- Maximum check of extruder 0 on the master board (lines 437-454). -/
def masterCheckMax (cfg : Config α) (s : State α) : State α :=
  if 0 ≤ s.dudMaxCount then
    if cfg.HEATER_MAXTEMP ≤ degHotend cfg s 0 then
      if DUD_TEMP_COUNT ≤ wrapChar (s.dudMaxCount + 1) then
        max_temp_error 0 (setTargetHotendMaster cfg 0 0 { s with dudMaxCount := -1 })
      else { s with dudMaxCount := wrapChar (s.dudMaxCount + 1) }
    else { s with dudMaxCount := 0 }
  else setTargetHotendMaster cfg 0 0 s

/-- Minimum check of extruder 0 on the master board (lines 456-475). -/
def masterCheckMin (cfg : Config α) (s : State α) : State α :=
  if 0 ≤ s.dudMinCount then
    if degHotend cfg s 0 ≤ cfg.HEATER_MINTEMP then
      if DUD_TEMP_COUNT ≤ wrapChar (s.dudMinCount + 1) then
        min_temp_error 0 (setTargetHotendMaster cfg 0 0 { s with dudMinCount := -1 })
      else { s with dudMinCount := wrapChar (s.dudMinCount + 1) }
    else { s with dudMinCount := 0 }
  else setTargetHotendMaster cfg 0 0 s

/-- Master board check of extruder 0 in the REPRAPPRO_MULTIMATERIALS build
(lines 435-477). -/
def manageMasterCheck (cfg : Config α) (s : State α) : State α :=
  if cfg.REPRAPPRO_MULTIMATERIALS then masterCheckMin cfg (masterCheckMax cfg s) else s

/-- Bed check of `manage_heater` (lines 479-509), compiled when `TEMP_BED_PIN > -1`. -/
def manageBedCheck (cfg : Config α) (s : State α) : State α :=
  if cfg.TEMP_BED_PIN then
    if 0 ≤ s.dudBedCount then
      if s.bed_minttemp < s.current_raw_bed ∧ s.current_raw_bed < s.bed_maxttemp then
        { s with
          dudBedCount := 0
          heater_bed_pin := if s.target_raw_bed ≤ s.current_raw_bed then false else true }
      else if DUD_TEMP_COUNT ≤ wrapChar (s.dudBedCount + 1) then
        { bed_temp_error { s with dudBedCount := -1 } with heater_bed_pin := false }
      else { s with dudBedCount := wrapChar (s.dudBedCount + 1) }
    else { s with heater_bed_pin := false }
  else s

/-- Interval-gated part of `manage_heater` (lines 429-509); `now` is `millis()`. -/
def manageChecks (cfg : Config α) (now : Nat) (s : State α) : State α :=
  if wrapU32 ((now : Int) - s.previous_millis_bed_heater) < cfg.BED_CHECK_INTERVAL then s
  else
    manageBedCheck cfg (manageMasterCheck cfg { s with previous_millis_bed_heater := now })

/-- The extruder loop of `manage_heater` (lines 376-426). -/
def manageLoop (cfg : Config α) (s : State α) : State α :=
  (List.range (EXTRUDERS_T cfg)).foldl (fun s e => manageChannel cfg e s) s

/-- `manage_heater()`; `now` is the value of `millis()` during the call. -/
def manage_heater (cfg : Config α) (now : Nat) (s : State α) : State α :=
  if s.temp_meas_ready ≠ true then s
  else manageChecks cfg now (manageLoop cfg { s with temp_meas_ready := false })

/-! ## Interleaving of the interrupt and the main loop -/

/-- A step of the firmware: one execution of the timer ISR with its ADC register value, or
one call of `manage_heater` from the main loop with its value of `millis()`. -/
inductive Step where
  | tick (adc : Nat)
  | manage (now : Nat)

/-- Effect of a step. -/
def step (cfg : Config α) : Step → State α → State α
  | Step.tick adc, s => isr cfg adc s
  | Step.manage now, s => manage_heater cfg now s

/-- State after the first `n` steps of the schedule `sched` from `s0`. -/
def stepTrace (cfg : Config α) (sched : Nat → Step) (s0 : State α) : Nat → State α
  | 0 => s0
  | n + 1 => step cfg (sched n) (stepTrace cfg sched s0 n)

/-- Number of bed fault reports in the serial output. -/
def bedReports (s : State α) : Nat :=
  (s.serial.filter Event.isBedTempError).length

/-! ## Conversions without the rounding step -/

/-- The raw value of `temp2analogi` when its rounding step `(int)(0.5 + ...)` is left out:
`AD_RANGE - AD_RANGE*r/(r + rs)` as a real number. -/
def temp2analogExact (cfg : Config α) (celsius : Int) (beta rs r_inf : α) : α :=
  let r : α := r_inf * cfg.exp (beta / ((celsius : α) - cfg.ABS_ZERO))
  (cfg.AD_RANGE : α) - (cfg.AD_RANGE : α) * r / (r + rs)

/-- The formula of `analog2tempi` applied to a raw value that need not be an integer. -/
def analog2tempExact (cfg : Config α) (raw : α) (beta rs r_inf : α) : α :=
  let rawf : α := (cfg.AD_RANGE : α) - raw
  cfg.ABS_ZERO + beta / cfg.log ((rawf * rs / ((cfg.AD_RANGE : α) - rawf)) / r_inf)

/-! ## Thermistor constants (temperature.cpp:108-192) -/

/-- `setExtruderThermistor` (lines 108-120); `e` is an `int8_t`. -/
def setExtruderThermistor (cfg : Config α) (e : Int) (b r i : α) (s : State α) : State α :=
  if cfg.REPRAPPRO_MULTIMATERIALS ∧ 0 < e then
    { s with serial := s.serial ++ [Event.setSlaveExtruderThermistor e b r i] }
  else { s with eBeta := b, eRs := r, eRInf := i }

/-- `setBedThermistor` (lines 122-127). -/
def setBedThermistor (b r i : α) (s : State α) : State α :=
  { s with bBeta := b, bRs := r, bRInf := i }

/-- `getExtruderBeta` (lines 129-136); without a slave board the function reaches its end
without a `return` when `e` is not 0, which is `none` here. -/
def getExtruderBeta (cfg : Config α) (e : Int) (s : State α) : Option α :=
  if e = 0 then some s.eBeta
  else if cfg.REPRAPPRO_MULTIMATERIALS then some (cfg.getSlaveExtruderBeta e) else none

/-- `getExtruderRs` (lines 138-145). -/
def getExtruderRs (cfg : Config α) (e : Int) (s : State α) : Option α :=
  if e = 0 then some s.eRs
  else if cfg.REPRAPPRO_MULTIMATERIALS then some (cfg.getSlaveExtruderRs e) else none

/-- `getExtruderRInf` (lines 147-154). -/
def getExtruderRInf (cfg : Config α) (e : Int) (s : State α) : Option α :=
  if e = 0 then some s.eRInf
  else if cfg.REPRAPPRO_MULTIMATERIALS then some (cfg.getSlaveExtruderRInf e) else none

/-- `getBedBeta` (line 156). -/
def getBedBeta (s : State α) : α := s.bBeta

/-- `getBedRs` (line 157). -/
def getBedRs (s : State α) : α := s.bRs

/-- `getBedRInf` (line 158). -/
def getBedRInf (s : State α) : α := s.bRInf

/-- The four reference arguments of `getThermistor` and `setThermistor`. -/
structure Thermistor (α : Type) where
  beta : α
  resistor : α
  thermistor : α
  inf : α

/-- The constant `298.15` of lines 177 and 183. -/
def T25 : α := 29815 / 100

/-- `getThermistor(eb, beta, resistor, thermistor, inf)` (lines 160-178): the values stored
in the four reference arguments. -/
def getThermistor (cfg : Config α) (eb : Int) (s : State α) : Option (Thermistor α) :=
  let read : Option (α × α × α) :=
    if eb = 0 then some (getBedBeta s, getBedRs s, getBedRInf s)
    else
      let h : Int := wrapChar (wrapInt16 (eb - 1))
      match getExtruderBeta cfg h s, getExtruderRs cfg h s, getExtruderRInf cfg h s with
      | some b, some r, some i => some (b, r, i)
      | _, _, _ => none
  read.map fun v =>
    { beta := v.1, resistor := v.2.1, thermistor := v.2.2 / cfg.exp (-v.1 / T25), inf := v.2.2 }

/-- `setThermistor(eb, beta, resistor, thermistor, inf)` (lines 181-192): the new state
and the value stored in the reference argument `inf`. -/
def setThermistor (cfg : Config α) (eb : Int) (beta resistor thermistor : α) (s : State α) :
    State α × α :=
  let inf : α := thermistor * cfg.exp (-beta / T25)
  if eb = 0 then (setBedThermistor beta resistor inf s, inf)
  else (setExtruderThermistor cfg (wrapChar (wrapInt16 (eb - 1))) beta resistor inf s, inf)

/-! ## PID parameters (temperature.cpp:296-356) -/

/-- `updatePID` (lines 296-303). -/
def updatePID (cfg : Config α) (s : State α) : State α :=
  if cfg.PIDTEMP then
    (List.range (EXTRUDERS_T cfg)).foldl
      (fun s e => { s with temp_iState_max := setAt s.temp_iState_max e ((s.Ki_Max : α) / s.Ki) })
      s
  else s

/-- `getPIDValues(eb, Kpi, Kii, Kdi, Kmi)` (lines 306-321, compiled with PIDTEMP): the values
stored in the four reference arguments. -/
def getPIDValues (cfg : Config α) (eb : Int) (s : State α) : α × α × α × α :=
  let eb : Int := wrapInt16 (eb - 1)
  if cfg.REPRAPPRO_MULTIMATERIALS ∧ eb ≠ 0 then cfg.getSlavePIDValues eb
  else (s.Kp, s.Ki / cfg.PID_dT, s.Kd * cfg.PID_dT, (s.Ki_Max : α))

/-- Lines 335-351 of `setPIDValues`: the stores into the gains and the line printed between
them. -/
def setPIDLocal (cfg : Config α) (Kpi Kii Kdi Kmi : α) (s : State α) : State α :=
  let s : State α :=
    { s with Kp := Kpi, Ki := Kii, Kd := Kdi, Ki_Max := truncInt (constrain Kmi 0 255) }
  let s : State α := { s with serial := s.serial ++ [Event.pid_values s.Kp s.Ki s.Kd s.Ki_Max] }
  { s with Ki := s.Ki * cfg.PID_dT, Kd := Kdi / cfg.PID_dT }

/-- `setPIDValues(eb, Kpi, Kii, Kdi, Kmi)` (lines 323-354, compiled with PIDTEMP). -/
def setPIDValues (cfg : Config α) (eb : Int) (Kpi Kii Kdi Kmi : α) (s : State α) : State α :=
  let eb : Int := wrapInt16 (eb - 1)
  if cfg.REPRAPPRO_MULTIMATERIALS ∧ eb ≠ 0 then
    { s with serial := s.serial ++ [Event.setSlavePIDValues eb Kpi Kii Kdi Kmi] }
  else updatePID cfg (setPIDLocal cfg Kpi Kii Kdi Kmi s)

/-! ## Relay autotune (temperature.cpp:195-294) -/

/-- Local variables of `PID_autotune`. -/
structure Autotune (α : Type) where
  input : α
  cycles : Int
  heating : Bool
  temp_millis : Nat
  t1 : Nat
  t2 : Nat
  t_high : Int
  t_low : Int
  bias : Int
  d : Int
  Ku : α
  Tu : α
  Kp : α
  Ki : α
  Kd : α
  max : α
  min : α

/-- Values returned by the calls of `millis()` in one iteration of the loop of
`PID_autotune`, one field per call site. -/
structure Millis where
  /-- Line 230, `millis() - t2 > 5000`. -/
  coolTest : Nat
  /-- Line 233, `t1=millis()`. -/
  coolAt : Nat
  /-- Line 239, `millis() - t1 > 5000`. -/
  heatTest : Nat
  /-- Line 241, `t2=millis()`. -/
  heatAt : Nat
  /-- Line 277, `millis() - temp_millis > 2000`. -/
  printTest : Nat
  /-- Line 278, `temp_millis = millis()`. -/
  printAt : Nat
  /-- Line 284, `millis() - t1`. -/
  sinceT1 : Nat
  /-- Line 284, `millis() - t2`. -/
  sinceT2 : Nat

/-- The three `return` statements of `PID_autotune`. -/
inductive AutotuneExit where
  | too_high
  | timeout
  | finished
  deriving DecidableEq

/-- Global state and local variables of `PID_autotune` at the end of an iteration, and the
`return` taken in it, if any. -/
structure AutotuneRun (α : Type) where
  state : State α
  locals : Autotune α
  exit : Option AutotuneExit

/-- `PID_MAX/2`. -/
def halfMax (cfg : Config α) : Int := Int.tdiv cfg.PID_MAX 2

/-- Lines 229-237: the relay switches from heating to cooling. -/
def autotuneCool (temp : α) (clk : Millis) (s : State α) (l : Autotune α) :
    State α × Autotune α :=
  if l.heating = true ∧ temp < l.input then
    if 5000 < wrapU32 ((clk.coolTest : Int) - l.t2) then
      ({ s with
          soft_pwm := setAt s.soft_pwm 0 (wrapU8 (wrapInt32 (l.bias - l.d) >>> (1 : Nat))) },
       { l with
          heating := false
          t1 := clk.coolAt
          t_high := wrapInt32 ((clk.coolAt : Int) - l.t2)
          max := temp })
    else (s, l)
  else (s, l)

/-- Lines 244-247: the new `bias` and `d`. -/
def autotuneBias (cfg : Config α) (l : Autotune α) : Autotune α :=
  let bias : Int :=
    wrapInt32 (l.bias +
      Int.tdiv (wrapInt32 (l.d * wrapInt32 (l.t_high - l.t_low))) (wrapInt32 (l.t_low + l.t_high)))
  let bias : Int := constrain bias 20 (wrapInt16 (cfg.PID_MAX - cfg.FULL_PID_BAND))
  { l with
    bias := bias
    d := if halfMax cfg < bias then wrapInt32 (cfg.PID_MAX - 1 - bias) else bias }

/-- Lines 254-260: the ultimate gain and period and the classic PID gains. -/
def autotuneGains (l : Autotune α) : Autotune α :=
  let Ku : α := 4 * (l.d : α) / (314159 / 100000 * (l.max - l.min) / 2)
  let Tu : α := ((wrapInt32 (l.t_low + l.t_high) : Int) : α) / 1000
  let Kp : α := 6 / 10 * Ku
  { l with Ku := Ku, Tu := Tu, Kp := Kp, Ki := 2 * Kp / Tu, Kd := Kp * Tu / 8 }

/-- Lines 243-266: the adaptation done at a switch to heating once a cycle is complete. -/
def autotuneAdapt (cfg : Config α) (s : State α) (l : Autotune α) : State α × Autotune α :=
  if 0 < l.cycles then
    let l : Autotune α := autotuneBias cfg l
    let s : State α :=
      { s with serial := s.serial ++ [Event.autotune_bias l.bias l.d l.min l.max] }
    if 2 < l.cycles then
      let l : Autotune α := autotuneGains l
      ({ s with
          serial := s.serial ++
            [Event.autotune_Ku_Tu l.Ku l.Tu, Event.autotune_pid l.Kp l.Ki l.Kd] },
       l)
    else (s, l)
  else (s, l)

/-- Lines 240-242: the stores of a switch to heating. -/
def autotuneSwitch (clk : Millis) (l : Autotune α) : Autotune α :=
  { l with heating := true, t2 := clk.heatAt, t_low := wrapInt32 ((clk.heatAt : Int) - l.t1) }

/-- Lines 238-271: the relay switches from cooling to heating. -/
def autotuneHeat (cfg : Config α) (temp : α) (clk : Millis) (s : State α) (l : Autotune α) :
    State α × Autotune α :=
  if l.heating = false ∧ l.input < temp then
    if 5000 < wrapU32 ((clk.heatTest : Int) - l.t1) then
      let r : State α × Autotune α := autotuneAdapt cfg s (autotuneSwitch clk l)
      ({ r.1 with
          soft_pwm := setAt r.1.soft_pwm 0 (wrapU8 (wrapInt32 (r.2.bias + r.2.d) >>> (1 : Nat))) },
       { r.2 with cycles := wrapInt16 (r.2.cycles + 1), min := temp })
    else (s, l)
  else (s, l)

/-- Lines 225-228: the new reading and the running extremes (`max` and `min` are the
macros of the Arduino core). -/
def autotuneRead (cfg : Config α) (s : State α) (l : Autotune α) : Autotune α :=
  let input : α := analog2temp cfg s (s.current_raw 0) 0
  { l with
    input := input
    max := if input < l.max then l.max else input
    min := if l.min < input then l.min else input }

/-- Lines 221-272: the block run when a window of readings is ready. -/
def autotuneMeasure (cfg : Config α) (temp : α) (clk : Millis) (s : State α) (l : Autotune α) :
    State α × Autotune α :=
  if s.temp_meas_ready = true then
    let s : State α := { s with temp_meas_ready := false }
    let r : State α × Autotune α := autotuneCool temp clk s (autotuneRead cfg s l)
    autotuneHeat cfg temp clk r.1 r.2
  else (s, l)

/-- Lines 277-283: the progress line. -/
def autotunePrint (cfg : Config α) (clk : Millis) (s : State α) (l : Autotune α) :
    State α × Autotune α :=
  if 2000 < wrapU32 ((clk.printTest : Int) - l.temp_millis) then
    ({ s with serial := s.serial ++ [Event.autotune_temp (degHotend cfg s 0) (s.soft_pwm 0)] },
     { l with temp_millis := clk.printAt })
  else (s, l)

/-- The condition of line 284, `((millis() - t1) + (millis() - t2)) > (10L*60L*1000L*2L)`. -/
def autotuneTimedOut (clk : Millis) (l : Autotune α) : Bool :=
  decide (1200000 <
    wrapU32 ((wrapU32 ((clk.sinceT1 : Int) - l.t1) : Int) + wrapU32 ((clk.sinceT2 : Int) - l.t2)))

/-- Lines 273-292: the three exits and the progress line. -/
def autotuneChecks (cfg : Config α) (temp : α) (clk : Millis) (s : State α) (l : Autotune α) :
    AutotuneRun α :=
  if temp + 20 < l.input then
    { state := { s with serial := s.serial ++ [Event.autotune_too_high] }
      locals := l
      exit := some AutotuneExit.too_high }
  else
    let r : State α × Autotune α := autotunePrint cfg clk s l
    if autotuneTimedOut clk r.2 then
      { state := { r.1 with serial := r.1.serial ++ [Event.autotune_timeout] }
        locals := r.2
        exit := some AutotuneExit.timeout }
    else if 5 < r.2.cycles then
      { state := { r.1 with serial := r.1.serial ++ [Event.autotune_finished] }
        locals := r.2
        exit := some AutotuneExit.finished }
    else { state := r.1, locals := r.2, exit := none }

/-- One iteration of the loop of `PID_autotune` (lines 219-293), run without interruption
from the global state `s` and the local variables `l`. -/
def autotuneIter (cfg : Config α) (temp : α) (clk : Millis) (s : State α) (l : Autotune α) :
    AutotuneRun α :=
  let r : State α × Autotune α := autotuneMeasure cfg temp clk s l
  autotuneChecks cfg temp clk r.1 r.2

/-- Lines 197-217 of `PID_autotune`: the initialised local variables, the start line,
`disable_heater()` and the first duty. The variables the source leaves uninitialised
(`input`, `t_high`, `t_low`, `Ku`, `Tu`, `Kp`, `Ki`, `Kd`, `max`, `min`) keep the values of
`junk`; `now` is the value of `millis()` at line 201. -/
def autotuneStart (cfg : Config α) (junk : Autotune α) (now : Nat) (s : State α) :
    AutotuneRun α :=
  let s : State α := { s with serial := s.serial ++ [Event.autotune_start] }
  let s : State α := disable_heater cfg s
  { state := { s with soft_pwm := setAt s.soft_pwm 0 (wrapU8 (halfMax cfg)) }
    locals :=
      { junk with
        cycles := 0
        heating := true
        temp_millis := now
        t1 := now
        t2 := now
        bias := wrapInt32 (halfMax cfg)
        d := wrapInt32 (halfMax cfg) }
    exit := none }

/-- The loop of `PID_autotune` after at most `n` iterations from `r`: before iteration
number `k` the timer ISR runs once for every element of `ticks k`, and the iteration reads
the clock values `clk k`; once an iteration returns, nothing changes any more. -/
def autotuneLoop (cfg : Config α) (temp : α) (ticks : Nat → List Nat) (clk : Nat → Millis)
    (r : AutotuneRun α) : Nat → AutotuneRun α
  | 0 => r
  | n + 1 =>
    match (autotuneLoop cfg temp ticks clk r n).exit with
    | some _ => autotuneLoop cfg temp ticks clk r n
    | none =>
      autotuneIter cfg temp (clk n)
        (runIsr cfg (ticks n) (autotuneLoop cfg temp ticks clk r n).state)
        (autotuneLoop cfg temp ticks clk r n).locals

/-- `PID_autotune(temp)` (lines 195-294) run for at most `n` iterations of its loop. -/
def PID_autotune (cfg : Config α) (temp : α) (junk : Autotune α) (now : Nat)
    (ticks : Nat → List Nat) (clk : Nat → Millis) (n : Nat) (s : State α) : AutotuneRun α :=
  autotuneLoop cfg temp ticks clk (autotuneStart cfg junk now s) n

/-- Global state with which iteration number `n` of the loop starts: the state left by the
iterations before it, after the executions of the ISR that precede the iteration. -/
def autotuneEntry (cfg : Config α) (temp : α) (ticks : Nat → List Nat) (clk : Nat → Millis)
    (r : AutotuneRun α) (n : Nat) : State α :=
  runIsr cfg (ticks n) (autotuneLoop cfg temp ticks clk r n).state

/-- Global state and local variables of iteration number `n` after its measurement block
(lines 221-272), where the three exit tests start. -/
def autotuneMeasured (cfg : Config α) (temp : α) (ticks : Nat → List Nat) (clk : Nat → Millis)
    (r : AutotuneRun α) (n : Nat) : State α × Autotune α :=
  autotuneMeasure cfg temp (clk n) (autotuneEntry cfg temp ticks clk r n)
    (autotuneLoop cfg temp ticks clk r n).locals

/-- Local variables of iteration number `n` at line 238, after the reading and the test
for a switch to cooling. -/
def autotuneSampled (cfg : Config α) (temp : α) (ticks : Nat → List Nat) (clk : Nat → Millis)
    (r : AutotuneRun α) (n : Nat) : Autotune α :=
  (autotuneCool temp (clk n) { autotuneEntry cfg temp ticks clk r n with temp_meas_ready := false }
    (autotuneRead cfg { autotuneEntry cfg temp ticks clk r n with temp_meas_ready := false }
      (autotuneLoop cfg temp ticks clk r n).locals)).2

/-- Iteration number `n` is executed and reaches line 254, where the gains are computed: a
window is ready, the relay switches to heating and `cycles > 2`. -/
def computesGains (cfg : Config α) (temp : α) (ticks : Nat → List Nat) (clk : Nat → Millis)
    (r : AutotuneRun α) (n : Nat) : Bool :=
  decide ((autotuneLoop cfg temp ticks clk r n).exit = none) &&
  (autotuneEntry cfg temp ticks clk r n).temp_meas_ready &&
  !(autotuneSampled cfg temp ticks clk r n).heating &&
  decide ((autotuneSampled cfg temp ticks clk r n).input < temp) &&
  decide (5000 <
    wrapU32 (((clk n).heatTest : Int) - (autotuneSampled cfg temp ticks clk r n).t1)) &&
  decide (2 < (autotuneSampled cfg temp ticks clk r n).cycles)

/-- Local variables with which iteration number `n` executes line 254. -/
def autotuneAtGains (cfg : Config α) (temp : α) (ticks : Nat → List Nat) (clk : Nat → Millis)
    (r : AutotuneRun α) (n : Nat) : Autotune α :=
  autotuneBias cfg (autotuneSwitch (clk n) (autotuneSampled cfg temp ticks clk r n))

/-- Iteration number `n` is executed and reaches line 244, the correction of `bias`: a
window is ready, the relay switches to heating and `cycles > 0`. -/
def correctsBias (cfg : Config α) (temp : α) (ticks : Nat → List Nat) (clk : Nat → Millis)
    (r : AutotuneRun α) (n : Nat) : Bool :=
  decide ((autotuneLoop cfg temp ticks clk r n).exit = none) &&
  (autotuneEntry cfg temp ticks clk r n).temp_meas_ready &&
  !(autotuneSampled cfg temp ticks clk r n).heating &&
  decide ((autotuneSampled cfg temp ticks clk r n).input < temp) &&
  decide (5000 <
    wrapU32 (((clk n).heatTest : Int) - (autotuneSampled cfg temp ticks clk r n).t1)) &&
  decide (0 < (autotuneSampled cfg temp ticks clk r n).cycles)

/-- Local variables with which iteration number `n` executes line 244, whose division is
by their `t_low + t_high`. -/
def autotuneAtBias (cfg : Config α) (temp : α) (ticks : Nat → List Nat) (clk : Nat → Millis)
    (r : AutotuneRun α) (n : Nat) : Autotune α :=
  autotuneSwitch (clk n) (autotuneSampled cfg temp ticks clk r n)

/-- The thermistor configuration of the concrete scenarios over any field, with the given
`exp` and `log`. -/
def cfgOf (ex lg : α → α) : Config α where
  K1 := 95 / 100
  PID_dT := 128 / 1000
  HEATER_MAXTEMP := 275
  HEATER_MINTEMP := 5
  ABS_ZERO := -27315 / 100
  DEFAULT_Kp := 22
  DEFAULT_Ki := 1
  DEFAULT_Kd := 114
  BED_MAXTEMP := some 150
  exp := ex
  log := lg
  slaveDegHotend := fun _ => 0
  getSlaveExtruderBeta := fun _ => 0
  getSlaveExtruderRs := fun _ => 0
  getSlaveExtruderRInf := fun _ => 0
  getSlavePIDValues := fun _ => (0, 0, 0, 0)

end Model

/-- A one-extruder thermistor configuration over the rationals, used by the concrete
scenarios; its `exp` and `log` are the identity, so that conversions stay rational. -/
def cfgQ : Config ℚ where
  K1 := 95 / 100
  PID_dT := 128 / 1000
  HEATER_MAXTEMP := 275
  HEATER_MINTEMP := 5
  ABS_ZERO := -27315 / 100
  DEFAULT_Kp := 22
  DEFAULT_Ki := 1
  DEFAULT_Kd := 114
  BED_MAXTEMP := some 150
  exp := fun x => x
  log := fun x => x
  slaveDegHotend := fun _ => 0
  getSlaveExtruderBeta := fun _ => 0
  getSlaveExtruderRs := fun _ => 0
  getSlaveExtruderRInf := fun _ => 0
  getSlavePIDValues := fun _ => (0, 0, 0, 0)

/-- State of `cfgQ` after static initialisation with a raw target of 9000 on extruder 0
and on the bed, and the bed limits 50 and 16383. -/
def heatingState : State ℚ :=
  { initState cfgQ with
    target_raw := fun _ => 9000
    target_raw_bed := 9000
    bed_minttemp := 50 }

/-- ADC register stream of a shorted thermistor: every conversion reads 0. -/
def adcShorted (_n : Nat) : Nat := 0

/-- ADC register stream of an open thermistor: every conversion reads 1023. -/
def adcOpen (_n : Nat) : Nat := 1023

/-- ADC register stream with a mid-range reading: every conversion reads 500. -/
def adcMid (_n : Nat) : Nat := 500

/-- ADC register stream of a thermistor that is shorted except during the third window
(ticks 256 to 383), where it reads 500. -/
def adcShortedTwice (n : Nat) : Nat := if 256 ≤ n ∧ n < 384 then 500 else 0

/-- ADC register stream with an open bed thermistor (read in phase 3) and a mid-range
extruder thermistor. -/
def adcBedOpen (n : Nat) : Nat := if n % 8 = 3 then 1023 else 500

/-- State of `cfgQ` one tick before the end of a window, with the maximum counter
latched. -/
def latchedState : State ℚ :=
  { heatingState with dudMaxCount := -1, temp_state := 7, temp_count := 15 }

/-- The configuration `cfgQ` with a saturation band of 15 degrees. -/
def cfgBand15 : Config ℚ := { cfgQ with FULL_PID_BAND := 15 }

/-- State with a ready window in which extruder 0 has the setpoint 200 and a raw reading
of 8000 that the thermistor constants convert to 150 degrees (the `log` of `cfgQ` is the
identity), inside the raw bounds 50 and 16383, with an integral accumulator of 1000. -/
def regState : State ℚ :=
  { heatingState with
    temp_meas_ready := true
    current_raw := fun _ => 8000
    eBeta := 42315 / 100 * (8383 / 8000)
    eRs := 1
    eRInf := 1
    pid_setpoint := fun _ => 200
    temp_iState := fun _ => 1000
    temp_iState_max := fun _ => 255 }

/-- The state `regState` one window later: the call of `manage_heater` has run, a new
window is ready and the setpoint has been lowered to 155 degrees. -/
def regStateNext : State ℚ :=
  { manage_heater cfgBand15 0 regState with
    temp_meas_ready := true
    pid_setpoint := fun _ => 155 }

/-- State of `cfgQ` at the start of a PWM period with a duty of 100 on extruder 0. -/
def pwmState : State ℚ :=
  { heatingState with pwm_count := 0, soft_pwm := fun _ => 100 }

/-- The state `pwmState` with the maximum-temperature latch set and the heater-0 pin HIGH. -/
def latchedPwmState : State ℚ :=
  { pwmState with dudMaxCount := -1, heater_0_pin := true }

/-- The state `heatingState` with the bed heater switched on. -/
def bedState : State ℚ :=
  { heatingState with heater_bed_pin := true }

/-- The configuration `cfgQ` without `BED_MAXTEMP`, so that the bed check of the ISR is
not compiled. -/
def cfgNoBedMax : Config ℚ := { cfgQ with BED_MAXTEMP := none }

/-- Bed scenario: three times, one sampling window of the ISR with an open bed thermistor
followed by a call of `manage_heater` whose bed check is due (`millis()` 5000, 10000 and
15000); `bedRun cfg k` is the state after the check number `k`. -/
def bedRun (cfg : Config ℚ) : Nat → State ℚ
  | 0 => bedState
  | k + 1 => manage_heater cfg (5000 * (k + 1)) (isrTrace cfg adcBedOpen (bedRun cfg k) 128)

/-- Schedule of the bed scenario: 128 ISR ticks with an open bed thermistor, then a call of
`manage_heater`, with `millis()` advancing by 5000 from call to call. -/
def bedSchedule (k : Nat) : Step :=
  if k % 129 = 128 then Step.manage (5000 * (k / 129 + 1)) else Step.tick (adcBedOpen (k % 129))

/-- Arbitrary values for the local variables that `PID_autotune` does not initialise. -/
def junkQ : Autotune ℚ where
  input := 0
  cycles := 0
  heating := false
  temp_millis := 0
  t1 := 0
  t2 := 0
  t_high := 0
  t_low := 0
  bias := 0
  d := 0
  Ku := 0
  Tu := 0
  Kp := 0
  Ki := 0
  Kd := 0
  max := 0
  min := 0

/-- An iteration in which every call of `millis()` returns `t`. -/
def clockAt (t : Nat) : Millis where
  coolTest := t
  coolAt := t
  heatTest := t
  heatAt := t
  printTest := t
  printAt := t
  sinceT1 := t
  sinceT2 := t

/-- No execution of the ISR between the iterations. -/
def noTicks (_k : Nat) : List Nat := []

/-- Clock of an autotune whose first iteration runs at 300000 ms and whose later
iterations run at 600001 ms. -/
def slowClock (k : Nat) : Millis := if k = 0 then clockAt 300000 else clockAt 600001

/-- Clock of an autotune whose first iteration runs at 300000 ms and whose later
iterations run at 900001 ms. -/
def lateClock (k : Nat) : Millis := if k = 0 then clockAt 300000 else clockAt 900001

/-- State of `cfgQ` whose extruder thermistor reads 155 degrees for 16 ADC samples of 500
and about 138.6 degrees for 16 samples of 510 (the `log` of `cfgQ` is the identity). -/
def tuneState : State ℚ :=
  { heatingState with eBeta := 42815 / 100 * (8000 / 8383), eRs := 1, eRInf := 1 }

/-- One sampling window of the ISR before every iteration, reading 500 (hot) before the
even iterations and 510 (cold) before the odd ones. -/
def tuneTicks (k : Nat) : List Nat := List.replicate 128 (if k % 2 = 0 then 500 else 510)

/-- Iteration number `k` runs at `6000*(k + 1)` ms. -/
def tuneClock (k : Nat) : Millis := clockAt (6000 * (k + 1))

/-- The configuration `cfgQ` with a second local extruder. -/
def cfgTwo : Config ℚ := { cfgQ with EXTRUDERS := 2, TEMP_1_PIN := true, HEATER_1_PIN := true }

/-- The state `heatingState` with the upper bound of every channel at 16383, as `tp_init`
leaves it when no `HEATER_x_MAXTEMP` is defined. -/
def twoState : State ℚ := { heatingState with maxttemp := fun _ => 16383 }

/-- ADC register stream with a shorted thermistor on extruder 0 (read in phase 1) and
mid-range readings on every other input. -/
def adcShorted0 (n : Nat) : Nat := if n % 8 = 1 then 0 else 500

/-! ## Frames: which variables a step may write -/

section Vocabulary

variable {α : Type}

/-- Agreement of two states outside the variables private to the PWM and sampling parts of
the ISR (the PWM snapshot and counter, the extruder pins, the accumulators, the phase and
the pass counter). -/
def LocalFrame (s s' : State α) : Prop :=
  ∃ a b c p q r n w x y z ph cnt, s' =
    { s with soft_pwm_0 := a, soft_pwm_1 := b, soft_pwm_2 := c, heater_0_pin := p,
             heater_1_pin := q, heater_2_pin := r, pwm_count := n, raw_temp_0_value := w,
             raw_temp_1_value := x, raw_temp_2_value := y, raw_temp_bed_value := z,
             temp_state := ph, temp_count := cnt }

/-- Agreement of two states outside the variables written by the fault checks of the ISR:
the three debounce counters, the targets and the serial output. -/
def CheckFrame (s s' : State α) : Prop :=
  ∃ c1 c2 c3 t tb l, s' =
    { s with dudMaxCount := c1, dudMinCount := c2, dudBedCount := c3, target_raw := t,
             target_raw_bed := tb, serial := l }

/-- The step from `s` to `s'` writes none of the three debounce counters. -/
def CountersKept (s s' : State α) : Prop :=
  s'.dudMaxCount = s.dudMaxCount ∧ s'.dudMinCount = s.dudMinCount ∧
    s'.dudBedCount = s.dudBedCount

/-- Agreement of two states outside the variables written by `manage_heater` before its
interval-gated checks: the ready flag, the PID state and the duties. -/
def RegFrame (s s' : State α) : Prop :=
  ∃ rdy pe pr ti pt it dt td sp, s' =
    { s with temp_meas_ready := rdy, pid_error := pe, pid_reset := pr, temp_iState := ti,
             pTerm := pt, iTerm := it, dTerm := dt, temp_dState := td, soft_pwm := sp }

/-- The step from `s` to `s'` leaves the entries of index `e` of the arrays written by
the loop of `manage_heater` alone. -/
def ChannelKept (e : Nat) (s s' : State α) : Prop :=
  s'.pid_error e = s.pid_error e ∧ s'.pid_reset e = s.pid_reset e ∧
  s'.temp_iState e = s.temp_iState e ∧ s'.pTerm e = s.pTerm e ∧ s'.iTerm e = s.iTerm e ∧
  s'.dTerm e = s.dTerm e ∧ s'.temp_dState e = s.temp_dState e ∧ s'.soft_pwm e = s.soft_pwm e

/-- Agreement of two states outside the variables written by the interval-gated checks of
`manage_heater`. -/
def ChecksFrame (s s' : State α) : Prop :=
  ∃ pm c1 c2 c3 t sp l bp, s' =
    { s with previous_millis_bed_heater := pm, dudMaxCount := c1, dudMinCount := c2,
             dudBedCount := c3, target_raw := t, pid_setpoint := sp, serial := l,
             heater_bed_pin := bp }

/-- The step from `s` to `s'` leaves the bed monitor alone: the bed counter, the bed
target, the bed pin, the number of bed fault reports, the bed reading and its bounds. -/
def BedKept (s s' : State α) : Prop :=
  s'.dudBedCount = s.dudBedCount ∧ s'.target_raw_bed = s.target_raw_bed ∧
  s'.heater_bed_pin = s.heater_bed_pin ∧
  (s'.serial.filter Event.isBedTempError).length =
    (s.serial.filter Event.isBedTempError).length ∧
  s'.current_raw_bed = s.current_raw_bed ∧ s'.bed_minttemp = s.bed_minttemp ∧
  s'.bed_maxttemp = s.bed_maxttemp

/-- The step from `s` to `s'` leaves the PID parameters alone: the three gains, the
integral ceiling and the integral clamp derived from it. -/
def GainsKept (s s' : State α) : Prop :=
  s'.Kp = s.Kp ∧ s'.Ki = s.Ki ∧ s'.Kd = s.Kd ∧ s'.Ki_Max = s.Ki_Max ∧
  s'.temp_iState_max = s.temp_iState_max

/-- The calls of `millis()` of one iteration return values in the order of the calls. -/
def Millis.ordered (c : Millis) : Prop :=
  c.coolTest ≤ c.coolAt ∧ c.coolAt ≤ c.heatTest ∧ c.heatTest ≤ c.heatAt ∧
  c.heatAt ≤ c.printTest ∧ c.printTest ≤ c.printAt ∧ c.printAt ≤ c.sinceT1 ∧
  c.printAt ≤ c.sinceT2

/-- Monotonic clock without wrap-around during the iterations `0..n` of an autotune started
at `now`: the values of `millis()` never decrease, stay below `2^32`, and stay less than
`2^31` ms after `now`, so that no interval stored in a `long` wraps. -/
def ClockOk (now : Nat) (clk : Nat → Millis) (n : Nat) : Prop :=
  now ≤ (clk 0).coolTest ∧
  ∀ k, k ≤ n →
    (clk k).ordered ∧
    (clk k).sinceT1 < 4294967296 ∧ (clk k).sinceT2 < 4294967296 ∧
    (clk k).sinceT1 < now + 2147483648 ∧ (clk k).sinceT2 < now + 2147483648 ∧
    (k < n → (clk k).sinceT1 ≤ (clk (k + 1)).coolTest ∧
      (clk k).sinceT2 ≤ (clk (k + 1)).coolTest)

/-- What the local variables of an autotune started at `now` satisfy before an iteration
whose first call of `millis()` returns at least `T`: the two switch times lie between `now`
and `T`, and while the relay is off, `max` is at least `temp` and `t_high` is the length
`t1 - t2` of the last heating phase, more than 5000 ms. -/
def AutotuneInv [LinearOrder α] (now : Nat) (temp : α) (T : Nat) (l : Autotune α) : Prop :=
  now ≤ l.t1 ∧ now ≤ l.t2 ∧ l.t1 ≤ T ∧ l.t2 ≤ T ∧
  (l.heating = false →
    temp ≤ l.max ∧ l.t2 ≤ l.t1 ∧ l.t_high = (l.t1 : Int) - l.t2 ∧ 5000 < l.t_high)

/-- The step from `s` to `s'` leaves the integral clamp and the values it is derived from
alone. -/
def ClampKept (s s' : State α) : Prop :=
  s'.Ki = s.Ki ∧ s'.Ki_Max = s.Ki_Max ∧ s'.temp_iState_min = s.temp_iState_min ∧
  s'.temp_iState_max = s.temp_iState_max

/-- Agreement of two states outside the variables written by the PWM part of the ISR. -/
def PwmFrame (s s' : State α) : Prop :=
  ∃ a b c p q r n, s' =
    { s with soft_pwm_0 := a, soft_pwm_1 := b, soft_pwm_2 := c, heater_0_pin := p,
             heater_1_pin := q, heater_2_pin := r, pwm_count := n }

/-- Sum of the ADC values read in the ticks `128*w + k` with `k < m` and `k % 8 = ph`: the
samples of phase `ph` among the first `m` ticks of sampling window number `w`. -/
def partialSum (adc : Nat → Nat) (ph w m : Nat) : Nat :=
  (((List.range m).filter (fun k => k % 8 = ph)).map (fun k => adc (128 * w + k))).sum

/-- Sum of the 16 ADC values read in phase `ph` of sampling window number `w`. -/
def phaseSum (adc : Nat → Nat) (ph w : Nat) : Nat :=
  ((List.range 16).map (fun j => adc (128 * w + (8 * j + ph)))).sum

/-- The relay levels `bias - d` and `bias + d` of the autotune lie in `[0, PID_MAX]`. -/
def DutyRange (cfg : Config α) (l : Autotune α) : Prop :=
  0 ≤ l.d ∧ 0 ≤ l.bias - l.d ∧ l.bias + l.d ≤ cfg.PID_MAX

end Vocabulary

/-! ## Frames of the interrupt -/

section Frames

variable {α : Type}

theorem LocalFrame.lrefl (s : State α) : LocalFrame s s :=
  ⟨_, _, _, _, _, _, _, _, _, _, _, _, _, rfl⟩

theorem LocalFrame.ltrans {s t u : State α} (h : LocalFrame s t) (k : LocalFrame t u) :
    LocalFrame s u := by
  obtain ⟨a, b, c, p, q, r, n, w, x, y, z, ph, cnt, rfl⟩ := h
  obtain ⟨a', b', c', p', q', r', n', w', x', y', z', ph', cnt', rfl⟩ := k
  exact ⟨_, _, _, _, _, _, _, _, _, _, _, _, _, rfl⟩

theorem pwmLoad0_frame (hOn : Bool) (s : State α) : LocalFrame s (pwmLoad0 hOn s) :=
  ⟨_, _, _, _, _, _, _, _, _, _, _, _, _, rfl⟩

theorem pwmLoad1_frame (cfg : Config α) (hOn : Bool) (s : State α) :
    LocalFrame s (pwmLoad1 cfg hOn s) := by
  unfold pwmLoad1
  by_cases h : 1 < cfg.EXTRUDERS
  · rw [if_pos h]
    exact ⟨_, _, _, _, _, _, _, _, _, _, _, _, _, rfl⟩
  · rw [if_neg h]
    exact LocalFrame.lrefl s

theorem pwmLoad2_frame (cfg : Config α) (hOn : Bool) (s : State α) :
    LocalFrame s (pwmLoad2 cfg hOn s) := by
  unfold pwmLoad2
  by_cases h : 2 < cfg.EXTRUDERS
  · rw [if_pos h]
    exact ⟨_, _, _, _, _, _, _, _, _, _, _, _, _, rfl⟩
  · rw [if_neg h]
    exact LocalFrame.lrefl s

theorem pwmLoad_frame (cfg : Config α) (hOn : Bool) (s : State α) :
    LocalFrame s (pwmLoad cfg hOn s) := by
  unfold pwmLoad
  split_ifs
  · exact pwmLoad0_frame hOn s
  · exact ((pwmLoad0_frame hOn s).ltrans (pwmLoad1_frame cfg hOn _)).ltrans
      (pwmLoad2_frame cfg hOn _)
  · exact LocalFrame.lrefl s

theorem pwmOff0_frame (s : State α) : LocalFrame s (pwmOff0 s) :=
  ⟨_, _, _, _, _, _, _, _, _, _, _, _, _, rfl⟩

theorem pwmOff12_frame (cfg : Config α) (s : State α) : LocalFrame s (pwmOff12 cfg s) := by
  unfold pwmOff12
  by_cases h : cfg.REPRAPPRO_MULTIMATERIALS = true
  · rw [if_pos h]
    exact LocalFrame.lrefl s
  · rw [if_neg h]
    exact ⟨_, _, _, _, _, _, _, _, _, _, _, _, _, rfl⟩

theorem pwmAdvance_frame (s : State α) : LocalFrame s (pwmAdvance s) :=
  ⟨_, _, _, _, _, _, _, _, _, _, _, _, _, rfl⟩

/-- The PWM part of the ISR writes only ISR-private variables and extruder pins. -/
theorem isrPwm_frame (cfg : Config α) (s : State α) : LocalFrame s (isrPwm cfg s) := by
  unfold isrPwm
  exact (((pwmLoad_frame cfg _ s).ltrans (pwmOff0_frame _)).ltrans (pwmOff12_frame cfg _)).ltrans
    (pwmAdvance_frame _)

/-- The sampling switch writes only the accumulators, the phase and the pass counter. -/
theorem isrSample_frame (cfg : Config α) (adc : Nat) (s : State α) :
    LocalFrame s (isrSample cfg adc s) := by
  unfold isrSample
  split <;> exact ⟨_, _, _, _, _, _, _, _, _, _, _, _, _, rfl⟩

/-- The part of the ISR before the end-of-window block. -/
theorem isrLocal_frame (cfg : Config α) (adc : Nat) (s : State α) :
    LocalFrame s (isrSample cfg adc (isrPwm cfg s)) :=
  (isrPwm_frame cfg s).ltrans (isrSample_frame cfg adc _)

theorem CheckFrame.crefl (s : State α) : CheckFrame s s :=
  ⟨_, _, _, _, _, _, rfl⟩

theorem CheckFrame.ctrans {s t u : State α} (h : CheckFrame s t) (k : CheckFrame t u) :
    CheckFrame s u := by
  obtain ⟨c1, c2, c3, x, y, l, rfl⟩ := h
  obtain ⟨c1', c2', c3', x', y', l', rfl⟩ := k
  exact ⟨_, _, _, _, _, _, rfl⟩

theorem max_temp_error_frame (e : Nat) (s : State α) : CheckFrame s (max_temp_error e s) := by
  unfold max_temp_error
  split_ifs
  · exact ⟨_, _, _, _, _, _, rfl⟩
  · exact CheckFrame.crefl s

theorem min_temp_error_frame (e : Nat) (s : State α) : CheckFrame s (min_temp_error e s) := by
  unfold min_temp_error
  split_ifs
  · exact ⟨_, _, _, _, _, _, rfl⟩
  · exact CheckFrame.crefl s

theorem bed_temp_error_frame (s : State α) : CheckFrame s (bed_temp_error s) := by
  unfold bed_temp_error
  split_ifs
  · exact ⟨_, _, _, _, _, _, rfl⟩
  · exact CheckFrame.crefl s

theorem isrCheckMax_frame (e : Nat) (s : State α) : CheckFrame s (isrCheckMax e s) := by
  unfold isrCheckMax
  split_ifs
  · exact CheckFrame.ctrans ⟨_, _, _, _, _, _, rfl⟩ (max_temp_error_frame e _)
  · exact ⟨_, _, _, _, _, _, rfl⟩
  · exact ⟨_, _, _, _, _, _, rfl⟩
  · exact ⟨_, _, _, _, _, _, rfl⟩

theorem isrCheckMin_frame (e : Nat) (s : State α) : CheckFrame s (isrCheckMin e s) := by
  unfold isrCheckMin
  split_ifs
  · exact CheckFrame.ctrans
      (CheckFrame.ctrans ⟨_, _, _, _, _, _, rfl⟩ (min_temp_error_frame e _))
      ⟨_, _, _, _, _, _, rfl⟩
  · exact ⟨_, _, _, _, _, _, rfl⟩
  · exact ⟨_, _, _, _, _, _, rfl⟩
  · exact ⟨_, _, _, _, _, _, rfl⟩

theorem isrCheckExtruder_frame (cfg : Config α) (e : Nat) (s : State α) :
    CheckFrame s (isrCheckExtruder cfg e s) := by
  unfold isrCheckExtruder
  split_ifs
  · exact CheckFrame.crefl s
  · exact (isrCheckMax_frame e s).ctrans (isrCheckMin_frame e _)

theorem isrCheckBed_frame (cfg : Config α) (s : State α) :
    CheckFrame s (isrCheckBed cfg s) := by
  unfold isrCheckBed
  split_ifs
  · exact CheckFrame.ctrans ⟨_, _, _, _, _, _, rfl⟩ (bed_temp_error_frame _)
  · exact ⟨_, _, _, _, _, _, rfl⟩
  · exact ⟨_, _, _, _, _, _, rfl⟩
  · exact ⟨_, _, _, _, _, _, rfl⟩
  · exact CheckFrame.crefl s

/-- A property kept by every step of a left fold is kept by the fold. -/
theorem foldl_keeps {σ : Type} (f : σ → Nat → σ) (P : σ → Prop)
    (hstep : ∀ s e, P s → P (f s e)) (l : List Nat) (s : σ) (h : P s) : P (l.foldl f s) := by
  induction l generalizing s with
  | nil => exact h
  | cons e l ih => exact ih _ (hstep s e h)

theorem isrCheckLoop_frame (cfg : Config α) (s : State α) :
    CheckFrame s (isrCheckLoop cfg s) := by
  unfold isrCheckLoop
  exact foldl_keeps _ (CheckFrame s)
    (fun u e hu => hu.ctrans (isrCheckExtruder_frame cfg e u)) _ s (CheckFrame.crefl s)

end Frames

/-! ## Debounce counters in the interrupt -/

section Debounce

variable {α : Type}

theorem isr_of_endsWindow (cfg : Config α) (adc : Nat) (s : State α)
    (h : endsWindow cfg adc s = true) :
    isr cfg adc s = isrWindowEnd cfg (isrSample cfg adc (isrPwm cfg s)) := by
  unfold endsWindow at h
  unfold isr
  rw [if_pos (of_decide_eq_true h)]

theorem isr_of_not_endsWindow (cfg : Config α) (adc : Nat) (s : State α)
    (h : endsWindow cfg adc s = false) :
    isr cfg adc s = isrSample cfg adc (isrPwm cfg s) := by
  unfold endsWindow at h
  unfold isr
  rw [if_neg (of_decide_eq_false h)]

/-- A tick that does not end a window leaves everything outside the ISR-private variables
and the extruder pins alone. -/
theorem isr_frame_of_not_endsWindow (cfg : Config α) (adc : Nat) (s : State α)
    (h : endsWindow cfg adc s = false) : LocalFrame s (isr cfg adc s) := by
  rw [isr_of_not_endsWindow cfg adc s h]
  exact isrLocal_frame cfg adc s

theorem isrCheckMax_latched (e : Nat) (s : State α) (h : s.dudMaxCount < 0) :
    isrCheckMax e s = { s with target_raw := setAt s.target_raw e 0 } := by
  unfold isrCheckMax
  rw [if_neg (not_le.mpr h)]

theorem isrCheckMin_latched (e : Nat) (s : State α) (h : s.dudMinCount < 0) :
    isrCheckMin e s = { s with target_raw := setAt s.target_raw e 0 } := by
  unfold isrCheckMin
  rw [if_neg (not_le.mpr h)]

/-- Below the threshold the maximum check only counts. -/
theorem isrCheckMax_counting (e : Nat) (s : State α) (h0 : 0 ≤ s.dudMaxCount)
    (h2 : s.dudMaxCount ≤ 2) :
    isrCheckMax e s =
      { s with dudMaxCount := if s.maxttemp e ≤ s.current_raw e then s.dudMaxCount + 1 else 0 } := by
  unfold isrCheckMax
  have hw : wrapChar (s.dudMaxCount + 1) = s.dudMaxCount + 1 := by
    unfold wrapChar
    omega
  have hn : ¬ DUD_TEMP_COUNT < wrapChar (s.dudMaxCount + 1) := by
    rw [hw]
    unfold DUD_TEMP_COUNT
    omega
  rw [if_pos h0, if_neg hn, hw]
  split_ifs <;> rfl

/-- Below the threshold the minimum check only counts. -/
theorem isrCheckMin_counting (e : Nat) (s : State α) (h0 : 0 ≤ s.dudMinCount)
    (h2 : s.dudMinCount ≤ 2) :
    isrCheckMin e s =
      { s with dudMinCount := if s.current_raw e ≤ s.minttemp e then s.dudMinCount + 1 else 0 } := by
  unfold isrCheckMin
  have hw : wrapChar (s.dudMinCount + 1) = s.dudMinCount + 1 := by
    unfold wrapChar
    omega
  have hn : ¬ DUD_TEMP_COUNT < wrapChar (s.dudMinCount + 1) := by
    rw [hw]
    unfold DUD_TEMP_COUNT
    omega
  rw [if_pos h0, if_neg hn, hw]
  split_ifs <;> rfl

theorem isrCheckMax_dudMinCount (e : Nat) (s : State α) :
    (isrCheckMax e s).dudMinCount = s.dudMinCount := by
  unfold isrCheckMax max_temp_error
  split_ifs <;> rfl

theorem isrCheckMax_dudBedCount (e : Nat) (s : State α) :
    (isrCheckMax e s).dudBedCount = s.dudBedCount := by
  unfold isrCheckMax max_temp_error
  split_ifs <;> rfl

theorem isrCheckMin_dudMaxCount (e : Nat) (s : State α) :
    (isrCheckMin e s).dudMaxCount = s.dudMaxCount := by
  unfold isrCheckMin min_temp_error
  split_ifs <;> rfl

theorem isrCheckMin_dudBedCount (e : Nat) (s : State α) :
    (isrCheckMin e s).dudBedCount = s.dudBedCount := by
  unfold isrCheckMin min_temp_error
  split_ifs <;> rfl

theorem isrCheckBed_dudMaxCount (cfg : Config α) (s : State α) :
    (isrCheckBed cfg s).dudMaxCount = s.dudMaxCount := by
  unfold isrCheckBed bed_temp_error
  split_ifs <;> rfl

theorem isrCheckBed_dudMinCount (cfg : Config α) (s : State α) :
    (isrCheckBed cfg s).dudMinCount = s.dudMinCount := by
  unfold isrCheckBed bed_temp_error
  split_ifs <;> rfl

theorem isrCheckBed_target_raw (cfg : Config α) (s : State α) :
    (isrCheckBed cfg s).target_raw = s.target_raw := by
  unfold isrCheckBed bed_temp_error
  split_ifs <;> rfl

theorem isrCheckBed_sticky (cfg : Config α) (s : State α) (h : s.dudBedCount < 0) :
    (isrCheckBed cfg s).dudBedCount = s.dudBedCount := by
  unfold isrCheckBed
  split_ifs
  · omega
  · omega
  · omega
  · rfl
  · rfl

/-- The extruder check of one channel never changes a latched maximum counter. -/
theorem isrCheckExtruder_max_sticky (cfg : Config α) (e : Nat) (s : State α)
    (h : s.dudMaxCount < 0) : (isrCheckExtruder cfg e s).dudMaxCount = s.dudMaxCount := by
  unfold isrCheckExtruder
  split_ifs
  · rfl
  · rw [isrCheckMin_dudMaxCount, isrCheckMax_latched e s h]

/-- The extruder check of one channel never changes a latched minimum counter. -/
theorem isrCheckExtruder_min_sticky (cfg : Config α) (e : Nat) (s : State α)
    (h : s.dudMinCount < 0) : (isrCheckExtruder cfg e s).dudMinCount = s.dudMinCount := by
  unfold isrCheckExtruder
  split_ifs
  · rfl
  · have hm : (isrCheckMax e s).dudMinCount < 0 := by
      rw [isrCheckMax_dudMinCount]
      exact h
    rw [isrCheckMin_latched e _ hm]
    exact isrCheckMax_dudMinCount e s

theorem isrCheckExtruder_dudBedCount (cfg : Config α) (e : Nat) (s : State α) :
    (isrCheckExtruder cfg e s).dudBedCount = s.dudBedCount := by
  unfold isrCheckExtruder
  split_ifs
  · rfl
  · rw [isrCheckMin_dudBedCount, isrCheckMax_dudBedCount]

theorem isrCheckLoop_max_sticky (cfg : Config α) (s : State α) (h : s.dudMaxCount < 0) :
    (isrCheckLoop cfg s).dudMaxCount = s.dudMaxCount := by
  unfold isrCheckLoop
  refine foldl_keeps _ (fun u => u.dudMaxCount = s.dudMaxCount) ?_ _ s rfl
  intro u e hu
  have hneg : u.dudMaxCount < 0 := by
    rw [hu]
    exact h
  rw [isrCheckExtruder_max_sticky cfg e u hneg]
  exact hu

theorem isrCheckLoop_min_sticky (cfg : Config α) (s : State α) (h : s.dudMinCount < 0) :
    (isrCheckLoop cfg s).dudMinCount = s.dudMinCount := by
  unfold isrCheckLoop
  refine foldl_keeps _ (fun u => u.dudMinCount = s.dudMinCount) ?_ _ s rfl
  intro u e hu
  have hneg : u.dudMinCount < 0 := by
    rw [hu]
    exact h
  rw [isrCheckExtruder_min_sticky cfg e u hneg]
  exact hu

theorem isrCheckLoop_dudBedCount (cfg : Config α) (s : State α) :
    (isrCheckLoop cfg s).dudBedCount = s.dudBedCount := by
  unfold isrCheckLoop
  refine foldl_keeps _ (fun u => u.dudBedCount = s.dudBedCount) ?_ _ s rfl
  intro u e hu
  rw [isrCheckExtruder_dudBedCount]
  exact hu

/-- The three counters of the state that enters the end-of-window block are those of the
state before the tick. -/
theorem isrLocal_counters (cfg : Config α) (adc : Nat) (s : State α) :
    (isrSample cfg adc (isrPwm cfg s)).dudMaxCount = s.dudMaxCount ∧
    (isrSample cfg adc (isrPwm cfg s)).dudMinCount = s.dudMinCount ∧
    (isrSample cfg adc (isrPwm cfg s)).dudBedCount = s.dudBedCount ∧
    (isrSample cfg adc (isrPwm cfg s)).target_raw = s.target_raw ∧
    (isrSample cfg adc (isrPwm cfg s)).minttemp = s.minttemp ∧
    (isrSample cfg adc (isrPwm cfg s)).maxttemp = s.maxttemp := by
  obtain ⟨a, b, c, p, q, r, n, w, x, y, z, ph, cnt, h⟩ := isrLocal_frame cfg adc s
  rw [h]
  exact ⟨rfl, rfl, rfl, rfl, rfl, rfl⟩

/-- No execution of the ISR changes a latched maximum counter. -/
theorem isr_max_sticky (cfg : Config α) (adc : Nat) (s : State α) (h : s.dudMaxCount < 0) :
    (isr cfg adc s).dudMaxCount = s.dudMaxCount := by
  have hl := (isrLocal_counters cfg adc s).1
  unfold isr
  split_ifs
  · unfold isrWindowEnd
    rw [isrCheckBed_dudMaxCount, isrCheckLoop_max_sticky]
    · exact hl
    · show (isrSample cfg adc (isrPwm cfg s)).dudMaxCount < 0
      rw [hl]
      exact h
  · exact hl

/-- No execution of the ISR changes a latched minimum counter. -/
theorem isr_min_sticky (cfg : Config α) (adc : Nat) (s : State α) (h : s.dudMinCount < 0) :
    (isr cfg adc s).dudMinCount = s.dudMinCount := by
  have hl := (isrLocal_counters cfg adc s).2.1
  unfold isr
  split_ifs
  · unfold isrWindowEnd
    rw [isrCheckBed_dudMinCount, isrCheckLoop_min_sticky]
    · exact hl
    · show (isrSample cfg adc (isrPwm cfg s)).dudMinCount < 0
      rw [hl]
      exact h
  · exact hl

/-- No execution of the ISR changes a latched bed counter. -/
theorem isr_bed_sticky (cfg : Config α) (adc : Nat) (s : State α) (h : s.dudBedCount < 0) :
    (isr cfg adc s).dudBedCount = s.dudBedCount := by
  have hl := (isrLocal_counters cfg adc s).2.2.1
  unfold isr
  split_ifs
  · unfold isrWindowEnd
    rw [isrCheckBed_sticky, isrCheckLoop_dudBedCount]
    · exact hl
    · rw [isrCheckLoop_dudBedCount]
      show (isrSample cfg adc (isrPwm cfg s)).dudBedCount < 0
      rw [hl]
      exact h
  · exact hl

theorem isrCheckMax_keeps_zero (e e' : Nat) (s : State α) (h : s.target_raw e' = 0) :
    (isrCheckMax e s).target_raw e' = 0 := by
  unfold isrCheckMax max_temp_error
  split_ifs <;> simp [setAt, h]

theorem isrCheckMin_keeps_zero (e e' : Nat) (s : State α) (h : s.target_raw e' = 0) :
    (isrCheckMin e s).target_raw e' = 0 := by
  unfold isrCheckMin min_temp_error
  split_ifs <;> simp [setAt, h]

theorem isrCheckExtruder_keeps_zero (cfg : Config α) (e e' : Nat) (s : State α)
    (h : s.target_raw e' = 0) : (isrCheckExtruder cfg e s).target_raw e' = 0 := by
  unfold isrCheckExtruder
  split_ifs
  · exact h
  · exact isrCheckMin_keeps_zero e e' _ (isrCheckMax_keeps_zero e e' s h)

/-- With a latched counter the check of a local channel zeroes the target of the channel. -/
theorem isrCheckExtruder_zeroes (cfg : Config α) (e : Nat) (s : State α)
    (hl : s.dudMaxCount < 0 ∨ s.dudMinCount < 0)
    (he : ¬ (cfg.REPRAPPRO_MULTIMATERIALS = true ∧ 0 < e)) :
    (isrCheckExtruder cfg e s).target_raw e = 0 := by
  unfold isrCheckExtruder
  rw [if_neg he]
  rcases hl with hmax | hmin
  · apply isrCheckMin_keeps_zero
    rw [isrCheckMax_latched e s hmax]
    simp [setAt]
  · have hm : (isrCheckMax e s).dudMinCount < 0 := by
      rw [isrCheckMax_dudMinCount]
      exact hmin
    rw [isrCheckMin_latched e _ hm]
    simp [setAt]

/-- A left fold establishes at step `e` a property that every later step keeps. -/
theorem foldl_sets {σ : Type} (f : σ → Nat → σ) (Q P : σ → Prop) (e : Nat)
    (hQ : ∀ u e', Q u → Q (f u e')) (hset : ∀ u, Q u → P (f u e))
    (hkeep : ∀ u e', P u → P (f u e')) (l : List Nat) (he : e ∈ l) (s : σ) (h : Q s) :
    P (l.foldl f s) := by
  induction l generalizing s with
  | nil => exact absurd he (List.not_mem_nil e)
  | cons a l ih =>
    rw [List.foldl_cons]
    by_cases hae : e = a
    · subst hae
      exact foldl_keeps f P hkeep l _ (hset s h)
    · have hmem : e ∈ l := by
        rcases List.mem_cons.mp he with h1 | h1
        · exact absurd h1 hae
        · exact h1
      exact ih hmem _ (hQ s a h)

theorem isrCheckExtruder_keeps_latch (cfg : Config α) (e : Nat) (s : State α)
    (hl : s.dudMaxCount < 0 ∨ s.dudMinCount < 0) :
    (isrCheckExtruder cfg e s).dudMaxCount < 0 ∨ (isrCheckExtruder cfg e s).dudMinCount < 0 := by
  rcases hl with h | h
  · left
    rw [isrCheckExtruder_max_sticky cfg e s h]
    exact h
  · right
    rw [isrCheckExtruder_min_sticky cfg e s h]
    exact h

/-- With a latched counter the extruder loop zeroes the target of every local channel. -/
theorem isrCheckLoop_zeroes (cfg : Config α) (s : State α)
    (hl : s.dudMaxCount < 0 ∨ s.dudMinCount < 0) (e : Nat) (he : e < EXTRUDERS_T cfg) :
    (isrCheckLoop cfg s).target_raw e = 0 := by
  unfold isrCheckLoop
  refine foldl_sets _ (fun u => u.dudMaxCount < 0 ∨ u.dudMinCount < 0)
    (fun u => u.target_raw e = 0) e ?_ ?_ ?_ _ (List.mem_range.mpr he) s hl
  · intro u e' hu
    exact isrCheckExtruder_keeps_latch cfg e' u hu
  · intro u hu
    apply isrCheckExtruder_zeroes cfg e u hu
    rintro ⟨hm, hpos⟩
    unfold EXTRUDERS_T at he
    rw [if_pos hm] at he
    omega
  · intro u e' hu
    exact isrCheckExtruder_keeps_zero cfg e' e u hu

/-- An end-of-window tick taken with a latched extruder counter zeroes the target of every
local channel. -/
theorem isr_zeroes (cfg : Config α) (adc : Nat) (s : State α)
    (hw : endsWindow cfg adc s = true) (hl : s.dudMaxCount < 0 ∨ s.dudMinCount < 0)
    (e : Nat) (he : e < EXTRUDERS_T cfg) : (isr cfg adc s).target_raw e = 0 := by
  rw [isr_of_endsWindow cfg adc s hw]
  unfold isrWindowEnd
  rw [isrCheckBed_target_raw]
  apply isrCheckLoop_zeroes cfg _ _ e he
  obtain ⟨h1, h2, -⟩ := isrLocal_counters cfg adc s
  show (isrSample cfg adc (isrPwm cfg s)).dudMaxCount < 0 ∨
    (isrSample cfg adc (isrPwm cfg s)).dudMinCount < 0
  rw [h1, h2]
  exact hl

/-- With one local channel the extruder loop is the check of channel 0. -/
theorem isrCheckLoop_one (cfg : Config α) (h1 : EXTRUDERS_T cfg = 1) (s : State α) :
    isrCheckLoop cfg s = isrCheckMin 0 (isrCheckMax 0 s) := by
  unfold isrCheckLoop isrCheckExtruder
  rw [h1]
  simp [List.range_succ]

/-- One tick of the debounce of a single local channel, while the run of out-of-range
windows stays at most 2 long: the counters are bounded by the run length, the target of
channel 0 is not written, and an in-range window clears both counters. -/
theorem debounce_step (cfg : Config α) (h1 : EXTRUDERS_T cfg = 1) (adc : Nat) (s : State α)
    (r : Nat) (hM0 : 0 ≤ s.dudMaxCount) (hMr : s.dudMaxCount ≤ r) (hm0 : 0 ≤ s.dudMinCount)
    (hmr : s.dudMinCount ≤ r) (hr2 : r ≤ 2) :
    0 ≤ (isr cfg adc s).dudMaxCount ∧
    (isr cfg adc s).dudMaxCount ≤
      ((if endsWindow cfg adc s = true then
          (if outOfRange (isr cfg adc s) 0 = true then r + 1 else 0) else r : Nat) : Int) ∧
    0 ≤ (isr cfg adc s).dudMinCount ∧
    (isr cfg adc s).dudMinCount ≤
      ((if endsWindow cfg adc s = true then
          (if outOfRange (isr cfg adc s) 0 = true then r + 1 else 0) else r : Nat) : Int) ∧
    (isr cfg adc s).target_raw = s.target_raw ∧
    (endsWindow cfg adc s = true → outOfRange (isr cfg adc s) 0 = false →
      (isr cfg adc s).dudMaxCount = 0 ∧ (isr cfg adc s).dudMinCount = 0) := by
  obtain ⟨e1, e2, -, e4, -, -⟩ := isrLocal_counters cfg adc s
  by_cases hw : endsWindow cfg adc s = true
  · rw [if_pos hw]
    have hisr : isr cfg adc s =
        isrCheckBed cfg (isrCheckMin 0 (isrCheckMax 0
          (isrPublish cfg (isrSample cfg adc (isrPwm cfg s))))) := by
      rw [isr_of_endsWindow cfg adc s hw]
      unfold isrWindowEnd
      rw [isrCheckLoop_one cfg h1]
    generalize hp : isrPublish cfg (isrSample cfg adc (isrPwm cfg s)) = p at hisr
    have pM : p.dudMaxCount = s.dudMaxCount := by rw [← hp]; exact e1
    have pm : p.dudMinCount = s.dudMinCount := by rw [← hp]; exact e2
    have pt : p.target_raw = s.target_raw := by rw [← hp]; exact e4
    have hMax := isrCheckMax_counting 0 p (by omega) (by omega)
    have hMin := isrCheckMin_counting 0 (isrCheckMax 0 p)
      (by rw [isrCheckMax_dudMinCount]; omega) (by rw [isrCheckMax_dudMinCount]; omega)
    obtain ⟨c1, c2, c3, t, tb, l, hbed⟩ := isrCheckBed_frame cfg (isrCheckMin 0 (isrCheckMax 0 p))
    have hcur : (isr cfg adc s).current_raw = p.current_raw := by
      rw [hisr, hbed, hMin, hMax]
    have hmint : (isr cfg adc s).minttemp = p.minttemp := by
      rw [hisr, hbed, hMin, hMax]
    have hmaxt : (isr cfg adc s).maxttemp = p.maxttemp := by
      rw [hisr, hbed, hMin, hMax]
    have hdM : (isr cfg adc s).dudMaxCount =
        if p.maxttemp 0 ≤ p.current_raw 0 then s.dudMaxCount + 1 else 0 := by
      rw [hisr, isrCheckBed_dudMaxCount, isrCheckMin_dudMaxCount, hMax, ← pM]
    have hdm : (isr cfg adc s).dudMinCount =
        if p.current_raw 0 ≤ p.minttemp 0 then s.dudMinCount + 1 else 0 := by
      rw [hisr, isrCheckBed_dudMinCount, hMin, hMax, ← pm]
    have htr : (isr cfg adc s).target_raw = s.target_raw := by
      rw [hisr, isrCheckBed_target_raw, hMin, hMax, ← pt]
    have hoor : outOfRange (isr cfg adc s) 0 =
        (decide (p.current_raw 0 ≤ p.minttemp 0) || decide (p.maxttemp 0 ≤ p.current_raw 0)) := by
      unfold outOfRange
      rw [hcur, hmint, hmaxt]
    rw [hoor, hdM, hdm]
    refine ⟨?_, ?_, ?_, ?_, htr, ?_⟩
    · split_ifs <;> omega
    · by_cases ha : p.maxttemp 0 ≤ p.current_raw 0
      · simp only [ha, decide_True, Bool.or_true, if_true]
        push_cast
        omega
      · simp only [ha, if_false]
        split_ifs <;> omega
    · split_ifs <;> omega
    · by_cases hb : p.current_raw 0 ≤ p.minttemp 0
      · simp only [hb, decide_True, Bool.true_or, if_true]
        push_cast
        omega
      · simp only [hb, if_false]
        split_ifs <;> omega
    · intro _ hin
      simp only [Bool.or_eq_false_iff, decide_eq_false_iff_not] at hin
      rw [if_neg hin.2, if_neg hin.1]
      exact ⟨rfl, rfl⟩
  · have hw' : endsWindow cfg adc s = false := by
      cases hb : endsWindow cfg adc s
      · rfl
      · exact absurd hb hw
    rw [if_neg hw]
    rw [isr_of_not_endsWindow cfg adc s hw', e1, e2, e4]
    refine ⟨hM0, hMr, hm0, hmr, rfl, ?_⟩
    intro h
    exact absurd h hw

end Debounce

/-! ## Counters outside the interrupt -/

section Counters

variable {α : Type} [LinearOrderedField α] [FloorRing α]

theorem CountersKept.krefl (s : State α) : CountersKept s s := ⟨rfl, rfl, rfl⟩

theorem CountersKept.ktrans {s t u : State α} (h : CountersKept s t) (k : CountersKept t u) :
    CountersKept s u :=
  ⟨k.1.trans h.1, k.2.1.trans h.2.1, k.2.2.trans h.2.2⟩

theorem setTargetHotendLatched_counters (cfg : Config α) (e : Nat) (s : State α) :
    CountersKept s (setTargetHotendLatched cfg e s) := by
  unfold setTargetHotendLatched max_temp_error min_temp_error
  split_ifs <;> exact ⟨rfl, rfl, rfl⟩

theorem setTargetHotendNormal_counters (cfg : Config α) (c : α) (e : Nat) (s : State α) :
    CountersKept s (setTargetHotendNormal cfg c e s) := by
  unfold setTargetHotendNormal
  split_ifs <;> exact ⟨rfl, rfl, rfl⟩

theorem setTargetHotendMaster_counters (cfg : Config α) (c : α) (e : Nat) (s : State α) :
    CountersKept s (setTargetHotendMaster cfg c e s) := by
  unfold setTargetHotendMaster
  split_ifs
  · exact setTargetHotendLatched_counters cfg e s
  · exact setTargetHotendNormal_counters cfg c e s
  · exact ⟨rfl, rfl, rfl⟩

theorem setTargetHotendLocal_counters (cfg : Config α) (c : α) (e : Nat) (s : State α) :
    CountersKept s (setTargetHotendLocal cfg c e s) := by
  have h : CountersKept s
      (if s.dudMinCount < 0 ∨ s.dudMaxCount < 0 then setTargetHotendLatched cfg e s
        else setTargetHotendNormal cfg c e s) := by
    split_ifs
    · exact setTargetHotendLatched_counters cfg e s
    · exact setTargetHotendNormal_counters cfg c e s
  unfold setTargetHotendLocal
  by_cases hp : cfg.PIDTEMP = true
  · simp only [hp, if_true]
    exact h
  · simp only [hp]
    exact h

theorem setTargetHotend_counters (cfg : Config α) (c : α) (e : Nat) (s : State α) :
    CountersKept s (setTargetHotend cfg c e s) := by
  unfold setTargetHotend
  split_ifs
  · exact setTargetHotendMaster_counters cfg c e s
  · exact setTargetHotendLocal_counters cfg c e s

theorem setTargetBed_counters (cfg : Config α) (c : α) (s : State α) :
    CountersKept s (setTargetBed cfg c s) := by
  unfold setTargetBed bed_temp_error
  split_ifs <;> exact ⟨rfl, rfl, rfl⟩

theorem disableTargets_counters (cfg : Config α) (s : State α) :
    CountersKept s (disableTargets cfg s) := by
  unfold disableTargets
  exact foldl_keeps _ (CountersKept s)
    (fun u e hu => hu.ktrans (setTargetHotend_counters cfg 0 e u)) _ s (CountersKept.krefl s)

theorem disableHeater0_counters (cfg : Config α) (s : State α) :
    CountersKept s (disableHeater0 cfg s) := by
  unfold disableHeater0
  by_cases h : cfg.TEMP_0_PIN = true
  · rw [if_pos h]
    exact ⟨rfl, rfl, rfl⟩
  · rw [if_neg h]
    exact CountersKept.krefl s

theorem disableHeater1_counters (cfg : Config α) (s : State α) :
    CountersKept s (disableHeater1 cfg s) := by
  unfold disableHeater1
  by_cases h : cfg.TEMP_1_PIN = true
  · rw [if_pos h]
    exact ⟨rfl, rfl, rfl⟩
  · rw [if_neg h]
    exact CountersKept.krefl s

theorem disableHeater2_counters (cfg : Config α) (s : State α) :
    CountersKept s (disableHeater2 cfg s) := by
  unfold disableHeater2
  by_cases h : cfg.TEMP_2_PIN = true
  · rw [if_pos h]
    exact ⟨rfl, rfl, rfl⟩
  · rw [if_neg h]
    exact CountersKept.krefl s

theorem disableHeaterBed_counters (cfg : Config α) (s : State α) :
    CountersKept s (disableHeaterBed cfg s) := by
  unfold disableHeaterBed
  by_cases h : cfg.TEMP_BED_PIN = true
  · rw [if_pos h]
    exact ⟨rfl, rfl, rfl⟩
  · rw [if_neg h]
    exact CountersKept.krefl s

/-- `disable_heater` writes none of the debounce counters. -/
theorem disable_heater_counters (cfg : Config α) (s : State α) :
    CountersKept s (disable_heater cfg s) := by
  unfold disable_heater
  exact (((((disableTargets_counters cfg s).ktrans (setTargetBed_counters cfg 0 _)).ktrans
    (disableHeater0_counters cfg _)).ktrans (disableHeater1_counters cfg _)).ktrans
    (disableHeater2_counters cfg _)).ktrans (disableHeaterBed_counters cfg _)

theorem tpInitChannel_counters (cfg : Config α) (e : Nat) (s : State α) :
    CountersKept s (tpInitChannel cfg e s) := ⟨rfl, rfl, rfl⟩

/-- The first part of `tp_init` leaves the three counters at 0. -/
theorem tp_init_reset_counters (cfg : Config α) (s : State α) :
    (tp_init_reset cfg s).dudMaxCount = 0 ∧ (tp_init_reset cfg s).dudMinCount = 0 ∧
      (tp_init_reset cfg s).dudBedCount = 0 := by
  unfold tp_init_reset
  refine foldl_keeps (fun u e => tpInitChannel cfg e u)
    (fun u : State α => u.dudMaxCount = 0 ∧ u.dudMinCount = 0 ∧ u.dudBedCount = 0)
    ?_ _ _ ⟨rfl, rfl, rfl⟩
  intro u e hu
  exact hu

theorem setMinLimit_counters (cfg : Config α) (lim : Option Int) (e : Nat) (s : State α) :
    CountersKept s (setMinLimit cfg lim e s) := by
  unfold setMinLimit
  split <;> exact ⟨rfl, rfl, rfl⟩

theorem setMaxLimit_counters (cfg : Config α) (lim : Option Int) (e : Nat) (s : State α) :
    CountersKept s (setMaxLimit cfg lim e s) := by
  unfold setMaxLimit
  split <;> exact ⟨rfl, rfl, rfl⟩

theorem tpInitLimits12_counters (cfg : Config α) (s : State α) :
    CountersKept s (tpInitLimits12 cfg s) := by
  have h1 : ∀ u : State α, CountersKept u (tpInitLimits1 cfg u) := by
    intro u
    unfold tpInitLimits1
    split_ifs
    · exact (setMinLimit_counters cfg _ 1 u).ktrans (setMaxLimit_counters cfg _ 1 _)
    · exact CountersKept.krefl u
  have h2 : ∀ u : State α, CountersKept u (tpInitLimits2 cfg u) := by
    intro u
    unfold tpInitLimits2
    split_ifs
    · exact (setMinLimit_counters cfg _ 2 u).ktrans (setMaxLimit_counters cfg _ 2 _)
    · exact CountersKept.krefl u
  unfold tpInitLimits12
  split_ifs
  · exact CountersKept.krefl s
  · exact (h1 s).ktrans (h2 _)

theorem tpInitBedMin_counters (cfg : Config α) (s : State α) :
    CountersKept s (tpInitBedMin cfg s) := by
  unfold tpInitBedMin
  split <;> exact ⟨rfl, rfl, rfl⟩

theorem tpInitBedMax_counters (cfg : Config α) (s : State α) :
    CountersKept s (tpInitBedMax cfg s) := by
  unfold tpInitBedMax
  split <;> exact ⟨rfl, rfl, rfl⟩

theorem tp_init_limits_counters (cfg : Config α) (s : State α) :
    CountersKept s (tp_init_limits cfg s) := by
  unfold tp_init_limits
  exact ((((setMinLimit_counters cfg _ 0 s).ktrans (setMaxLimit_counters cfg _ 0 _)).ktrans
    (tpInitLimits12_counters cfg _)).ktrans (tpInitBedMin_counters cfg _)).ktrans
    (tpInitBedMax_counters cfg _)

/-- Without an interrupt during its delay, `tp_init` leaves the three counters at 0. -/
theorem tp_init_counters (cfg : Config α) (s : State α) :
    (tp_init cfg [] s).dudMaxCount = 0 ∧ (tp_init cfg [] s).dudMinCount = 0 ∧
      (tp_init cfg [] s).dudBedCount = 0 := by
  obtain ⟨h1, h2, h3⟩ := tp_init_reset_counters cfg s
  obtain ⟨k1, k2, k3⟩ := tp_init_limits_counters cfg (tp_init_reset cfg s)
  unfold tp_init runIsr
  exact ⟨k1.trans h1, k2.trans h2, k3.trans h3⟩

theorem RegFrame.rrefl (s : State α) : RegFrame s s :=
  ⟨_, _, _, _, _, _, _, _, _, rfl⟩

theorem RegFrame.rtrans {s t u : State α} (h : RegFrame s t) (k : RegFrame t u) :
    RegFrame s u := by
  obtain ⟨rdy, pe, pr, ti, pt, it, dt, td, sp, rfl⟩ := h
  obtain ⟨rdy', pe', pr', ti', pt', it', dt', td', sp', rfl⟩ := k
  exact ⟨_, _, _, _, _, _, _, _, _, rfl⟩

theorem pidOutput_frame (cfg : Config α) (e : Nat) (s : State α) :
    RegFrame s (pidOutput cfg e s).1 := by
  unfold pidOutput
  simp only []
  split_ifs
  · exact ⟨_, _, _, _, _, _, _, _, _, rfl⟩
  · exact ⟨_, _, _, _, _, _, _, _, _, rfl⟩
  · exact ⟨_, _, _, _, _, _, _, _, _, rfl⟩

theorem heaterOutput_frame (cfg : Config α) (e : Nat) (s : State α) :
    RegFrame s (heaterOutput cfg e s).1 := by
  unfold heaterOutput
  split_ifs
  · exact pidOutput_frame cfg e s
  · exact RegFrame.rrefl s

theorem manageChannel_frame (cfg : Config α) (e : Nat) (s : State α) :
    RegFrame s (manageChannel cfg e s) := by
  unfold manageChannel storeDuty
  split_ifs
  · exact (heaterOutput_frame cfg e s).rtrans ⟨_, _, _, _, _, _, _, _, _, rfl⟩
  · exact (heaterOutput_frame cfg e s).rtrans ⟨_, _, _, _, _, _, _, _, _, rfl⟩

theorem manageLoop_frame (cfg : Config α) (s : State α) : RegFrame s (manageLoop cfg s) := by
  unfold manageLoop
  exact foldl_keeps _ (RegFrame s)
    (fun u e hu => hu.rtrans (manageChannel_frame cfg e u)) _ s (RegFrame.rrefl s)

theorem RegFrame.counters {s s' : State α} (h : RegFrame s s') : CountersKept s s' := by
  obtain ⟨rdy, pe, pr, ti, pt, it, dt, td, sp, rfl⟩ := h
  exact ⟨rfl, rfl, rfl⟩

theorem max_temp_error_counters (e : Nat) (s : State α) :
    CountersKept s (max_temp_error e s) := by
  unfold max_temp_error
  split_ifs <;> exact ⟨rfl, rfl, rfl⟩

theorem min_temp_error_counters (e : Nat) (s : State α) :
    CountersKept s (min_temp_error e s) := by
  unfold min_temp_error
  split_ifs <;> exact ⟨rfl, rfl, rfl⟩

/-- The maximum check of the master board keeps a latched maximum counter and never
writes the other two counters. -/
theorem masterCheckMax_counters (cfg : Config α) (s : State α) :
    (s.dudMaxCount < 0 → (masterCheckMax cfg s).dudMaxCount = s.dudMaxCount) ∧
    (masterCheckMax cfg s).dudMinCount = s.dudMinCount ∧
    (masterCheckMax cfg s).dudBedCount = s.dudBedCount := by
  have hk : ∀ u : State α, CountersKept u (max_temp_error 0 (setTargetHotendMaster cfg 0 0 u)) :=
    fun u => (setTargetHotendMaster_counters cfg 0 0 u).ktrans (max_temp_error_counters 0 _)
  unfold masterCheckMax
  split_ifs with h0 h1 h2
  · exact ⟨fun h => absurd h (not_lt.mpr h0), (hk _).2.1, (hk _).2.2⟩
  · exact ⟨fun h => absurd h (not_lt.mpr h0), rfl, rfl⟩
  · exact ⟨fun h => absurd h (not_lt.mpr h0), rfl, rfl⟩
  · have hc := setTargetHotendMaster_counters cfg 0 0 s
    exact ⟨fun _ => hc.1, hc.2.1, hc.2.2⟩

/-- The minimum check of the master board keeps a latched minimum counter and never
writes the other two counters. -/
theorem masterCheckMin_counters (cfg : Config α) (s : State α) :
    (s.dudMinCount < 0 → (masterCheckMin cfg s).dudMinCount = s.dudMinCount) ∧
    (masterCheckMin cfg s).dudMaxCount = s.dudMaxCount ∧
    (masterCheckMin cfg s).dudBedCount = s.dudBedCount := by
  have hk : ∀ u : State α, CountersKept u (min_temp_error 0 (setTargetHotendMaster cfg 0 0 u)) :=
    fun u => (setTargetHotendMaster_counters cfg 0 0 u).ktrans (min_temp_error_counters 0 _)
  unfold masterCheckMin
  split_ifs with h0 h1 h2
  · exact ⟨fun h => absurd h (not_lt.mpr h0), (hk _).1, (hk _).2.2⟩
  · exact ⟨fun h => absurd h (not_lt.mpr h0), rfl, rfl⟩
  · exact ⟨fun h => absurd h (not_lt.mpr h0), rfl, rfl⟩
  · have hc := setTargetHotendMaster_counters cfg 0 0 s
    exact ⟨fun _ => hc.2.1, hc.1, hc.2.2⟩

/-- The master board check keeps every latched counter. -/
theorem manageMasterCheck_sticky (cfg : Config α) (s : State α) :
    (s.dudMaxCount < 0 → (manageMasterCheck cfg s).dudMaxCount = s.dudMaxCount) ∧
    (s.dudMinCount < 0 → (manageMasterCheck cfg s).dudMinCount = s.dudMinCount) ∧
    (manageMasterCheck cfg s).dudBedCount = s.dudBedCount := by
  unfold manageMasterCheck
  split_ifs
  · obtain ⟨a1, a2, a3⟩ := masterCheckMax_counters cfg s
    obtain ⟨b1, b2, b3⟩ := masterCheckMin_counters cfg (masterCheckMax cfg s)
    refine ⟨fun h => b2.trans (a1 h), fun h => ?_, b3.trans a3⟩
    rw [b1 (by rw [a2]; exact h), a2]
  · exact ⟨fun _ => rfl, fun _ => rfl, rfl⟩

/-- The bed check of `manage_heater` keeps a latched bed counter and never writes the
extruder counters. -/
theorem manageBedCheck_counters (cfg : Config α) (s : State α) :
    (manageBedCheck cfg s).dudMaxCount = s.dudMaxCount ∧
    (manageBedCheck cfg s).dudMinCount = s.dudMinCount ∧
    (s.dudBedCount < 0 → (manageBedCheck cfg s).dudBedCount = s.dudBedCount) := by
  unfold manageBedCheck bed_temp_error
  split_ifs <;> refine ⟨rfl, rfl, fun h => ?_⟩ <;> first | rfl | omega

/-- The interval-gated checks of `manage_heater` keep every latched counter. -/
theorem manageChecks_sticky (cfg : Config α) (now : Nat) (s : State α) :
    (s.dudMaxCount < 0 → (manageChecks cfg now s).dudMaxCount = s.dudMaxCount) ∧
    (s.dudMinCount < 0 → (manageChecks cfg now s).dudMinCount = s.dudMinCount) ∧
    (s.dudBedCount < 0 → (manageChecks cfg now s).dudBedCount = s.dudBedCount) := by
  unfold manageChecks
  split_ifs
  · exact ⟨fun _ => rfl, fun _ => rfl, fun _ => rfl⟩
  · obtain ⟨a1, a2, a3⟩ :=
      manageMasterCheck_sticky cfg { s with previous_millis_bed_heater := now }
    obtain ⟨b1, b2, b3⟩ := manageBedCheck_counters cfg
      (manageMasterCheck cfg { s with previous_millis_bed_heater := now })
    refine ⟨fun h => b1.trans (a1 h), fun h => b2.trans (a2 h), fun h => ?_⟩
    rw [b3 (by rw [a3]; exact h), a3]

/-- No call of `manage_heater` changes a latched counter. -/
theorem manage_heater_sticky (cfg : Config α) (now : Nat) (s : State α) :
    (s.dudMaxCount < 0 → (manage_heater cfg now s).dudMaxCount = s.dudMaxCount) ∧
    (s.dudMinCount < 0 → (manage_heater cfg now s).dudMinCount = s.dudMinCount) ∧
    (s.dudBedCount < 0 → (manage_heater cfg now s).dudBedCount = s.dudBedCount) := by
  unfold manage_heater
  split_ifs
  · exact ⟨fun _ => rfl, fun _ => rfl, fun _ => rfl⟩
  · obtain ⟨l1, l2, l3⟩ := (manageLoop_frame cfg { s with temp_meas_ready := false }).counters
    obtain ⟨c1, c2, c3⟩ :=
      manageChecks_sticky cfg now (manageLoop cfg { s with temp_meas_ready := false })
    refine ⟨fun h => ?_, fun h => ?_, fun h => ?_⟩
    · rw [c1 (by rw [l1]; exact h), l1]
    · rw [c2 (by rw [l2]; exact h), l2]
    · rw [c3 (by rw [l3]; exact h), l3]

end Counters

/-! ## Channels of the regulator -/

section Channels

variable {α : Type} [LinearOrderedField α] [FloorRing α]

theorem ChannelKept.chrefl (e : Nat) (s : State α) : ChannelKept e s s :=
  ⟨rfl, rfl, rfl, rfl, rfl, rfl, rfl, rfl⟩

theorem ChannelKept.chtrans {e : Nat} {s t u : State α} (h : ChannelKept e s t)
    (k : ChannelKept e t u) : ChannelKept e s u := by
  obtain ⟨h1, h2, h3, h4, h5, h6, h7, h8⟩ := h
  obtain ⟨k1, k2, k3, k4, k5, k6, k7, k8⟩ := k
  exact ⟨k1.trans h1, k2.trans h2, k3.trans h3, k4.trans h4, k5.trans h5, k6.trans h6,
    k7.trans h7, k8.trans h8⟩

theorem setAt_other {β : Type} (a : Nat → β) (i j : Nat) (v : β) (h : j ≠ i) :
    setAt a i v j = a j := by
  unfold setAt
  rw [if_neg h]

theorem setAt_same {β : Type} (a : Nat → β) (i : Nat) (v : β) : setAt a i v i = v := by
  unfold setAt
  rw [if_pos rfl]

/-- Above the band the PID branch stores the error, sets the reset flag and outputs
`PID_MAX`. -/
theorem pidOutput_high (cfg : Config α) (e : Nat) (s : State α)
    (h : (cfg.FULL_PID_BAND : α) < pidErrorOf cfg e s) :
    pidOutput cfg e s =
      ({ s with pid_error := setAt s.pid_error e (pidErrorOf cfg e s),
                pid_reset := setAt s.pid_reset e true }, (cfg.PID_MAX : α)) := by
  unfold pidErrorOf at h
  unfold pidOutput pidErrorOf
  simp only []
  rw [if_pos h]

/-- Below the band the PID branch stores the error, sets the reset flag and outputs 0. -/
theorem pidOutput_low (cfg : Config α) (e : Nat) (s : State α)
    (h : ¬ (cfg.FULL_PID_BAND : α) < pidErrorOf cfg e s)
    (k : pidErrorOf cfg e s < -(cfg.FULL_PID_BAND : α)) :
    pidOutput cfg e s =
      ({ s with pid_error := setAt s.pid_error e (pidErrorOf cfg e s),
                pid_reset := setAt s.pid_reset e true }, 0) := by
  unfold pidErrorOf at h k
  unfold pidOutput pidErrorOf
  simp only []
  rw [if_neg h, if_pos k]

/-- Inside the band the PID branch is the in-band computation. -/
theorem pidOutput_band (cfg : Config α) (e : Nat) (s : State α)
    (h : ¬ (cfg.FULL_PID_BAND : α) < pidErrorOf cfg e s)
    (k : ¬ pidErrorOf cfg e s < -(cfg.FULL_PID_BAND : α)) :
    pidOutput cfg e s =
      pidInBand cfg e (analog2temp cfg s (s.current_raw e) e) (pidErrorOf cfg e s) s := by
  unfold pidErrorOf at h k
  unfold pidOutput pidErrorOf
  simp only []
  rw [if_neg h, if_neg k]

theorem pidOutput_kept (cfg : Config α) (e e' : Nat) (h : e ≠ e') (s : State α) :
    ChannelKept e s (pidOutput cfg e' s).1 := by
  by_cases h1 : (cfg.FULL_PID_BAND : α) < pidErrorOf cfg e' s
  · rw [pidOutput_high cfg e' s h1]
    exact ⟨setAt_other _ _ _ _ h, setAt_other _ _ _ _ h, rfl, rfl, rfl, rfl, rfl, rfl⟩
  · by_cases h2 : pidErrorOf cfg e' s < -(cfg.FULL_PID_BAND : α)
    · rw [pidOutput_low cfg e' s h1 h2]
      exact ⟨setAt_other _ _ _ _ h, setAt_other _ _ _ _ h, rfl, rfl, rfl, rfl, rfl, rfl⟩
    · rw [pidOutput_band cfg e' s h1 h2]
      unfold pidInBand
      refine ⟨setAt_other _ _ _ _ h, ?_, setAt_other _ _ _ _ h, setAt_other _ _ _ _ h,
        setAt_other _ _ _ _ h, setAt_other _ _ _ _ h, setAt_other _ _ _ _ h, rfl⟩
      show (if s.pid_reset e' = true then setAt s.pid_reset e' false else s.pid_reset) e
        = s.pid_reset e
      split_ifs
      · exact setAt_other _ _ _ _ h
      · rfl

theorem heaterOutput_kept (cfg : Config α) (e e' : Nat) (h : e ≠ e') (s : State α) :
    ChannelKept e s (heaterOutput cfg e' s).1 := by
  unfold heaterOutput
  split_ifs
  · exact pidOutput_kept cfg e e' h s
  · exact ChannelKept.chrefl e s

theorem storeDuty_kept (e e' : Nat) (h : e ≠ e') (r : State α × α) :
    ChannelKept e r.1 (storeDuty e' r) := by
  unfold storeDuty
  split_ifs
  · exact ⟨rfl, rfl, rfl, rfl, rfl, rfl, rfl, setAt_other _ _ _ _ h⟩
  · exact ⟨rfl, rfl, rfl, rfl, rfl, rfl, rfl, setAt_other _ _ _ _ h⟩

/-- The loop body of another channel leaves the entries of channel `e` alone. -/
theorem manageChannel_kept (cfg : Config α) (e e' : Nat) (h : e ≠ e') (s : State α) :
    ChannelKept e s (manageChannel cfg e' s) := by
  unfold manageChannel
  exact (heaterOutput_kept cfg e e' h s).chtrans (storeDuty_kept e e' h _)

/-- State of the loop of `manage_heater` after the channels below `n`. -/
theorem manageLoop_succ (cfg : Config α) (n : Nat) (s : State α) :
    (List.range (n + 1)).foldl (fun s e => manageChannel cfg e s) s =
      manageChannel cfg n ((List.range n).foldl (fun s e => manageChannel cfg e s) s) := by
  rw [List.range_succ, List.foldl_append]
  rfl

/-- Before the iteration of channel `e` the loop has written nothing of channel `e`. -/
theorem manageLoop_before (cfg : Config α) (e : Nat) (s : State α) (n : Nat) (h : n ≤ e) :
    RegFrame s ((List.range n).foldl (fun s e => manageChannel cfg e s) s) ∧
    ChannelKept e s ((List.range n).foldl (fun s e => manageChannel cfg e s) s) := by
  induction n with
  | zero => exact ⟨RegFrame.rrefl s, ChannelKept.chrefl e s⟩
  | succ n ih =>
    obtain ⟨a, b⟩ := ih (by omega)
    rw [manageLoop_succ]
    exact ⟨a.rtrans (manageChannel_frame cfg n _),
      b.chtrans (manageChannel_kept cfg e n (by omega) _)⟩

/-- The loop of `manage_heater` runs the body of channel `e` on a state `u` that differs
from the initial one in other channels only, and later iterations leave the entries of
channel `e` alone. -/
theorem manageLoop_after (cfg : Config α) (e : Nat) (s : State α) (n : Nat) (h : e < n) :
    ∃ u, RegFrame s u ∧ ChannelKept e s u ∧
      ChannelKept e (manageChannel cfg e u)
        ((List.range n).foldl (fun s e => manageChannel cfg e s) s) := by
  induction n with
  | zero => omega
  | succ n ih =>
    rw [manageLoop_succ]
    by_cases hn : e < n
    · obtain ⟨u, a, b, c⟩ := ih hn
      exact ⟨u, a, b, c.chtrans (manageChannel_kept cfg e n (by omega) _)⟩
    · have hen : e = n := by omega
      subst hen
      obtain ⟨a, b⟩ := manageLoop_before cfg e s e (le_refl e)
      exact ⟨_, a, b, ChannelKept.chrefl e _⟩

theorem ChecksFrame.qrefl (s : State α) : ChecksFrame s s :=
  ⟨_, _, _, _, _, _, _, _, rfl⟩

theorem ChecksFrame.qtrans {s t u : State α} (h : ChecksFrame s t) (k : ChecksFrame t u) :
    ChecksFrame s u := by
  obtain ⟨pm, c1, c2, c3, x, sp, l, bp, rfl⟩ := h
  obtain ⟨pm', c1', c2', c3', x', sp', l', bp', rfl⟩ := k
  exact ⟨_, _, _, _, _, _, _, _, rfl⟩

theorem ChecksFrame.kept {s s' : State α} (h : ChecksFrame s s') (e : Nat) :
    ChannelKept e s s' := by
  obtain ⟨pm, c1, c2, c3, x, sp, l, bp, rfl⟩ := h
  exact ⟨rfl, rfl, rfl, rfl, rfl, rfl, rfl, rfl⟩

theorem max_temp_error_checks (e : Nat) (s : State α) : ChecksFrame s (max_temp_error e s) := by
  unfold max_temp_error
  split_ifs
  · exact ⟨_, _, _, _, _, _, _, _, rfl⟩
  · exact ChecksFrame.qrefl s

theorem min_temp_error_checks (e : Nat) (s : State α) : ChecksFrame s (min_temp_error e s) := by
  unfold min_temp_error
  split_ifs
  · exact ⟨_, _, _, _, _, _, _, _, rfl⟩
  · exact ChecksFrame.qrefl s

theorem setTargetHotendMaster_checks (cfg : Config α) (c : α) (e : Nat) (s : State α) :
    ChecksFrame s (setTargetHotendMaster cfg c e s) := by
  unfold setTargetHotendMaster setTargetHotendLatched setTargetHotendNormal max_temp_error
    min_temp_error
  split_ifs <;> exact ⟨_, _, _, _, _, _, _, _, rfl⟩

theorem masterCheckMax_checks (cfg : Config α) (s : State α) :
    ChecksFrame s (masterCheckMax cfg s) := by
  unfold masterCheckMax
  split_ifs
  · exact (ChecksFrame.qtrans ⟨_, _, _, _, _, _, _, _, rfl⟩
      (setTargetHotendMaster_checks cfg 0 0 _)).qtrans (max_temp_error_checks 0 _)
  · exact ⟨_, _, _, _, _, _, _, _, rfl⟩
  · exact ⟨_, _, _, _, _, _, _, _, rfl⟩
  · exact setTargetHotendMaster_checks cfg 0 0 s

theorem masterCheckMin_checks (cfg : Config α) (s : State α) :
    ChecksFrame s (masterCheckMin cfg s) := by
  unfold masterCheckMin
  split_ifs
  · exact (ChecksFrame.qtrans ⟨_, _, _, _, _, _, _, _, rfl⟩
      (setTargetHotendMaster_checks cfg 0 0 _)).qtrans (min_temp_error_checks 0 _)
  · exact ⟨_, _, _, _, _, _, _, _, rfl⟩
  · exact ⟨_, _, _, _, _, _, _, _, rfl⟩
  · exact setTargetHotendMaster_checks cfg 0 0 s

theorem manageBedCheck_checks (cfg : Config α) (s : State α) :
    ChecksFrame s (manageBedCheck cfg s) := by
  unfold manageBedCheck bed_temp_error
  split_ifs <;> exact ⟨_, _, _, _, _, _, _, _, rfl⟩

/-- The interval-gated checks write none of the variables of the regulator. -/
theorem manageChecks_checks (cfg : Config α) (now : Nat) (s : State α) :
    ChecksFrame s (manageChecks cfg now s) := by
  unfold manageChecks manageMasterCheck
  split_ifs
  · exact ChecksFrame.qrefl s
  · exact ((ChecksFrame.qtrans ⟨_, _, _, _, _, _, _, _, rfl⟩
      (masterCheckMax_checks cfg _)).qtrans (masterCheckMin_checks cfg _)).qtrans
      (manageBedCheck_checks cfg _)
  · exact ChecksFrame.qtrans ⟨_, _, _, _, _, _, _, _, rfl⟩ (manageBedCheck_checks cfg _)

/-- A call of `manage_heater` with a ready window runs the loop body of every local
channel `e` on a state `u` that agrees with the initial one on everything the body reads,
and nothing else in the call writes the entries of channel `e`. -/
theorem manage_heater_channel (cfg : Config α) (now : Nat) (s : State α) (e : Nat)
    (hr : s.temp_meas_ready = true) (he : e < EXTRUDERS_T cfg) :
    ∃ u, RegFrame s u ∧ ChannelKept e s u ∧
      ChannelKept e (manageChannel cfg e u) (manage_heater cfg now s) := by
  obtain ⟨u, a, b, c⟩ :=
    manageLoop_after cfg e { s with temp_meas_ready := false } (EXTRUDERS_T cfg) he
  refine ⟨u, RegFrame.rtrans ⟨_, _, _, _, _, _, _, _, _, rfl⟩ a, ?_, ?_⟩
  · exact ChannelKept.chtrans ⟨rfl, rfl, rfl, rfl, rfl, rfl, rfl, rfl⟩ b
  · unfold manage_heater
    rw [if_neg (by simp [hr])]
    exact c.chtrans ((manageChecks_checks cfg now _).kept e)

/-! ### The loop body on its own channel -/

theorem constrain_bounds {β : Type} [LinearOrder β] (x lo hi : β) (h : lo ≤ hi) :
    lo ≤ constrain x lo hi ∧ constrain x lo hi ≤ hi := by
  unfold constrain
  split_ifs with h1 h2
  · exact ⟨le_refl lo, h⟩
  · exact ⟨h, le_refl hi⟩
  · exact ⟨not_lt.mp h1, not_lt.mp h2⟩

/-- The duty stored for an output between 0 and `M` is at most `M >> 1`. -/
theorem dutyOf_le (x : α) (M : Int) (h0 : 0 ≤ x) (hM : x ≤ (M : α)) :
    ((dutyOf x : Nat) : Int) ≤ M >>> (1 : Nat) := by
  have f0 : 0 ≤ Int.floor x := Int.floor_nonneg.mpr h0
  have fM : Int.floor x ≤ M := by
    have h1 : ((Int.floor x : Int) : α) ≤ (M : α) := le_trans (Int.floor_le x) hM
    exact_mod_cast h1
  unfold dutyOf truncInt wrapU8 wrapInt16
  rw [if_pos h0, Int.shiftRight_eq_div_pow, Int.shiftRight_eq_div_pow,
    Int.toNat_of_nonneg (Int.emod_nonneg _ (by norm_num))]
  norm_num
  omega

/-- The duty stored for the output `M`, an integer between 0 and 511, is `M >> 1`. -/
theorem dutyOf_intCast (M : Int) (h0 : 0 ≤ M) (hM : M < 512) :
    ((dutyOf (M : α) : Nat) : Int) = M >>> (1 : Nat) := by
  have hc : (0 : α) ≤ (M : α) := by exact_mod_cast h0
  unfold dutyOf truncInt wrapU8 wrapInt16
  rw [if_pos hc, Int.floor_intCast, Int.shiftRight_eq_div_pow, Int.shiftRight_eq_div_pow,
    Int.toNat_of_nonneg (Int.emod_nonneg _ (by norm_num))]
  norm_num
  omega

theorem dutyOf_zero : dutyOf (0 : α) = 0 := by
  unfold dutyOf truncInt wrapU8 wrapInt16
  rw [if_pos (le_refl (0 : α)), Int.floor_zero]
  rfl

/-- The error computed by the loop body depends on nothing the loop writes. -/
theorem pidErrorOf_frame (cfg : Config α) (e : Nat) {s u : State α} (h : RegFrame s u) :
    pidErrorOf cfg e u = pidErrorOf cfg e s := by
  obtain ⟨rdy, pe, pr, ti, pt, it, dt, td, sp, rfl⟩ := h
  rfl

/-- The range gate stores the duty and nothing else. -/
theorem storeDuty_fields (e : Nat) (r : State α × α) :
    (storeDuty e r).pid_reset = r.1.pid_reset ∧ (storeDuty e r).temp_iState = r.1.temp_iState ∧
    (storeDuty e r).temp_dState = r.1.temp_dState ∧ (storeDuty e r).pTerm = r.1.pTerm ∧
    (storeDuty e r).iTerm = r.1.iTerm ∧ (storeDuty e r).dTerm = r.1.dTerm := by
  unfold storeDuty
  split_ifs <;> exact ⟨rfl, rfl, rfl, rfl, rfl, rfl⟩

/-- The duty stored by the loop body: the range gate applied to `pid_output`. -/
theorem manageChannel_soft_pwm (cfg : Config α) (e : Nat) (u : State α) :
    (manageChannel cfg e u).soft_pwm e =
      if u.minttemp e < u.current_raw e ∧ u.current_raw e < u.maxttemp e then
        dutyOf (heaterOutput cfg e u).2
      else 0 := by
  obtain ⟨rdy, pe, pr, ti, pt, it, dt, td, sp, hf⟩ := heaterOutput_frame cfg e u
  have h1 : (heaterOutput cfg e u).1.minttemp = u.minttemp := by rw [hf]
  have h2 : (heaterOutput cfg e u).1.maxttemp = u.maxttemp := by rw [hf]
  have h3 : (heaterOutput cfg e u).1.current_raw = u.current_raw := by rw [hf]
  unfold manageChannel storeDuty
  rw [h1, h2, h3]
  split_ifs
  · exact setAt_same _ _ _
  · exact setAt_same _ _ _

/-- The output of the regulator lies between 0 and `PID_MAX`. -/
theorem heaterOutput_range (cfg : Config α) (e : Nat) (u : State α) (hM : 0 ≤ cfg.PID_MAX) :
    0 ≤ (heaterOutput cfg e u).2 ∧ (heaterOutput cfg e u).2 ≤ (cfg.PID_MAX : α) := by
  have hc : (0 : α) ≤ (cfg.PID_MAX : α) := by exact_mod_cast hM
  unfold heaterOutput
  split_ifs
  · by_cases h1 : (cfg.FULL_PID_BAND : α) < pidErrorOf cfg e u
    · rw [pidOutput_high cfg e u h1]
      exact ⟨hc, le_refl _⟩
    · by_cases h2 : pidErrorOf cfg e u < -(cfg.FULL_PID_BAND : α)
      · rw [pidOutput_low cfg e u h1 h2]
        exact ⟨le_refl _, hc⟩
      · rw [pidOutput_band cfg e u h1 h2]
        unfold pidInBand
        exact constrain_bounds _ _ _ hc
  · unfold bangBangOutput
    show 0 ≤ (if u.current_raw e < u.target_raw e then (cfg.PID_MAX : α) else 0) ∧
      (if u.current_raw e < u.target_raw e then (cfg.PID_MAX : α) else 0) ≤ (cfg.PID_MAX : α)
    split_ifs
    · exact ⟨hc, le_refl _⟩
    · exact ⟨le_refl _, hc⟩

/-- The output of the regulator for channel `e` depends only on what the loop has not
written for other channels. -/
theorem heaterOutput_congr (cfg : Config α) (e : Nat) {s u : State α} (hf : RegFrame s u)
    (hk : ChannelKept e s u) : (heaterOutput cfg e u).2 = (heaterOutput cfg e s).2 := by
  have herr := pidErrorOf_frame cfg e hf
  obtain ⟨k1, k2, k3, k4, k5, k6, k7, k8⟩ := hk
  obtain ⟨rdy, pe, pr, ti, pt, it, dt, td, sp, rfl⟩ := hf
  unfold heaterOutput
  split_ifs
  · by_cases h1 : (cfg.FULL_PID_BAND : α) < pidErrorOf cfg e s
    · rw [pidOutput_high cfg e s h1, pidOutput_high cfg e _ (by rw [herr]; exact h1)]
    · by_cases h2 : pidErrorOf cfg e s < -(cfg.FULL_PID_BAND : α)
      · rw [pidOutput_low cfg e s h1 h2,
          pidOutput_low cfg e _ (by rw [herr]; exact h1) (by rw [herr]; exact h2)]
      · rw [pidOutput_band cfg e s h1 h2,
          pidOutput_band cfg e _ (by rw [herr]; exact h1) (by rw [herr]; exact h2), herr]
        unfold pidInBand
        simp only [] at k2 k3 k6 k7 ⊢
        rw [k2, k3, k6, k7]
        rfl
  · rfl

/-- Outside the band the PID loop body sets the reset flag and leaves the PID state of the
channel alone. -/
theorem manageChannel_saturated (cfg : Config α) (e : Nat) (u : State α)
    (hp : cfg.PIDTEMP = true)
    (hs : (cfg.FULL_PID_BAND : α) < pidErrorOf cfg e u ∨
      pidErrorOf cfg e u < -(cfg.FULL_PID_BAND : α)) :
    (manageChannel cfg e u).pid_reset e = true ∧
    (manageChannel cfg e u).temp_iState e = u.temp_iState e ∧
    (manageChannel cfg e u).temp_dState e = u.temp_dState e ∧
    (manageChannel cfg e u).pTerm e = u.pTerm e ∧
    (manageChannel cfg e u).iTerm e = u.iTerm e ∧
    (manageChannel cfg e u).dTerm e = u.dTerm e := by
  obtain ⟨f1, f2, f3, f4, f5, f6⟩ := storeDuty_fields e (heaterOutput cfg e u)
  unfold manageChannel
  rw [f1, f2, f3, f4, f5, f6]
  unfold heaterOutput
  rw [if_pos hp]
  by_cases h1 : (cfg.FULL_PID_BAND : α) < pidErrorOf cfg e u
  · rw [pidOutput_high cfg e u h1]
    exact ⟨setAt_same _ _ _, rfl, rfl, rfl, rfl, rfl⟩
  · have h2 : pidErrorOf cfg e u < -(cfg.FULL_PID_BAND : α) := by
      rcases hs with h | h
      · exact absurd h h1
      · exact h
    rw [pidOutput_low cfg e u h1 h2]
    exact ⟨setAt_same _ _ _, rfl, rfl, rfl, rfl, rfl⟩

/-- Inside the band with the reset flag set, the PID loop body restarts the integral from
the error of this window. -/
theorem manageChannel_restart (cfg : Config α) (e : Nat) (u : State α)
    (hp : cfg.PIDTEMP = true) (h1 : ¬ (cfg.FULL_PID_BAND : α) < pidErrorOf cfg e u)
    (h2 : ¬ pidErrorOf cfg e u < -(cfg.FULL_PID_BAND : α)) (hr : u.pid_reset e = true) :
    (manageChannel cfg e u).temp_iState e =
      constrain (pidErrorOf cfg e u) (u.temp_iState_min e) (u.temp_iState_max e) := by
  obtain ⟨-, f2, -⟩ := storeDuty_fields e (heaterOutput cfg e u)
  unfold manageChannel
  rw [f2]
  unfold heaterOutput
  rw [if_pos hp, pidOutput_band cfg e u h1 h2]
  unfold pidInBand
  simp only []
  rw [setAt_same, if_pos hr, zero_add]

/-- The duty stored by a call of `manage_heater` with a ready window, in terms of the
state at the call: the range gate applied to the output of the regulator. -/
theorem manage_heater_soft_pwm (cfg : Config α) (now : Nat) (s : State α) (e : Nat)
    (hr : s.temp_meas_ready = true) (he : e < EXTRUDERS_T cfg) :
    (manage_heater cfg now s).soft_pwm e =
      if s.minttemp e < s.current_raw e ∧ s.current_raw e < s.maxttemp e then
        dutyOf (heaterOutput cfg e s).2
      else 0 := by
  obtain ⟨u, hf, hk, hk'⟩ := manage_heater_channel cfg now s e hr he
  obtain ⟨-, -, -, -, -, -, -, k8⟩ := hk'
  have hout := heaterOutput_congr cfg e hf hk
  obtain ⟨rdy, pe, pr, ti, pt, it, dt, td, sp, rfl⟩ := hf
  rw [k8, manageChannel_soft_pwm, hout]

end Channels

/-! ## Claims about the debounce in the interrupt -/

section ClaimsInterrupt

variable {α : Type}

/-- C1 (the code departs from the claim): with one local channel, counters at 0 and a raw
target of 9000, three consecutive sampling windows that publish a reading at the maximum
bound (16383, a shorted thermistor) leave `dudMaxCount` at 3 and `target_raw[0]` at 9000;
the comparison `dudMaxCount > DUD_TEMP_COUNT` latches only in the fourth window. The same
holds for `dudMinCount` with three windows at or below the minimum bound (an open
thermistor, reading 15 against the bound 50). -/
theorem three_out_of_range_windows_do_not_latch :
    (List.range 384).filter
        (fun k => endsWindow cfgQ (adcShorted k) (isrTrace cfgQ adcShorted heatingState k))
      = [127, 255, 383] ∧
    (∀ k ∈ [127, 255, 383],
      (isrTrace cfgQ adcShorted heatingState (k + 1)).maxttemp 0 ≤
        (isrTrace cfgQ adcShorted heatingState (k + 1)).current_raw 0) ∧
    (isrTrace cfgQ adcShorted heatingState 384).dudMaxCount = 3 ∧
    (isrTrace cfgQ adcShorted heatingState 384).target_raw 0 = 9000 ∧
    (isrTrace cfgQ adcShorted heatingState 512).dudMaxCount = -1 ∧
    (isrTrace cfgQ adcShorted heatingState 512).target_raw 0 = 0 ∧
    (∀ k ∈ [127, 255, 383],
      (isrTrace cfgQ adcOpen heatingState (k + 1)).current_raw 0 ≤
        (isrTrace cfgQ adcOpen heatingState (k + 1)).minttemp 0) ∧
    (isrTrace cfgQ adcOpen heatingState 384).dudMinCount = 3 ∧
    (isrTrace cfgQ adcOpen heatingState 384).target_raw 0 = 9000 := by
  decide!

/-- Invariant of the debounce of a single local channel along a trace whose runs of
out-of-range windows stay at most 2 long. -/
theorem debounce_invariant (cfg : Config α) (adc : Nat → Nat) (s0 : State α)
    (h1 : EXTRUDERS_T cfg = 1) (hmax : s0.dudMaxCount = 0) (hmin : s0.dudMinCount = 0)
    (n : Nat) (hrun : ∀ m, m < n → oorRun cfg adc s0 m ≤ 2) :
    0 ≤ (isrTrace cfg adc s0 n).dudMaxCount ∧
    (isrTrace cfg adc s0 n).dudMaxCount ≤ oorRun cfg adc s0 n ∧
    0 ≤ (isrTrace cfg adc s0 n).dudMinCount ∧
    (isrTrace cfg adc s0 n).dudMinCount ≤ oorRun cfg adc s0 n ∧
    (isrTrace cfg adc s0 n).target_raw = s0.target_raw := by
  induction n with
  | zero =>
    refine ⟨?_, ?_, ?_, ?_, rfl⟩ <;> simp [isrTrace, oorRun, hmax, hmin]
  | succ n ih =>
    obtain ⟨a1, a2, a3, a4, a5⟩ := ih (fun m hm => hrun m (Nat.lt_succ_of_lt hm))
    obtain ⟨b1, b2, b3, b4, b5, -⟩ :=
      debounce_step cfg h1 (adc n) (isrTrace cfg adc s0 n) (oorRun cfg adc s0 n) a1 a2 a3 a4
        (hrun n (Nat.lt_succ_self n))
    exact ⟨b1, b2, b3, b4, b5.trans a5⟩

/-- C2: with one local channel and both counters at 0, along every sequence of ISR ticks
in which no run of consecutive out-of-range windows of channel 0 is longer than 2, the
counters `dudMaxCount` and `dudMinCount` stay non-negative, `target_raw[0]` keeps its
value, and every window that publishes an in-range reading leaves both counters at 0. -/
theorem short_runs_never_latch (cfg : Config α) (adc : Nat → Nat) (s0 : State α)
    (h1 : EXTRUDERS_T cfg = 1) (hmax : s0.dudMaxCount = 0) (hmin : s0.dudMinCount = 0)
    (n : Nat) (hrun : ∀ m, m ≤ n → oorRun cfg adc s0 m ≤ 2) :
    (∀ m, m ≤ n →
      0 ≤ (isrTrace cfg adc s0 m).dudMaxCount ∧ 0 ≤ (isrTrace cfg adc s0 m).dudMinCount ∧
      (isrTrace cfg adc s0 m).target_raw 0 = s0.target_raw 0) ∧
    (∀ m, m < n → endsWindow cfg (adc m) (isrTrace cfg adc s0 m) = true →
      outOfRange (isrTrace cfg adc s0 (m + 1)) 0 = false →
      (isrTrace cfg adc s0 (m + 1)).dudMaxCount = 0 ∧
      (isrTrace cfg adc s0 (m + 1)).dudMinCount = 0) := by
  constructor
  · intro m hm
    obtain ⟨a1, -, a3, -, a5⟩ := debounce_invariant cfg adc s0 h1 hmax hmin m
      (fun k hk => hrun k (by omega))
    exact ⟨a1, a3, by rw [a5]⟩
  · intro m hm hw hin
    obtain ⟨a1, a2, a3, a4, -⟩ := debounce_invariant cfg adc s0 h1 hmax hmin m
      (fun k hk => hrun k (by omega))
    exact (debounce_step cfg h1 (adc m) (isrTrace cfg adc s0 m) (oorRun cfg adc s0 m)
      a1 a2 a3 a4 (hrun m (by omega))).2.2.2.2.2 hw hin

/-- Witness of C2: a shorted thermistor for two windows, a mid-range reading in the third
window (ending on tick 384), then a shorted thermistor again for two windows. -/
theorem short_runs_never_latch_witness :
    EXTRUDERS_T cfgQ = 1 ∧ heatingState.dudMaxCount = 0 ∧ heatingState.dudMinCount = 0 ∧
    (∀ m, m ≤ 640 → oorRun cfgQ adcShortedTwice heatingState m ≤ 2) ∧
    oorRun cfgQ adcShortedTwice heatingState 256 = 2 ∧
    (0 ≤ (isrTrace cfgQ adcShortedTwice heatingState 640).dudMaxCount ∧
      0 ≤ (isrTrace cfgQ adcShortedTwice heatingState 640).dudMinCount ∧
      (isrTrace cfgQ adcShortedTwice heatingState 640).target_raw 0 =
        heatingState.target_raw 0) ∧
    ((isrTrace cfgQ adcShortedTwice heatingState 384).dudMaxCount = 0 ∧
      (isrTrace cfgQ adcShortedTwice heatingState 384).dudMinCount = 0) :=
  ⟨by decide, by decide, by decide, by decide!, by decide!,
    (short_runs_never_latch cfgQ adcShortedTwice heatingState (by decide) (by decide)
      (by decide) 640 (by decide!)).1 640 (le_refl 640),
    (short_runs_never_latch cfgQ adcShortedTwice heatingState (by decide) (by decide)
      (by decide) 640 (by decide!)).2 383 (by decide) (by decide!) (by decide!)⟩

end ClaimsInterrupt

/-! ## Soft PWM -/

section SoftPwm

variable {α : Type}

theorem isrSample_pwm (cfg : Config α) (adc : Nat) (s : State α) :
    (isrSample cfg adc s).pwm_count = s.pwm_count ∧
    (isrSample cfg adc s).soft_pwm_0 = s.soft_pwm_0 ∧
    (isrSample cfg adc s).heater_0_pin = s.heater_0_pin := by
  unfold isrSample
  split <;> exact ⟨rfl, rfl, rfl⟩

theorem isrWindowEnd_pwm (cfg : Config α) (s : State α) :
    (isrWindowEnd cfg s).pwm_count = s.pwm_count ∧
    (isrWindowEnd cfg s).soft_pwm_0 = s.soft_pwm_0 ∧
    (isrWindowEnd cfg s).heater_0_pin = s.heater_0_pin := by
  obtain ⟨c1, c2, c3, x, y, l, h1⟩ := isrCheckLoop_frame cfg (isrPublish cfg s)
  obtain ⟨d1, d2, d3, x', y', l', h2⟩ := isrCheckBed_frame cfg (isrCheckLoop cfg (isrPublish cfg s))
  unfold isrWindowEnd
  rw [h2, h1]
  exact ⟨rfl, rfl, rfl⟩

/-- The end-of-window block and the sampling switch leave the PWM variables of extruder 0
as the PWM part of the ISR set them. -/
theorem isr_pwm (cfg : Config α) (adc : Nat) (s : State α) :
    (isr cfg adc s).pwm_count = (isrPwm cfg s).pwm_count ∧
    (isr cfg adc s).soft_pwm_0 = (isrPwm cfg s).soft_pwm_0 ∧
    (isr cfg adc s).heater_0_pin = (isrPwm cfg s).heater_0_pin := by
  obtain ⟨a1, a2, a3⟩ := isrSample_pwm cfg adc (isrPwm cfg s)
  obtain ⟨b1, b2, b3⟩ := isrWindowEnd_pwm cfg (isrSample cfg adc (isrPwm cfg s))
  unfold isr
  split_ifs
  · exact ⟨b1.trans a1, b2.trans a2, b3.trans a3⟩
  · exact ⟨a1, a2, a3⟩

theorem pwmLoad1_pwm (cfg : Config α) (hOn : Bool) (s : State α) :
    (pwmLoad1 cfg hOn s).pwm_count = s.pwm_count ∧
    (pwmLoad1 cfg hOn s).soft_pwm_0 = s.soft_pwm_0 ∧
    (pwmLoad1 cfg hOn s).heater_0_pin = s.heater_0_pin := by
  unfold pwmLoad1
  by_cases h : 1 < cfg.EXTRUDERS
  · rw [if_pos h]
    exact ⟨rfl, rfl, rfl⟩
  · rw [if_neg h]
    exact ⟨rfl, rfl, rfl⟩

theorem pwmLoad2_pwm (cfg : Config α) (hOn : Bool) (s : State α) :
    (pwmLoad2 cfg hOn s).pwm_count = s.pwm_count ∧
    (pwmLoad2 cfg hOn s).soft_pwm_0 = s.soft_pwm_0 ∧
    (pwmLoad2 cfg hOn s).heater_0_pin = s.heater_0_pin := by
  unfold pwmLoad2
  by_cases h : 2 < cfg.EXTRUDERS
  · rw [if_pos h]
    exact ⟨rfl, rfl, rfl⟩
  · rw [if_neg h]
    exact ⟨rfl, rfl, rfl⟩

/-- The block `if(pwm_count == 0)` on the PWM variables of extruder 0. -/
theorem pwmLoad_pwm (cfg : Config α) (hOn : Bool) (s : State α) :
    (pwmLoad cfg hOn s).pwm_count = s.pwm_count ∧
    (pwmLoad cfg hOn s).soft_pwm_0 = (if s.pwm_count = 0 then s.soft_pwm 0 else s.soft_pwm_0) ∧
    (pwmLoad cfg hOn s).heater_0_pin =
      (if s.pwm_count = 0 ∧ 0 < s.soft_pwm 0 then hOn else s.heater_0_pin) := by
  have h0c : (pwmLoad0 hOn s).pwm_count = s.pwm_count := rfl
  have h0s : (pwmLoad0 hOn s).soft_pwm_0 = s.soft_pwm 0 := rfl
  have h0p : (pwmLoad0 hOn s).heater_0_pin =
      (if 0 < s.soft_pwm 0 then hOn else s.heater_0_pin) := rfl
  unfold pwmLoad
  by_cases h0 : s.pwm_count = 0
  · have hpin : (if 0 < s.soft_pwm 0 then hOn else s.heater_0_pin) =
        (if s.pwm_count = 0 ∧ 0 < s.soft_pwm 0 then hOn else s.heater_0_pin) := by
      by_cases hp : 0 < s.soft_pwm 0
      · rw [if_pos hp, if_pos ⟨h0, hp⟩]
      · rw [if_neg hp, if_neg (fun h => hp h.2)]
    rw [if_pos h0, if_pos h0, ← hpin]
    by_cases hm : cfg.REPRAPPRO_MULTIMATERIALS = true
    · rw [if_pos hm]
      exact ⟨h0c, h0s, h0p⟩
    · rw [if_neg hm]
      obtain ⟨a1, a2, a3⟩ := pwmLoad1_pwm cfg hOn (pwmLoad0 hOn s)
      obtain ⟨b1, b2, b3⟩ := pwmLoad2_pwm cfg hOn (pwmLoad1 cfg hOn (pwmLoad0 hOn s))
      exact ⟨(b1.trans a1).trans h0c, (b2.trans a2).trans h0s, (b3.trans a3).trans h0p⟩
  · rw [if_neg h0, if_neg h0, if_neg (fun h => h0 h.1)]
    exact ⟨rfl, rfl, rfl⟩

theorem pwmOff12_pwm (cfg : Config α) (s : State α) :
    (pwmOff12 cfg s).pwm_count = s.pwm_count ∧ (pwmOff12 cfg s).soft_pwm_0 = s.soft_pwm_0 ∧
    (pwmOff12 cfg s).heater_0_pin = s.heater_0_pin := by
  unfold pwmOff12
  by_cases h : cfg.REPRAPPRO_MULTIMATERIALS = true
  · rw [if_pos h]
    exact ⟨rfl, rfl, rfl⟩
  · rw [if_neg h]
    exact ⟨rfl, rfl, rfl⟩

/-- One execution of the ISR on the PWM variables of extruder 0: the counter advances
modulo 128, the snapshot is taken when the counter is 0, and the pin is raised at counter 0
for a non-zero snapshot and lowered as soon as the snapshot is at most the counter. -/
theorem isr_pwm_step (cfg : Config α) (adc : Nat) (s : State α) :
    (isr cfg adc s).pwm_count = (s.pwm_count + 1) % 256 % 128 ∧
    (isr cfg adc s).soft_pwm_0 = (if s.pwm_count = 0 then s.soft_pwm 0 else s.soft_pwm_0) ∧
    (isr cfg adc s).heater_0_pin =
      (if (if s.pwm_count = 0 then s.soft_pwm 0 else s.soft_pwm_0) ≤ s.pwm_count then false
       else if s.pwm_count = 0 ∧ 0 < s.soft_pwm 0 then heatOn s else s.heater_0_pin) := by
  obtain ⟨i1, i2, i3⟩ := isr_pwm cfg adc s
  obtain ⟨l1, l2, l3⟩ := pwmLoad_pwm cfg (heatOn s) s
  obtain ⟨o1, o2, o3⟩ := pwmOff12_pwm cfg (pwmOff0 (pwmLoad cfg (heatOn s) s))
  have hand : ∀ n : Nat, n &&& 0x7f = n % 128 := fun n => Nat.and_pow_two_sub_one_eq_mod n 7
  rw [i1, i2, i3]
  unfold isrPwm
  refine ⟨?_, ?_, ?_⟩
  · show ((pwmOff12 cfg (pwmOff0 (pwmLoad cfg (heatOn s) s))).pwm_count + 1) % 256 &&& 0x7f = _
    rw [o1, hand]
    show ((pwmLoad cfg (heatOn s) s).pwm_count + 1) % 256 % 128 = _
    rw [l1]
  · show (pwmOff12 cfg (pwmOff0 (pwmLoad cfg (heatOn s) s))).soft_pwm_0 = _
    rw [o2]
    exact l2
  · show (pwmOff12 cfg (pwmOff0 (pwmLoad cfg (heatOn s) s))).heater_0_pin = _
    rw [o3]
    show (if (pwmLoad cfg (heatOn s) s).soft_pwm_0 ≤ (pwmLoad cfg (heatOn s) s).pwm_count
      then false else (pwmLoad cfg (heatOn s) s).heater_0_pin) = _
    rw [l1, l2, l3]

/-- State of the PWM variables of extruder 0 within a period that starts with no fault
latched: after the tick with counter `k` the counter is `k + 1` modulo 128, the snapshot
is the duty read at the start and the pin is HIGH exactly when `k` is below it. -/
theorem pwm_period_invariant (cfg : Config α) (adc : Nat → Nat) (w : Nat → Nat)
    (s0 : State α) (h0 : s0.pwm_count = 0) (hmin : 0 ≤ s0.dudMinCount)
    (hmax : 0 ≤ s0.dudMaxCount) (k : Nat) (hk : k < 128) :
    (pwmTrace cfg adc w s0 (k + 1)).pwm_count = (k + 1) % 128 ∧
    (pwmTrace cfg adc w s0 (k + 1)).soft_pwm_0 = s0.soft_pwm 0 ∧
    (pwmTrace cfg adc w s0 (k + 1)).heater_0_pin = decide (k < s0.soft_pwm 0) := by
  induction k with
  | zero =>
    obtain ⟨a1, a2, a3⟩ := isr_pwm_step cfg (adc 0) s0
    have hon : heatOn s0 = true := by
      unfold heatOn
      simp [hmin, hmax]
    refine ⟨?_, ?_, ?_⟩
    · show (isr cfg (adc 0) s0).pwm_count = _
      rw [a1, h0]
    · show (isr cfg (adc 0) s0).soft_pwm_0 = _
      rw [a2, if_pos h0]
    · show (isr cfg (adc 0) s0).heater_0_pin = _
      rw [a3]
      simp only [h0, if_true, true_and, hon]
      by_cases hp : 0 < s0.soft_pwm 0
      · have hq : ¬ s0.soft_pwm 0 ≤ 0 := by omega
        simp [hp, hq]
      · have hq : s0.soft_pwm 0 ≤ 0 := by omega
        simp [hp, hq]
  | succ k ih =>
    obtain ⟨b1, b2, b3⟩ := ih (by omega)
    obtain ⟨a1, a2, a3⟩ := isr_pwm_step cfg (adc (k + 1)) (pwmTrace cfg adc w s0 (k + 1))
    have hc : (pwmTrace cfg adc w s0 (k + 1)).pwm_count = k + 1 := by
      rw [b1]
      exact Nat.mod_eq_of_lt (by omega)
    have hne : ¬ (pwmTrace cfg adc w s0 (k + 1)).pwm_count = 0 := by
      rw [hc]
      omega
    refine ⟨?_, ?_, ?_⟩
    · show (isr cfg (adc (k + 1)) (pwmTrace cfg adc w s0 (k + 1))).pwm_count = _
      rw [a1, hc]
      omega
    · show (isr cfg (adc (k + 1)) (pwmTrace cfg adc w s0 (k + 1))).soft_pwm_0 = _
      rw [a2, if_neg hne, b2]
    · show (isr cfg (adc (k + 1)) (pwmTrace cfg adc w s0 (k + 1))).heater_0_pin = _
      rw [a3]
      simp only [hne, if_false, false_and, b2, b3]
      rw [hc]
      by_cases hp : s0.soft_pwm 0 ≤ k + 1
      · have hq : ¬ k + 1 < s0.soft_pwm 0 := by omega
        simp [hp, hq]
      · have h1 : k < s0.soft_pwm 0 := by omega
        have h2 : k + 1 < s0.soft_pwm 0 := by omega
        simp [hp, h1, h2]

/-- Number of the naturals below `n` that are below `d`. -/
theorem count_below (d n : Nat) :
    ((List.range n).filter (fun k => decide (k < d))).length = min d n := by
  induction n with
  | zero => simp
  | succ n ih =>
    rw [List.range_succ, List.filter_append, List.length_append, ih]
    by_cases h : n < d
    · simp [h]
      omega
    · simp [h]
      omega

end SoftPwm

/-! ## Claims about the latches and the setters -/

section ClaimsLatch

variable {α : Type} [LinearOrderedField α] [FloorRing α]

/-- C3: fault latches are sticky. A negative `dudMaxCount`, `dudMinCount` or `dudBedCount`
is still negative after any ISR tick and after any call of `manage_heater`; an end-of-window
ISR tick taken with `dudMaxCount < 0` or `dudMinCount < 0` leaves `target_raw[e] = 0` for
every local channel `e`; `setTargetHotend`, `setTargetBed` and `disable_heater` write no
counter, and `tp_init` sets the three counters to 0. -/
theorem fault_latches_are_sticky (cfg : Config α) (s : State α) (adc now : Nat)
    (celsius : α) (extruder : Nat) :
    (s.dudMaxCount < 0 →
      (isr cfg adc s).dudMaxCount < 0 ∧ (manage_heater cfg now s).dudMaxCount < 0) ∧
    (s.dudMinCount < 0 →
      (isr cfg adc s).dudMinCount < 0 ∧ (manage_heater cfg now s).dudMinCount < 0) ∧
    (s.dudBedCount < 0 →
      (isr cfg adc s).dudBedCount < 0 ∧ (manage_heater cfg now s).dudBedCount < 0) ∧
    (endsWindow cfg adc s = true → s.dudMaxCount < 0 ∨ s.dudMinCount < 0 →
      ∀ e, e < EXTRUDERS_T cfg → (isr cfg adc s).target_raw e = 0) ∧
    CountersKept s (setTargetHotend cfg celsius extruder s) ∧
    CountersKept s (setTargetBed cfg celsius s) ∧
    CountersKept s (disable_heater cfg s) ∧
    ((tp_init cfg [] s).dudMaxCount = 0 ∧ (tp_init cfg [] s).dudMinCount = 0 ∧
      (tp_init cfg [] s).dudBedCount = 0) := by
  obtain ⟨m1, m2, m3⟩ := manage_heater_sticky cfg now s
  refine ⟨fun h => ⟨?_, ?_⟩, fun h => ⟨?_, ?_⟩, fun h => ⟨?_, ?_⟩, ?_,
    setTargetHotend_counters cfg celsius extruder s, setTargetBed_counters cfg celsius s,
    disable_heater_counters cfg s, tp_init_counters cfg s⟩
  · rw [isr_max_sticky cfg adc s h]
    exact h
  · rw [m1 h]
    exact h
  · rw [isr_min_sticky cfg adc s h]
    exact h
  · rw [m2 h]
    exact h
  · rw [isr_bed_sticky cfg adc s h]
    exact h
  · rw [m3 h]
    exact h
  · intro hw hl e he
    exact isr_zeroes cfg adc s hw hl e he

/-- Witness of C3: the end-of-window tick and a call of `manage_heater` from a state with
the maximum counter latched and a raw target of 9000. -/
theorem fault_latches_are_sticky_witness :
    latchedState.dudMaxCount < 0 ∧ endsWindow cfgQ 0 latchedState = true ∧
    latchedState.target_raw 0 = 9000 ∧
    ((isr cfgQ 0 latchedState).dudMaxCount < 0 ∧
      (manage_heater cfgQ 5000 latchedState).dudMaxCount < 0) ∧
    (isr cfgQ 0 latchedState).target_raw 0 = 0 :=
  ⟨by decide, by decide, by decide,
    (fault_latches_are_sticky cfgQ latchedState 0 5000 0 0).1 (by decide),
    (fault_latches_are_sticky cfgQ latchedState 0 5000 0 0).2.2.2.1 (by decide)
      (Or.inl (by decide)) 0 (by decide)⟩

/-- C4 (the code departs from the claim): in the build without a slave board and with
PIDTEMP, `setTargetHotend(200, 0)` called with `dudMaxCount = -1` stores
`temp2analog(0, 0)` in `target_raw[0]` but leaves `pid_setpoint[0]` at 200, because the
unconditional assignment of temperature.h:175-177 overwrites the 0 stored by the latched
branch; the variant for the build with a slave board leaves the setpoint at 0. -/
theorem latched_setpoint_is_overwritten :
    cfgQ.REPRAPPRO_MULTIMATERIALS = false ∧ cfgQ.PIDTEMP = true ∧
    ({ heatingState with dudMaxCount := -1 } : State ℚ).dudMaxCount < 0 ∧
    (setTargetHotend cfgQ 200 0 { heatingState with dudMaxCount := -1 }).pid_setpoint 0 = 200 ∧
    (setTargetHotend cfgQ 200 0 { heatingState with dudMaxCount := -1 }).target_raw 0 =
      temp2analog cfgQ { heatingState with dudMaxCount := -1 } 0 0 ∧
    (setTargetHotendMaster cfgQ 200 0 { heatingState with dudMaxCount := -1 }).pid_setpoint 0
      = 0 := by
  decide!

end ClaimsLatch

/-! ## Claims about the regulator -/

section ClaimsRegulator

variable {α : Type} [LinearOrderedField α] [FloorRing α]

/-- C5: after `manage_heater` has processed a ready window, the duty `soft_pwm[e]` of every
local channel lies in `[0, PID_MAX >> 1]`, for every state (gains, setpoint, reading and
PID state over any ordered field) and every non-negative `PID_MAX`. -/
theorem duty_bound (cfg : Config α) (now : Nat) (s : State α) (e : Nat)
    (hr : s.temp_meas_ready = true) (he : e < EXTRUDERS_T cfg) (hM : 0 ≤ cfg.PID_MAX) :
    (0 : Int) ≤ ((manage_heater cfg now s).soft_pwm e : Int) ∧
    ((manage_heater cfg now s).soft_pwm e : Int) ≤ cfg.PID_MAX >>> (1 : Nat) := by
  obtain ⟨u, -, -, hk⟩ := manage_heater_channel cfg now s e hr he
  obtain ⟨-, -, -, -, -, -, -, k8⟩ := hk
  refine ⟨Int.natCast_nonneg _, ?_⟩
  rw [k8, manageChannel_soft_pwm]
  obtain ⟨r0, r1⟩ := heaterOutput_range cfg e u hM
  split_ifs
  · exact dutyOf_le _ _ r0 r1
  · rw [Int.shiftRight_eq_div_pow]
    norm_num
    omega

/-- Witness of C5: the state `regState`, whose output saturates at `PID_MAX = 255`. -/
theorem duty_bound_witness :
    regState.temp_meas_ready = true ∧ 0 < EXTRUDERS_T cfgBand15 ∧ 0 ≤ cfgBand15.PID_MAX ∧
    (0 : Int) ≤ ((manage_heater cfgBand15 0 regState).soft_pwm 0 : Int) ∧
    ((manage_heater cfgBand15 0 regState).soft_pwm 0 : Int) ≤ cfgBand15.PID_MAX >>> (1 : Nat) :=
  ⟨by decide, by decide, by decide,
    duty_bound cfgBand15 0 regState 0 (by decide) (by decide) (by decide)⟩

/-- C6: after `manage_heater` has processed a ready window, for every local channel `e`
the duty `soft_pwm[e]` is 0 when the raw reading is at or outside its bounds
(`current_raw[e] <= minttemp[e]` or `current_raw[e] >= maxttemp[e]`), whatever the PID or
bang-bang output is, and is `(int)pid_output >> 1` when the reading is strictly inside. -/
theorem range_gate (cfg : Config α) (now : Nat) (s : State α) (e : Nat)
    (hr : s.temp_meas_ready = true) (he : e < EXTRUDERS_T cfg) :
    (s.current_raw e ≤ s.minttemp e ∨ s.maxttemp e ≤ s.current_raw e →
      (manage_heater cfg now s).soft_pwm e = 0) ∧
    (s.minttemp e < s.current_raw e ∧ s.current_raw e < s.maxttemp e →
      (manage_heater cfg now s).soft_pwm e = dutyOf (heaterOutput cfg e s).2) := by
  rw [manage_heater_soft_pwm cfg now s e hr he]
  constructor
  · intro h
    rw [if_neg]
    rintro ⟨h1, h2⟩
    rcases h with h | h
    · exact absurd h1 (not_lt.mpr h)
    · exact absurd h2 (not_lt.mpr h)
  · intro h
    rw [if_pos h]

/-- Witness of C6: the state `regState` (reading 8000 strictly inside the bounds) and the
same state with the reading at the maximum bound. -/
theorem range_gate_witness :
    regState.temp_meas_ready = true ∧ 0 < EXTRUDERS_T cfgBand15 ∧
    (regState.minttemp 0 < regState.current_raw 0 ∧
      regState.current_raw 0 < regState.maxttemp 0) ∧
    (manage_heater cfgBand15 0 regState).soft_pwm 0 =
      dutyOf (heaterOutput cfgBand15 0 regState).2 ∧
    (manage_heater cfgBand15 0 { regState with current_raw := fun _ => 16383 }).soft_pwm 0
      = 0 :=
  ⟨by decide, by decide, by decide,
    (range_gate cfgBand15 0 regState 0 (by decide) (by decide)).2 (by decide),
    (range_gate cfgBand15 0 { regState with current_raw := fun _ => 16383 } 0 (by decide)
      (by decide)).1 (Or.inr (by decide))⟩

/-- C7: PID anti-windup. If a processed window of channel `e` has an error outside the
band `FULL_PID_BAND` and the next processed window, whose reset flag is the one left by the
first, has an error inside the band, then after the second window `temp_iState[e]` is
`constrain(error, temp_iState_min[e], temp_iState_max[e])` for the error of that window
alone, whatever the accumulator held before. -/
theorem anti_windup (cfg : Config α) (now0 now1 : Nat) (s0 s1 : State α) (e : Nat)
    (hp : cfg.PIDTEMP = true) (he : e < EXTRUDERS_T cfg)
    (hr0 : s0.temp_meas_ready = true)
    (hsat : (cfg.FULL_PID_BAND : α) < pidErrorOf cfg e s0 ∨
      pidErrorOf cfg e s0 < -(cfg.FULL_PID_BAND : α))
    (hcarry : s1.pid_reset e = (manage_heater cfg now0 s0).pid_reset e)
    (hr1 : s1.temp_meas_ready = true)
    (hb1 : ¬ (cfg.FULL_PID_BAND : α) < pidErrorOf cfg e s1)
    (hb2 : ¬ pidErrorOf cfg e s1 < -(cfg.FULL_PID_BAND : α)) :
    (manage_heater cfg now1 s1).temp_iState e =
      constrain (pidErrorOf cfg e s1) (s1.temp_iState_min e) (s1.temp_iState_max e) := by
  have hflag : s1.pid_reset e = true := by
    obtain ⟨u, hf, -, hk⟩ := manage_heater_channel cfg now0 s0 e hr0 he
    rw [hcarry, hk.2.1]
    exact (manageChannel_saturated cfg e u hp (by rw [pidErrorOf_frame cfg e hf]; exact hsat)).1
  obtain ⟨u, hf, hk, hk'⟩ := manage_heater_channel cfg now1 s1 e hr1 he
  have herr := pidErrorOf_frame cfg e hf
  rw [hk'.2.2.1, manageChannel_restart cfg e u hp (by rw [herr]; exact hb1)
    (by rw [herr]; exact hb2) (by rw [hk.2.1]; exact hflag), herr]
  obtain ⟨rdy, pe, pr, ti, pt, it, dt, td, sp, rfl⟩ := hf
  rfl

/-- Witness of C7: the window of `regState` (error 50, band 15) followed by the window of
`regStateNext` (error 5), whose accumulator of 1000 is replaced by 5. -/
theorem anti_windup_witness :
    (cfgBand15.FULL_PID_BAND : ℚ) < pidErrorOf cfgBand15 0 regState ∧
    pidErrorOf cfgBand15 0 regStateNext = 5 ∧ regStateNext.temp_iState 0 = 1000 ∧
    (manage_heater cfgBand15 0 regStateNext).temp_iState 0 =
      constrain (pidErrorOf cfgBand15 0 regStateNext) (regStateNext.temp_iState_min 0)
        (regStateNext.temp_iState_max 0) ∧
    constrain (pidErrorOf cfgBand15 0 regStateNext) (regStateNext.temp_iState_min 0)
        (regStateNext.temp_iState_max 0) = 5 :=
  ⟨by decide!, by decide!, by decide!,
    anti_windup cfgBand15 0 0 regState regStateNext 0 (by decide) (by decide) (by decide)
      (Or.inl (by decide!)) rfl (by decide) (by decide!) (by decide!),
    by decide!⟩

/-- C8: saturation bypass. With PID enabled, `0 <= PID_MAX < 512` and a non-negative band,
for every local channel `e` whose raw reading is strictly inside its bounds: an error
above `FULL_PID_BAND` gives `soft_pwm[e] = PID_MAX >> 1` and `pid_reset[e] = true`, an
error below `-FULL_PID_BAND` gives `soft_pwm[e] = 0` and `pid_reset[e] = true`, and in both
cases `temp_iState[e]`, `temp_dState[e]`, `pTerm[e]`, `iTerm[e]` and `dTerm[e]` keep
their values. -/
theorem saturation_bypass (cfg : Config α) (now : Nat) (s : State α) (e : Nat)
    (hp : cfg.PIDTEMP = true) (hr : s.temp_meas_ready = true) (he : e < EXTRUDERS_T cfg)
    (hin : s.minttemp e < s.current_raw e ∧ s.current_raw e < s.maxttemp e)
    (hM0 : 0 ≤ cfg.PID_MAX) (hM : cfg.PID_MAX < 512) (hB : 0 ≤ cfg.FULL_PID_BAND) :
    ((cfg.FULL_PID_BAND : α) < pidErrorOf cfg e s →
      ((manage_heater cfg now s).soft_pwm e : Int) = cfg.PID_MAX >>> (1 : Nat) ∧
      (manage_heater cfg now s).pid_reset e = true ∧
      (manage_heater cfg now s).temp_iState e = s.temp_iState e ∧
      (manage_heater cfg now s).temp_dState e = s.temp_dState e ∧
      (manage_heater cfg now s).pTerm e = s.pTerm e ∧
      (manage_heater cfg now s).iTerm e = s.iTerm e ∧
      (manage_heater cfg now s).dTerm e = s.dTerm e) ∧
    (pidErrorOf cfg e s < -(cfg.FULL_PID_BAND : α) →
      (manage_heater cfg now s).soft_pwm e = 0 ∧
      (manage_heater cfg now s).pid_reset e = true ∧
      (manage_heater cfg now s).temp_iState e = s.temp_iState e ∧
      (manage_heater cfg now s).temp_dState e = s.temp_dState e ∧
      (manage_heater cfg now s).pTerm e = s.pTerm e ∧
      (manage_heater cfg now s).iTerm e = s.iTerm e ∧
      (manage_heater cfg now s).dTerm e = s.dTerm e) := by
  have g2 := manage_heater_soft_pwm cfg now s e hr he
  rw [if_pos hin] at g2
  obtain ⟨u, hf, hk, hk'⟩ := manage_heater_channel cfg now s e hr he
  have herr := pidErrorOf_frame cfg e hf
  obtain ⟨-, k2, k3, k4, k5, k6, k7, -⟩ := hk
  obtain ⟨-, m2, m3, m4, m5, m6, m7, -⟩ := hk'
  have hB' : (0 : α) ≤ (cfg.FULL_PID_BAND : α) := by exact_mod_cast hB
  constructor
  · intro h
    obtain ⟨c1, c2, c3, c4, c5, c6⟩ :=
      manageChannel_saturated cfg e u hp (Or.inl (by rw [herr]; exact h))
    refine ⟨?_, by rw [m2, c1], by rw [m3, c2, k3], by rw [m7, c3, k7], by rw [m4, c4, k4],
      by rw [m5, c5, k5], by rw [m6, c6, k6]⟩
    rw [g2]
    unfold heaterOutput
    rw [if_pos hp, pidOutput_high cfg e s h]
    exact dutyOf_intCast cfg.PID_MAX hM0 hM
  · intro h
    have hn : ¬ (cfg.FULL_PID_BAND : α) < pidErrorOf cfg e s := by
      intro hc
      have : pidErrorOf cfg e s < 0 := lt_of_lt_of_le h (neg_nonpos.mpr hB')
      exact absurd (lt_trans (lt_of_le_of_lt hB' hc) this) (lt_irrefl _)
    obtain ⟨c1, c2, c3, c4, c5, c6⟩ :=
      manageChannel_saturated cfg e u hp (Or.inr (by rw [herr]; exact h))
    refine ⟨?_, by rw [m2, c1], by rw [m3, c2, k3], by rw [m7, c3, k7], by rw [m4, c4, k4],
      by rw [m5, c5, k5], by rw [m6, c6, k6]⟩
    rw [g2]
    unfold heaterOutput
    rw [if_pos hp, pidOutput_low cfg e s hn h]
    exact dutyOf_zero

/-- Witness of C8: setpoint 200 and a reading converted to 150 degrees with a band of 15
give the maximum duty 127 and keep the accumulator of 1000. -/
theorem saturation_bypass_witness :
    regState.pid_setpoint 0 = 200 ∧
    analog2temp cfgBand15 regState (regState.current_raw 0) 0 = 150 ∧
    ((manage_heater cfgBand15 0 regState).soft_pwm 0 : Int) = cfgBand15.PID_MAX >>> (1 : Nat) ∧
    cfgBand15.PID_MAX >>> (1 : Nat) = 127 ∧
    (manage_heater cfgBand15 0 regState).pid_reset 0 = true ∧
    (manage_heater cfgBand15 0 regState).temp_iState 0 = 1000 :=
  ⟨by decide!, by decide!,
    ((saturation_bypass cfgBand15 0 regState 0 (by decide) (by decide) (by decide)
      (by decide) (by decide) (by decide) (by decide)).1 (by decide!)).1,
    by decide,
    ((saturation_bypass cfgBand15 0 regState 0 (by decide) (by decide) (by decide)
      (by decide) (by decide) (by decide) (by decide)).1 (by decide!)).2.1,
    ((saturation_bypass cfgBand15 0 regState 0 (by decide) (by decide) (by decide)
      (by decide) (by decide) (by decide) (by decide)).1 (by decide!)).2.2.1⟩

end ClaimsRegulator

/-! ## The bed monitor under interleaving -/

section BedMonitor

variable {α : Type} [LinearOrderedField α] [FloorRing α]

theorem BedKept.brefl (s : State α) : BedKept s s :=
  ⟨rfl, rfl, rfl, rfl, rfl, rfl, rfl⟩

theorem BedKept.btrans {s t u : State α} (h : BedKept s t) (k : BedKept t u) :
    BedKept s u := by
  obtain ⟨h1, h2, h3, h4, h5, h6, h7⟩ := h
  obtain ⟨k1, k2, k3, k4, k5, k6, k7⟩ := k
  exact ⟨k1.trans h1, k2.trans h2, k3.trans h3, k4.trans h4, k5.trans h5, k6.trans h6,
    k7.trans h7⟩

theorem LocalFrame.lbed {s s' : State α} (h : LocalFrame s s') : BedKept s s' := by
  obtain ⟨a, b, c, p, q, r, n, w, x, y, z, ph, cnt, rfl⟩ := h
  exact ⟨rfl, rfl, rfl, rfl, rfl, rfl, rfl⟩

theorem RegFrame.rbed {s s' : State α} (h : RegFrame s s') : BedKept s s' := by
  obtain ⟨rdy, pe, pr, ti, pt, it, dt, td, sp, rfl⟩ := h
  exact ⟨rfl, rfl, rfl, rfl, rfl, rfl, rfl⟩

theorem max_temp_error_bed (e : Nat) (s : State α) : BedKept s (max_temp_error e s) := by
  unfold max_temp_error
  split_ifs
  · refine ⟨rfl, rfl, rfl, ?_, rfl, rfl, rfl⟩
    simp [List.filter_append, Event.isBedTempError]
  · exact BedKept.brefl s

theorem min_temp_error_bed (e : Nat) (s : State α) : BedKept s (min_temp_error e s) := by
  unfold min_temp_error
  split_ifs
  · refine ⟨rfl, rfl, rfl, ?_, rfl, rfl, rfl⟩
    simp [List.filter_append, Event.isBedTempError]
  · exact BedKept.brefl s

theorem isrCheckMax_bed (e : Nat) (s : State α) : BedKept s (isrCheckMax e s) := by
  unfold isrCheckMax
  split_ifs
  · exact BedKept.btrans ⟨rfl, rfl, rfl, rfl, rfl, rfl, rfl⟩ (max_temp_error_bed e _)
  · exact ⟨rfl, rfl, rfl, rfl, rfl, rfl, rfl⟩
  · exact ⟨rfl, rfl, rfl, rfl, rfl, rfl, rfl⟩
  · exact ⟨rfl, rfl, rfl, rfl, rfl, rfl, rfl⟩

theorem isrCheckMin_bed (e : Nat) (s : State α) : BedKept s (isrCheckMin e s) := by
  unfold isrCheckMin
  split_ifs
  · have h2 := min_temp_error_bed e { s with target_raw := setAt s.target_raw e 0 }
    have h3 : BedKept (min_temp_error e { s with target_raw := setAt s.target_raw e 0 })
        { min_temp_error e { s with target_raw := setAt s.target_raw e 0 } with
          dudMinCount := -1 } := ⟨rfl, rfl, rfl, rfl, rfl, rfl, rfl⟩
    exact (BedKept.btrans ⟨rfl, rfl, rfl, rfl, rfl, rfl, rfl⟩ h2).btrans h3
  · exact ⟨rfl, rfl, rfl, rfl, rfl, rfl, rfl⟩
  · exact ⟨rfl, rfl, rfl, rfl, rfl, rfl, rfl⟩
  · exact ⟨rfl, rfl, rfl, rfl, rfl, rfl, rfl⟩

/-- The extruder loop of the ISR leaves the bed monitor alone. -/
theorem isrCheckLoop_bed (cfg : Config α) (s : State α) : BedKept s (isrCheckLoop cfg s) := by
  unfold isrCheckLoop
  refine foldl_keeps _ (BedKept s) ?_ _ s (BedKept.brefl s)
  intro u e hu
  unfold isrCheckExtruder
  split_ifs
  · exact hu
  · exact (hu.btrans (isrCheckMax_bed e u)).btrans (isrCheckMin_bed e _)

/-- One execution of the ISR on the bed monitor, when the bed check of the ISR is compiled
and the reading it leaves is below the maximum bound: nothing is reported and the target
and the pin are kept; the counter and the ready flag are kept, or the counter is cleared
(at the end of a window). -/
theorem isr_bed_monitor (cfg : Config α) (adc : Nat) (s : State α)
    (hisr : cfg.BED_MAXTEMP.isSome = true ∧ cfg.HEATER_BED_PIN = true)
    (h0 : 0 ≤ s.dudBedCount)
    (hlt : (isr cfg adc s).current_raw_bed < (isr cfg adc s).bed_maxttemp) :
    ((isr cfg adc s).serial.filter Event.isBedTempError).length =
      (s.serial.filter Event.isBedTempError).length ∧
    (isr cfg adc s).target_raw_bed = s.target_raw_bed ∧
    (isr cfg adc s).heater_bed_pin = s.heater_bed_pin ∧
    (((isr cfg adc s).dudBedCount = s.dudBedCount ∧
        (isr cfg adc s).temp_meas_ready = s.temp_meas_ready) ∨
      (isr cfg adc s).dudBedCount = 0) := by
  have hloc := isrLocal_frame cfg adc s
  by_cases hw : endsWindow cfg adc s = true
  · rw [isr_of_endsWindow cfg adc s hw] at hlt ⊢
    unfold isrWindowEnd at hlt ⊢
    obtain ⟨l1, l2, l3, l4, -, -, -⟩ := hloc.lbed
    have hp : (isrPublish cfg (isrSample cfg adc (isrPwm cfg s))).dudBedCount = s.dudBedCount ∧
        (isrPublish cfg (isrSample cfg adc (isrPwm cfg s))).target_raw_bed = s.target_raw_bed ∧
        (isrPublish cfg (isrSample cfg adc (isrPwm cfg s))).heater_bed_pin = s.heater_bed_pin ∧
        ((isrPublish cfg (isrSample cfg adc (isrPwm cfg s))).serial.filter
          Event.isBedTempError).length = (s.serial.filter Event.isBedTempError).length :=
      ⟨l1, l2, l3, l4⟩
    generalize isrPublish cfg (isrSample cfg adc (isrPwm cfg s)) = p at hp hlt ⊢
    obtain ⟨p1, p2, p3, p4⟩ := hp
    obtain ⟨q1, q2, q3, q4, -, -, -⟩ := isrCheckLoop_bed cfg p
    generalize isrCheckLoop cfg p = l at q1 q2 q3 q4 hlt ⊢
    have hl0 : 0 ≤ l.dudBedCount := by rw [q1, p1]; exact h0
    have hlt' : l.current_raw_bed < l.bed_maxttemp := by
      obtain ⟨c1, c2, c3, x, y, z, hb⟩ := isrCheckBed_frame cfg l
      rw [hb] at hlt
      exact hlt
    have hbed : isrCheckBed cfg l = { l with dudBedCount := 0 } := by
      unfold isrCheckBed
      rw [if_pos hisr, if_pos hl0, if_neg (not_le.mpr hlt')]
    rw [hbed]
    exact ⟨q4.trans p4, q2.trans p2, q3.trans p3, Or.inr rfl⟩
  · have hw' : endsWindow cfg adc s = false := by
      cases hb : endsWindow cfg adc s
      · rfl
      · exact absurd hb hw
    rw [isr_of_not_endsWindow cfg adc s hw']
    obtain ⟨l1, l2, l3, l4, -, -, -⟩ := hloc.lbed
    obtain ⟨a, b, c, p, q, r, n, w, x, y, z, ph, cnt, hf⟩ := hloc
    refine ⟨l4, l2, l3, Or.inl ⟨l1, ?_⟩⟩
    rw [hf]

theorem manageChannel_ready (cfg : Config α) (e : Nat) (s : State α) :
    (manageChannel cfg e s).temp_meas_ready = s.temp_meas_ready := by
  have hout : (heaterOutput cfg e s).1.temp_meas_ready = s.temp_meas_ready := by
    unfold heaterOutput
    split_ifs
    · by_cases h1 : (cfg.FULL_PID_BAND : α) < pidErrorOf cfg e s
      · rw [pidOutput_high cfg e s h1]
      · by_cases h2 : pidErrorOf cfg e s < -(cfg.FULL_PID_BAND : α)
        · rw [pidOutput_low cfg e s h1 h2]
        · rw [pidOutput_band cfg e s h1 h2]
          rfl
    · rfl
  unfold manageChannel storeDuty
  split_ifs
  · exact hout
  · exact hout

theorem manageLoop_ready (cfg : Config α) (s : State α) :
    (manageLoop cfg s).temp_meas_ready = s.temp_meas_ready := by
  unfold manageLoop
  refine foldl_keeps _ (fun u => u.temp_meas_ready = s.temp_meas_ready) ?_ _ s rfl
  intro u e hu
  rw [manageChannel_ready]
  exact hu

theorem setTargetHotendMaster_bed (cfg : Config α) (c : α) (e : Nat) (s : State α) :
    BedKept s (setTargetHotendMaster cfg c e s) := by
  unfold setTargetHotendMaster setTargetHotendLatched setTargetHotendNormal max_temp_error
    min_temp_error
  split_ifs <;> refine ⟨rfl, rfl, rfl, ?_, rfl, rfl, rfl⟩ <;>
    simp [List.filter_append, Event.isBedTempError]

theorem masterCheckMax_bed (cfg : Config α) (s : State α) :
    BedKept s (masterCheckMax cfg s) := by
  unfold masterCheckMax
  split_ifs
  · have h1 : BedKept s { s with dudMaxCount := -1 } := ⟨rfl, rfl, rfl, rfl, rfl, rfl, rfl⟩
    exact (h1.btrans (setTargetHotendMaster_bed cfg 0 0 _)).btrans (max_temp_error_bed 0 _)
  · exact ⟨rfl, rfl, rfl, rfl, rfl, rfl, rfl⟩
  · exact ⟨rfl, rfl, rfl, rfl, rfl, rfl, rfl⟩
  · exact setTargetHotendMaster_bed cfg 0 0 s

theorem masterCheckMin_bed (cfg : Config α) (s : State α) :
    BedKept s (masterCheckMin cfg s) := by
  unfold masterCheckMin
  split_ifs
  · have h1 : BedKept s { s with dudMinCount := -1 } := ⟨rfl, rfl, rfl, rfl, rfl, rfl, rfl⟩
    exact (h1.btrans (setTargetHotendMaster_bed cfg 0 0 _)).btrans (min_temp_error_bed 0 _)
  · exact ⟨rfl, rfl, rfl, rfl, rfl, rfl, rfl⟩
  · exact ⟨rfl, rfl, rfl, rfl, rfl, rfl, rfl⟩
  · exact setTargetHotendMaster_bed cfg 0 0 s

theorem manageMasterCheck_bed (cfg : Config α) (s : State α) :
    BedKept s (manageMasterCheck cfg s) := by
  unfold manageMasterCheck
  split_ifs
  · exact (masterCheckMax_bed cfg s).btrans (masterCheckMin_bed cfg _)
  · exact BedKept.brefl s

theorem manageMasterCheck_ready (cfg : Config α) (s : State α) :
    (manageMasterCheck cfg s).temp_meas_ready = s.temp_meas_ready := by
  have hc : ChecksFrame s (manageMasterCheck cfg s) := by
    unfold manageMasterCheck
    split_ifs
    · exact (masterCheckMax_checks cfg s).qtrans (masterCheckMin_checks cfg _)
    · exact ChecksFrame.qrefl s
  obtain ⟨pm, c1, c2, c3, x, sp, l, bp, hf⟩ := hc
  rw [hf]

/-- With a counter of 0 and a reading at or below the minimum bound, the bed check of
`manage_heater` only counts to 1. -/
theorem manageBedCheck_cold (cfg : Config α) (s : State α) (h0 : s.dudBedCount = 0)
    (hc : s.current_raw_bed ≤ s.bed_minttemp) :
    manageBedCheck cfg s = if cfg.TEMP_BED_PIN = true then { s with dudBedCount := 1 } else s := by
  have hn : ¬ (s.bed_minttemp < s.current_raw_bed ∧ s.current_raw_bed < s.bed_maxttemp) :=
    fun h => absurd h.1 (not_lt.mpr hc)
  have hw : wrapChar (s.dudBedCount + 1) = 1 := by
    rw [h0]
    rfl
  have h3 : ¬ DUD_TEMP_COUNT ≤ wrapChar (s.dudBedCount + 1) := by
    rw [hw]
    unfold DUD_TEMP_COUNT
    omega
  unfold manageBedCheck
  by_cases hp : cfg.TEMP_BED_PIN = true
  · rw [if_pos hp, if_pos hp, if_pos (by rw [h0]), if_neg hn, if_neg h3, hw]
  · rw [if_neg hp, if_neg hp]

/-- One call of `manage_heater` on the bed monitor, when the counter is 0 whenever a window
is ready and the reading is at or below the minimum bound: nothing is reported and the
target and the pin are kept; the call returns at once, or it clears the ready flag and
leaves the counter at 0 or 1. -/
theorem manage_heater_bed_monitor (cfg : Config α) (now : Nat) (s : State α)
    (hd : s.temp_meas_ready = true → s.dudBedCount = 0)
    (hcold : s.current_raw_bed ≤ s.bed_minttemp) :
    ((manage_heater cfg now s).serial.filter Event.isBedTempError).length =
      (s.serial.filter Event.isBedTempError).length ∧
    (manage_heater cfg now s).target_raw_bed = s.target_raw_bed ∧
    (manage_heater cfg now s).heater_bed_pin = s.heater_bed_pin ∧
    (((manage_heater cfg now s).dudBedCount = s.dudBedCount ∧
        (manage_heater cfg now s).temp_meas_ready = s.temp_meas_ready) ∨
      ((manage_heater cfg now s).temp_meas_ready = false ∧
        ((manage_heater cfg now s).dudBedCount = 0 ∨
          (manage_heater cfg now s).dudBedCount = 1))) := by
  unfold manage_heater
  by_cases hr : s.temp_meas_ready = true
  · rw [if_neg (by simp [hr])]
    have hm : BedKept s (manageLoop cfg { s with temp_meas_ready := false }) :=
      BedKept.btrans ⟨rfl, rfl, rfl, rfl, rfl, rfl, rfl⟩
        (manageLoop_frame cfg { s with temp_meas_ready := false }).rbed
    have hmr : (manageLoop cfg { s with temp_meas_ready := false }).temp_meas_ready = false :=
      manageLoop_ready cfg { s with temp_meas_ready := false }
    generalize manageLoop cfg { s with temp_meas_ready := false } = m at hm hmr ⊢
    obtain ⟨m1, m2, m3, m4, m5, m6, m7⟩ := hm
    unfold manageChecks
    split_ifs
    · exact ⟨m4, m2, m3, Or.inr ⟨hmr, Or.inl (m1.trans (hd hr))⟩⟩
    · have hq : BedKept m (manageMasterCheck cfg { m with previous_millis_bed_heater := now }) :=
        BedKept.btrans ⟨rfl, rfl, rfl, rfl, rfl, rfl, rfl⟩ (manageMasterCheck_bed cfg _)
      have hqr : (manageMasterCheck cfg
          { m with previous_millis_bed_heater := now }).temp_meas_ready = false := by
        rw [manageMasterCheck_ready]
        exact hmr
      generalize manageMasterCheck cfg { m with previous_millis_bed_heater := now } = q
        at hq hqr ⊢
      obtain ⟨q1, q2, q3, q4, q5, q6, q7⟩ := hq
      have hq0 : q.dudBedCount = 0 := (q1.trans m1).trans (hd hr)
      have hqc : q.current_raw_bed ≤ q.bed_minttemp := by
        rw [q5, q6, m5, m6]
        exact hcold
      rw [manageBedCheck_cold cfg q hq0 hqc]
      split_ifs
      · exact ⟨q4.trans m4, q2.trans m2, q3.trans m3, Or.inr ⟨hqr, Or.inr rfl⟩⟩
      · exact ⟨q4.trans m4, q2.trans m2, q3.trans m3, Or.inr ⟨hqr, Or.inl hq0⟩⟩
  · rw [if_pos (by simp [hr])]
    exact ⟨rfl, rfl, rfl, Or.inl ⟨rfl, rfl⟩⟩

/-- The bed minimum fault can never latch when the bed check of the ISR is compiled: along
every schedule of ISR ticks and calls of `manage_heater` from a state with
`dudBedCount = 0`, as long as the bed reading stays at or below `bed_minttemp` and below
`bed_maxttemp`, the counter stays in `{0, 1}`, no bed fault is reported, and the bed target
and the bed pin keep their values. -/
theorem bed_min_fault_never_latches (cfg : Config α) (sched : Nat → Step) (s0 : State α)
    (hisr : cfg.BED_MAXTEMP.isSome = true ∧ cfg.HEATER_BED_PIN = true)
    (h0 : s0.dudBedCount = 0) (n : Nat)
    (hcold : ∀ m, m ≤ n →
      (stepTrace cfg sched s0 m).current_raw_bed ≤ (stepTrace cfg sched s0 m).bed_minttemp ∧
      (stepTrace cfg sched s0 m).current_raw_bed < (stepTrace cfg sched s0 m).bed_maxttemp) :
    ((stepTrace cfg sched s0 n).dudBedCount = 0 ∨ (stepTrace cfg sched s0 n).dudBedCount = 1) ∧
    ((stepTrace cfg sched s0 n).temp_meas_ready = true →
      (stepTrace cfg sched s0 n).dudBedCount = 0) ∧
    bedReports (stepTrace cfg sched s0 n) = bedReports s0 ∧
    (stepTrace cfg sched s0 n).target_raw_bed = s0.target_raw_bed ∧
    (stepTrace cfg sched s0 n).heater_bed_pin = s0.heater_bed_pin := by
  induction n with
  | zero => exact ⟨Or.inl h0, fun _ => h0, rfl, rfl, rfl⟩
  | succ n ih =>
    obtain ⟨a1, a2, a3, a4, a5⟩ := ih (fun m hm => hcold m (by omega))
    have hn0 : 0 ≤ (stepTrace cfg sched s0 n).dudBedCount := by
      rcases a1 with h | h <;> omega
    have hc := (hcold (n + 1) (le_refl _)).2
    have hcn := (hcold n (by omega)).1
    unfold bedReports at a3 ⊢
    have hstep : stepTrace cfg sched s0 (n + 1) =
        step cfg (sched n) (stepTrace cfg sched s0 n) := rfl
    rw [hstep] at hc ⊢
    generalize stepTrace cfg sched s0 n = s at a1 a2 a3 a4 a5 hn0 hc hcn ⊢
    cases hs : sched n with
    | tick adc =>
      rw [hs] at hc
      have e1 : step cfg (Step.tick adc) s = isr cfg adc s := rfl
      rw [e1] at hc ⊢
      obtain ⟨b1, b2, b3, b4⟩ := isr_bed_monitor cfg adc s hisr hn0 hc
      refine ⟨?_, ?_, b1.trans a3, b2.trans a4, b3.trans a5⟩
      · rcases b4 with ⟨h, -⟩ | h
        · rw [h]
          exact a1
        · exact Or.inl h
      · intro hr
        rcases b4 with ⟨h, h'⟩ | h
        · rw [h]
          apply a2
          rw [← h']
          exact hr
        · exact h
    | manage now =>
      have e1 : step cfg (Step.manage now) s = manage_heater cfg now s := rfl
      rw [e1]
      obtain ⟨b1, b2, b3, b4⟩ := manage_heater_bed_monitor cfg now s a2 hcn
      refine ⟨?_, ?_, b1.trans a3, b2.trans a4, b3.trans a5⟩
      · rcases b4 with ⟨h, -⟩ | ⟨-, h⟩
        · rw [h]
          exact a1
        · exact h
      · intro hr
        rcases b4 with ⟨h, h'⟩ | ⟨h, -⟩
        · rw [h]
          apply a2
          rw [← h']
          exact hr
        · rw [h] at hr
          exact absurd hr (by decide)

/-- The schedule `bedSchedule` from `bedState` meets the hypotheses of
`bed_min_fault_never_latches` over three check intervals, each of which performs the bed
check. -/
theorem bed_min_fault_never_latches_witness :
    (cfgQ.BED_MAXTEMP.isSome = true ∧ cfgQ.HEATER_BED_PIN = true) ∧
    bedState.dudBedCount = 0 ∧
    (stepTrace cfgQ bedSchedule bedState 387).previous_millis_bed_heater = 15000 ∧
    (stepTrace cfgQ bedSchedule bedState 387).dudBedCount = 1 ∧
    bedReports (stepTrace cfgQ bedSchedule bedState 387) = bedReports bedState ∧
    (stepTrace cfgQ bedSchedule bedState 387).target_raw_bed = bedState.target_raw_bed ∧
    (stepTrace cfgQ bedSchedule bedState 387).heater_bed_pin = bedState.heater_bed_pin :=
  ⟨by decide, by decide, by decide!, by decide!,
    (bed_min_fault_never_latches cfgQ bedSchedule bedState (by decide) (by decide) 387
      (by decide!)).2.2⟩

end BedMonitor

/-! ## Claims about the bed check and the soft PWM -/

section ClaimsOutputs

variable {α : Type}

/-- A window whose bed reading is below the maximum bound clears a non-negative bed
counter in the ISR, whatever the main loop has counted so far. -/
theorem isrCheckBed_resets (cfg : Config α) (s : State α)
    (hc : cfg.BED_MAXTEMP.isSome = true ∧ cfg.HEATER_BED_PIN = true) (h0 : 0 ≤ s.dudBedCount)
    (hlt : s.current_raw_bed < s.bed_maxttemp) : (isrCheckBed cfg s).dudBedCount = 0 := by
  unfold isrCheckBed
  rw [if_pos hc, if_pos h0, if_neg (not_le.mpr hlt)]

/-- C9 (the code departs from the claim): with `dudBedCount = 0`, a raw bed target of
9000, the bed pin HIGH and the bed reading held at 15, below `bed_minttemp = 50`, three
bed checks of `manage_heater` at `millis()` 5000, 10000 and 15000, each after a sampling
window of the ISR, leave `dudBedCount = 1`, no `bed_temp_error` report, `target_raw_bed` at
9000 and the pin HIGH: the bed check of the ISR clears the shared counter at the end of
every window in which the reading is below `bed_maxttemp`. In the build without that ISR
check the third check latches, reports once and lowers the pin, but `target_raw_bed` is
still 9000. -/
theorem bed_min_fault_scenario :
    (∀ k ∈ [1, 2, 3],
      (bedRun cfgQ k).current_raw_bed = 15 ∧ (bedRun cfgQ k).bed_minttemp = 50 ∧
      (bedRun cfgQ k).previous_millis_bed_heater = 5000 * k ∧
      (bedRun cfgQ k).dudBedCount = 1) ∧
    ((bedRun cfgQ 3).serial.filter Event.isBedTempError).length = 0 ∧
    (bedRun cfgQ 3).target_raw_bed = 9000 ∧
    (bedRun cfgQ 3).heater_bed_pin = true ∧
    (bedRun cfgNoBedMax 3).dudBedCount = -1 ∧
    ((bedRun cfgNoBedMax 3).serial.filter Event.isBedTempError).length = 1 ∧
    (bedRun cfgNoBedMax 3).heater_bed_pin = false ∧
    (bedRun cfgNoBedMax 3).target_raw_bed = 9000 := by
  decide!

/-- C10: soft-PWM on-time equals duty. In a 128-tick period that starts on a tick with
`pwm_count == 0` and no fault latched, with `d = soft_pwm[0]` read on that tick, the
heater-0 pin is HIGH after the tick with counter `k` exactly when `k < d`, so it is HIGH
after `min(d, 128)` of the 128 ticks, whatever is stored in `soft_pwm[0]` after each tick;
the tick after the period has `pwm_count == 0` again. -/
theorem soft_pwm_on_time (cfg : Config α) (adc : Nat → Nat) (w : Nat → Nat) (s0 : State α)
    (h0 : s0.pwm_count = 0) (hmin : 0 ≤ s0.dudMinCount) (hmax : 0 ≤ s0.dudMaxCount) :
    (∀ k, k < 128 →
      (pwmTrace cfg adc w s0 (k + 1)).heater_0_pin = decide (k < s0.soft_pwm 0)) ∧
    ((List.range 128).filter
      (fun k => (pwmTrace cfg adc w s0 (k + 1)).heater_0_pin)).length = min (s0.soft_pwm 0) 128 ∧
    (pwmTrace cfg adc w s0 128).pwm_count = 0 := by
  have hpin : ∀ k, k < 128 →
      (pwmTrace cfg adc w s0 (k + 1)).heater_0_pin = decide (k < s0.soft_pwm 0) :=
    fun k hk => (pwm_period_invariant cfg adc w s0 h0 hmin hmax k hk).2.2
  refine ⟨hpin, ?_, ?_⟩
  · rw [← count_below (s0.soft_pwm 0) 128]
    congr 1
    apply List.filter_congr
    intro k hk
    exact hpin k (List.mem_range.mp hk)
  · exact (pwm_period_invariant cfg adc w s0 h0 hmin hmax 127 (by omega)).1

/-- Witness of C10: a duty of 100 at the start of the period, overwritten with 5 after
every tick, gives 100 HIGH ticks out of 128. -/
theorem soft_pwm_on_time_witness :
    pwmState.pwm_count = 0 ∧ 0 ≤ pwmState.dudMinCount ∧ 0 ≤ pwmState.dudMaxCount ∧
    pwmState.soft_pwm 0 = 100 ∧
    ((List.range 128).filter
      (fun k => (pwmTrace cfgQ adcMid (fun _ => 5) pwmState (k + 1)).heater_0_pin)).length =
        min (pwmState.soft_pwm 0) 128 :=
  ⟨by decide, by decide, by decide, by decide,
    (soft_pwm_on_time cfgQ adcMid (fun _ => 5) pwmState (by decide) (by decide)
      (by decide)).2.1⟩

end ClaimsOutputs

/-! ## The fail-safe of the soft PWM -/

section ClaimsFailSafe

variable {α : Type}

/-- With a fault latched, an execution of the ISR that starts a PWM period or finds the
heater-0 pin LOW leaves the pin LOW. -/
theorem isr_latched_pin (cfg : Config α) (adc : Nat) (s : State α)
    (hl : s.dudMinCount < 0 ∨ s.dudMaxCount < 0)
    (h : s.pwm_count = 0 ∨ s.heater_0_pin = false) :
    (isr cfg adc s).heater_0_pin = false := by
  obtain ⟨_, _, a3⟩ := isr_pwm_step cfg adc s
  have hoff : heatOn s = false := by
    unfold heatOn
    rcases hl with hl | hl
    · have : ¬ 0 ≤ s.dudMinCount := by omega
      simp [this]
    · have : ¬ 0 ≤ s.dudMaxCount := by omega
      simp [this]
  rw [a3, hoff]
  by_cases hc : s.pwm_count = 0
  · simp only [hc, if_true, true_and]
    by_cases hp : 0 < s.soft_pwm 0
    · have hq : ¬ s.soft_pwm 0 ≤ 0 := by omega
      simp [hp, hq]
    · have hq : s.soft_pwm 0 ≤ 0 := by omega
      simp [hq]
  · have hpin : s.heater_0_pin = false := by
      rcases h with h | h
      · exact absurd h hc
      · exact h
    simp only [hc, if_false, false_and, hpin]
    split_ifs <;> rfl

/-- A latch present at the start of a PWM trace is present after every tick. -/
theorem pwmTrace_latched (cfg : Config α) (adc : Nat → Nat) (w : Nat → Nat) (s0 : State α)
    (hl : s0.dudMinCount < 0 ∨ s0.dudMaxCount < 0) (n : Nat) :
    (pwmTrace cfg adc w s0 n).dudMinCount < 0 ∨ (pwmTrace cfg adc w s0 n).dudMaxCount < 0 := by
  induction n with
  | zero => exact hl
  | succ n ih =>
    rcases ih with h | h
    · left
      show (isr cfg (adc n) (pwmTrace cfg adc w s0 n)).dudMinCount < 0
      rw [isr_min_sticky cfg _ _ h]
      exact h
    · right
      show (isr cfg (adc n) (pwmTrace cfg adc w s0 n)).dudMaxCount < 0
      rw [isr_max_sticky cfg _ _ h]
      exact h

/-- C11: when a PWM period starts (`pwm_count == 0`) with `dudMinCount < 0` or
`dudMaxCount < 0`, the heater-0 pin is LOW after that tick and after every later tick,
whatever `soft_pwm[0]` holds then and whatever the main loop stores in it afterwards; and a
tick with a latch that finds the pin LOW leaves it LOW. -/
theorem soft_pwm_fail_safe (cfg : Config α) (adc : Nat → Nat) (w : Nat → Nat) (s0 : State α)
    (h0 : s0.pwm_count = 0) (hl : s0.dudMinCount < 0 ∨ s0.dudMaxCount < 0) :
    (∀ n, (pwmTrace cfg adc w s0 (n + 1)).heater_0_pin = false) ∧
    (∀ n, (pwmTrace cfg adc w s0 n).dudMinCount < 0 ∨
      (pwmTrace cfg adc w s0 n).dudMaxCount < 0) ∧
    (∀ (a : Nat) (s : State α), (s.dudMinCount < 0 ∨ s.dudMaxCount < 0) →
      s.heater_0_pin = false → (isr cfg a s).heater_0_pin = false) := by
  refine ⟨?_, pwmTrace_latched cfg adc w s0 hl,
    fun a s hs hp => isr_latched_pin cfg a s hs (Or.inr hp)⟩
  intro n
  induction n with
  | zero => exact isr_latched_pin cfg (adc 0) s0 hl (Or.inl h0)
  | succ n ih =>
    exact isr_latched_pin cfg (adc (n + 1)) (pwmTrace cfg adc w s0 (n + 1))
      (pwmTrace_latched cfg adc w s0 hl (n + 1)) (Or.inr ih)

/-- C11 on the state `latchedPwmState` (maximum latch set, duty 100, pin HIGH): the pin is
LOW after each of the first 300 ticks although the main loop keeps storing the duty 127. -/
theorem soft_pwm_fail_safe_witness :
    latchedPwmState.pwm_count = 0 ∧ latchedPwmState.heater_0_pin = true ∧
    latchedPwmState.soft_pwm 0 = 100 ∧
    (latchedPwmState.dudMinCount < 0 ∨ latchedPwmState.dudMaxCount < 0) ∧
    ∀ n, (pwmTrace cfgQ adcMid (fun _ => 127) latchedPwmState (n + 1)).heater_0_pin = false :=
  ⟨by decide, by decide, by decide, by decide,
    (soft_pwm_fail_safe cfgQ adcMid (fun _ => 127) latchedPwmState (by decide)
      (by decide)).1⟩

end ClaimsFailSafe
/-! ## Claims about the conversions -/

section ClaimsConversion

variable {α : Type} [LinearOrderedField α] [FloorRing α]

/-- A value inside the range of a 16 bit `int` is stored unchanged. -/
theorem wrapInt16_of_range (x : Int) (h0 : -32768 ≤ x) (h1 : x ≤ 32767) : wrapInt16 x = x := by
  unfold wrapInt16
  omega

/-- The value `AD_RANGE*r/(r + rs)` lies between 0 and `AD_RANGE` when the resistance `r`
is not negative. -/
theorem divider_range (A r rs : α) (hA : 0 ≤ A) (hr : 0 ≤ r) (hrs : 0 < rs) :
    0 ≤ A * r / (r + rs) ∧ A * r / (r + rs) ≤ A := by
  have hpos : 0 < r + rs := by linarith
  refine ⟨div_nonneg (mul_nonneg hA hr) hpos.le, ?_⟩
  rw [div_le_iff₀ hpos]
  nlinarith

/-- The rounding step `AD_RANGE - (int)(0.5 + x)` for `x` between 0 and `AD_RANGE`. -/
theorem round_sub (A : Int) (x : α) (hA : A ≤ 32767) (hx0 : 0 ≤ x) (hx1 : x ≤ (A : α)) :
    wrapInt16 (A - truncInt ((1 / 2 : α) + x)) = A - ⌊(1 / 2 : α) + x⌋ ∧
    0 ≤ ⌊(1 / 2 : α) + x⌋ ∧ ⌊(1 / 2 : α) + x⌋ ≤ A := by
  have hn0 : 0 ≤ ⌊(1 / 2 : α) + x⌋ := Int.floor_nonneg.mpr (by linarith)
  have hn1 : ⌊(1 / 2 : α) + x⌋ ≤ A := by
    rw [Int.floor_le_iff]
    linarith
  refine ⟨?_, hn0, hn1⟩
  have hpos : (0 : α) ≤ 1 / 2 + x := by linarith
  unfold truncInt
  rw [if_pos hpos, wrapInt16_of_range ⌊(1 / 2 : α) + x⌋ (by omega) (by omega),
    wrapInt16_of_range _ (by omega) (by omega)]

/-- The exact raw value of a temperature as the voltage divider formula. -/
theorem temp2analogExact_eq (cfg : Config α) (celsius : Int) (beta rs r_inf : α) :
    (cfg.AD_RANGE : α) - temp2analogExact cfg celsius beta rs r_inf =
      (cfg.AD_RANGE : α) * (r_inf * cfg.exp (beta / ((celsius : α) - cfg.ABS_ZERO))) /
        (r_inf * cfg.exp (beta / ((celsius : α) - cfg.ABS_ZERO)) + rs) := by
  unfold temp2analogExact
  ring

/-- The integer that `temp2analogi` subtracts from `AD_RANGE` is the floor of one half plus
the exact value, and it lies between 0 and `AD_RANGE`, when `exp` returns no negative value
and `AD_RANGE` fits an `int`. -/
theorem temp2analogi_floor (cfg : Config α) (celsius : Int) (beta rs r_inf : α)
    (hexp : 0 ≤ cfg.exp (beta / ((celsius : α) - cfg.ABS_ZERO)))
    (hA0 : 0 ≤ cfg.AD_RANGE) (hA : cfg.AD_RANGE ≤ 32767) (hrs : 0 < rs) (hri : 0 < r_inf) :
    temp2analogi cfg celsius beta rs r_inf = cfg.AD_RANGE -
      ⌊(1 / 2 : α) + ((cfg.AD_RANGE : α) - temp2analogExact cfg celsius beta rs r_inf)⌋ ∧
    0 ≤ ⌊(1 / 2 : α) + ((cfg.AD_RANGE : α) - temp2analogExact cfg celsius beta rs r_inf)⌋ ∧
    ⌊(1 / 2 : α) + ((cfg.AD_RANGE : α) - temp2analogExact cfg celsius beta rs r_inf)⌋ ≤
      cfg.AD_RANGE := by
  have hr : 0 ≤ r_inf * cfg.exp (beta / ((celsius : α) - cfg.ABS_ZERO)) :=
    mul_nonneg hri.le hexp
  have hAα : (0 : α) ≤ (cfg.AD_RANGE : α) := by exact_mod_cast hA0
  obtain ⟨hx0, hx1⟩ := divider_range (cfg.AD_RANGE : α) _ rs hAα hr hrs
  rw [temp2analogExact_eq]
  exact round_sub cfg.AD_RANGE _ hA hx0 hx1

/-- C14: for `rs > 0`, `r_inf > 0`, every `beta` and every integer `celsius` (also at or
below absolute zero) the result of `temp2analogi` lies in `[0, AD_RANGE]`, for every `exp`
without negative values (the real exponential is one) and `0 ≤ AD_RANGE ≤ 32767`. -/
theorem temp2analogi_saturates (cfg : Config α) (hexp : ∀ x, 0 ≤ cfg.exp x)
    (hA0 : 0 ≤ cfg.AD_RANGE) (hA : cfg.AD_RANGE ≤ 32767) (celsius : Int) (beta rs r_inf : α)
    (hrs : 0 < rs) (hri : 0 < r_inf) :
    0 ≤ temp2analogi cfg celsius beta rs r_inf ∧
    temp2analogi cfg celsius beta rs r_inf ≤ cfg.AD_RANGE := by
  obtain ⟨h, h0, h1⟩ := temp2analogi_floor cfg celsius beta rs r_inf (hexp _) hA0 hA hrs hri
  rw [h]
  omega

/-- C14 with the real exponential, 400 degrees below absolute zero. -/
theorem temp2analogi_saturates_witness :
    0 ≤ temp2analogi (cfgOf Real.exp Real.log) (-673) 3960 4700 (1 / 20) ∧
    temp2analogi (cfgOf Real.exp Real.log) (-673) 3960 4700 (1 / 20) ≤ 16383 :=
  temp2analogi_saturates (cfgOf Real.exp Real.log) (fun x => (Real.exp_pos x).le)
    (by decide) (by decide) (-673) 3960 4700 (1 / 20) (by norm_num) (by norm_num)

/-- On a raw value whose difference from `AD_RANGE` fits an `int`, `analog2tempi` is its
formula on the real line. -/
theorem analog2tempi_exact (cfg : Config α) (raw : Int) (beta rs r_inf : α)
    (h0 : -32768 ≤ cfg.AD_RANGE - raw) (h1 : cfg.AD_RANGE - raw ≤ 32767) :
    analog2tempi cfg raw beta rs r_inf = analog2tempExact cfg (raw : α) beta rs r_inf := by
  unfold analog2tempi analog2tempExact
  rw [wrapInt16_of_range _ h0 h1]
  push_cast
  rfl

/-- The formula of `analog2tempi` in terms of the thermistor resistance
`(AD_RANGE - raw)*rs/raw`. -/
theorem analog2tempExact_resistance (cfg : Config α) (raw beta rs r_inf : α) :
    analog2tempExact cfg raw beta rs r_inf =
      cfg.ABS_ZERO + beta / cfg.log ((((cfg.AD_RANGE : α) - raw) * rs / raw) / r_inf) := by
  unfold analog2tempExact
  simp only [sub_sub_cancel]

/-- C13: over the reals, for `beta > 0`, `rs > 0`, `r_inf > 0` and raw values
`0 < raw1 < raw2 < AD_RANGE` at which the thermistor resistance `(AD_RANGE - raw)*rs/raw`
exceeds `r_inf`, `analog2tempi` is strictly increasing (with `AD_RANGE ≤ 32767`). -/
theorem analog2tempi_strict_mono (cfg : Config ℝ) (hlog : cfg.log = Real.log)
    (hA : cfg.AD_RANGE ≤ 32767) (beta rs r_inf : ℝ) (hb : 0 < beta) (hrs : 0 < rs)
    (hri : 0 < r_inf) (raw1 raw2 : Int) (h1 : 0 < raw1) (h12 : raw1 < raw2)
    (h2 : raw2 < cfg.AD_RANGE)
    (_hd1 : r_inf < ((cfg.AD_RANGE : ℝ) - raw1) * rs / raw1)
    (hd2 : r_inf < ((cfg.AD_RANGE : ℝ) - raw2) * rs / raw2) :
    analog2tempi cfg raw1 beta rs r_inf < analog2tempi cfg raw2 beta rs r_inf := by
  rw [analog2tempi_exact cfg raw1 _ _ _ (by omega) (by omega),
    analog2tempi_exact cfg raw2 _ _ _ (by omega) (by omega),
    analog2tempExact_resistance, analog2tempExact_resistance, hlog]
  have p1 : (0 : ℝ) < raw1 := by exact_mod_cast h1
  have p2 : (0 : ℝ) < raw2 := by exact_mod_cast (lt_trans h1 h12)
  have p12 : (raw1 : ℝ) < raw2 := by exact_mod_cast h12
  have pA : (raw2 : ℝ) < cfg.AD_RANGE := by exact_mod_cast h2
  have hres : ((cfg.AD_RANGE : ℝ) - raw2) * rs / raw2 <
      ((cfg.AD_RANGE : ℝ) - raw1) * rs / raw1 := by
    rw [div_lt_div_iff₀ p2 p1]
    have hd : ((cfg.AD_RANGE : ℝ) - raw1) * rs * raw2 - ((cfg.AD_RANGE : ℝ) - raw2) * rs * raw1 =
        rs * (cfg.AD_RANGE : ℝ) * ((raw2 : ℝ) - raw1) := by ring
    have hp : 0 < rs * (cfg.AD_RANGE : ℝ) * ((raw2 : ℝ) - raw1) :=
      mul_pos (mul_pos hrs (lt_trans p2 pA)) (sub_pos.mpr p12)
    linarith
  have one2 : 1 < ((cfg.AD_RANGE : ℝ) - raw2) * rs / raw2 / r_inf := by
    rw [lt_div_iff₀ hri]
    linarith
  have hlt : ((cfg.AD_RANGE : ℝ) - raw2) * rs / raw2 / r_inf <
      ((cfg.AD_RANGE : ℝ) - raw1) * rs / raw1 / r_inf := div_lt_div_of_pos_right hres hri
  have l2 : 0 < Real.log (((cfg.AD_RANGE : ℝ) - raw2) * rs / raw2 / r_inf) := Real.log_pos one2
  have l12 := Real.log_lt_log (lt_trans one_pos one2) hlt
  have := div_lt_div_of_pos_left hb l2 l12
  linarith

/-- C13 with the real logarithm, at the raw values 9000 and 9001. -/
theorem analog2tempi_strict_mono_witness :
    analog2tempi (cfgOf Real.exp Real.log) 9000 3960 4700 (1 / 20) <
      analog2tempi (cfgOf Real.exp Real.log) 9001 3960 4700 (1 / 20) :=
  analog2tempi_strict_mono (cfgOf Real.exp Real.log) rfl (by decide) 3960 4700 (1 / 20)
    (by norm_num) (by norm_num) (by norm_num) 9000 9001 (by decide) (by decide) (by decide)
    (by norm_num [cfgOf]) (by norm_num [cfgOf])

/-- C12: over the reals, for `beta > 0`, `rs > 0`, `r_inf > 0` and an integer `T` in
`0..300` (with `ABS_ZERO < 0` and `0 < AD_RANGE ≤ 32767`): the conversion back of the exact
raw value of `T` is `T`; the raw value `temp2analogi` returns is within one half of the
exact one; and the round trip through `analog2tempi` is the same formula at that rounded
value. -/
theorem conversion_round_trip (cfg : Config ℝ) (hexp : cfg.exp = Real.exp)
    (hlog : cfg.log = Real.log) (hA0 : 0 < cfg.AD_RANGE) (hA : cfg.AD_RANGE ≤ 32767)
    (hZ : cfg.ABS_ZERO < 0) (beta rs r_inf : ℝ) (hb : 0 < beta) (hrs : 0 < rs)
    (hri : 0 < r_inf) (T : Int) (hT0 : 0 ≤ T) (_hT : T ≤ 300) :
    analog2tempExact cfg (temp2analogExact cfg T beta rs r_inf) beta rs r_inf = T ∧
    |((temp2analogi cfg T beta rs r_inf : Int) : ℝ) - temp2analogExact cfg T beta rs r_inf|
      ≤ 1 / 2 ∧
    analog2tempi cfg (temp2analogi cfg T beta rs r_inf) beta rs r_inf =
      analog2tempExact cfg ((temp2analogi cfg T beta rs r_inf : Int) : ℝ) beta rs r_inf := by
  have hT0r : (0 : ℝ) ≤ T := by exact_mod_cast hT0
  have hK : (0 : ℝ) < (T : ℝ) - cfg.ABS_ZERO := by linarith
  have hApos : (0 : ℝ) < cfg.AD_RANGE := by exact_mod_cast hA0
  obtain ⟨hfl, hn0, hn1⟩ := temp2analogi_floor cfg T beta rs r_inf
    (by rw [hexp]; exact (Real.exp_pos _).le) hA0.le hA hrs hri
  refine ⟨?_, ?_, ?_⟩
  · have he : 0 < Real.exp (beta / ((T : ℝ) - cfg.ABS_ZERO)) := Real.exp_pos _
    have hr : 0 < r_inf * Real.exp (beta / ((T : ℝ) - cfg.ABS_ZERO)) := mul_pos hri he
    have harg : ((cfg.AD_RANGE : ℝ) - temp2analogExact cfg T beta rs r_inf) * rs /
        temp2analogExact cfg T beta rs r_inf / r_inf =
        Real.exp (beta / ((T : ℝ) - cfg.ABS_ZERO)) := by
      unfold temp2analogExact
      simp only [hexp]
      generalize Real.exp (beta / ((T : ℝ) - cfg.ABS_ZERO)) = e at he hr
      have hsum : r_inf * e + rs ≠ 0 := (add_pos hr hrs).ne'
      have hden : (cfg.AD_RANGE : ℝ) - (cfg.AD_RANGE : ℝ) * (r_inf * e) / (r_inf * e + rs) =
          (cfg.AD_RANGE : ℝ) * rs / (r_inf * e + rs) := by
        field_simp
        ring
      rw [hden]
      have hA' := hApos.ne'
      have hrs' := hrs.ne'
      have hri' := hri.ne'
      field_simp
      ring
    rw [analog2tempExact_resistance, harg, hlog, Real.log_exp]
    field_simp
  · rw [hfl]
    push_cast
    have hle := Int.floor_le
      ((1 / 2 : ℝ) + ((cfg.AD_RANGE : ℝ) - temp2analogExact cfg T beta rs r_inf))
    have hlt := Int.lt_floor_add_one
      ((1 / 2 : ℝ) + ((cfg.AD_RANGE : ℝ) - temp2analogExact cfg T beta rs r_inf))
    rw [abs_le]
    constructor <;> linarith
  · apply analog2tempi_exact
    · rw [hfl]
      omega
    · rw [hfl]
      omega

/-- C12 with the real exponential and logarithm, at 200 degrees. -/
theorem conversion_round_trip_witness :
    analog2tempExact (cfgOf Real.exp Real.log)
      (temp2analogExact (cfgOf Real.exp Real.log) 200 3960 4700 (1 / 20)) 3960 4700 (1 / 20) =
        ((200 : Int) : ℝ) :=
  (conversion_round_trip (cfgOf Real.exp Real.log) rfl rfl (by decide) (by decide)
    (by norm_num [cfgOf]) 3960 4700 (1 / 20) (by norm_num) (by norm_num) (by norm_num) 200
    (by decide) (by decide)).1

end ClaimsConversion
/-! ## Claims about the parameter setters -/

section ClaimsParameters

variable {α : Type} [LinearOrderedField α] [FloorRing α]

/-- C15: for `eb = 0` (bed) or `eb = 1` (extruder 0) and an `exp` that is nowhere 0 (the
real exponential is one), `getThermistor` after `setThermistor` returns the `beta`,
`resistor` and `thermistor` that were set, with `inf = thermistor*exp(-beta/298.15)`, which
is also what `setThermistor` stores in its `inf` argument; the constants of the other
channel, and what `getThermistor` returns for it, are unchanged. -/
theorem thermistor_round_trip (cfg : Config α) (hexp : ∀ x, cfg.exp x ≠ 0) (eb : Int)
    (heb : eb = 0 ∨ eb = 1) (beta resistor thermistor : α) (s : State α) :
    (setThermistor cfg eb beta resistor thermistor s).2 =
      thermistor * cfg.exp (-beta / T25) ∧
    getThermistor cfg eb (setThermistor cfg eb beta resistor thermistor s).1 =
      some { beta := beta, resistor := resistor, thermistor := thermistor,
             inf := thermistor * cfg.exp (-beta / T25) } ∧
    (eb = 0 →
      (setThermistor cfg eb beta resistor thermistor s).1.eBeta = s.eBeta ∧
      (setThermistor cfg eb beta resistor thermistor s).1.eRs = s.eRs ∧
      (setThermistor cfg eb beta resistor thermistor s).1.eRInf = s.eRInf) ∧
    (eb = 1 →
      (setThermistor cfg eb beta resistor thermistor s).1.bBeta = s.bBeta ∧
      (setThermistor cfg eb beta resistor thermistor s).1.bRs = s.bRs ∧
      (setThermistor cfg eb beta resistor thermistor s).1.bRInf = s.bRInf) ∧
    getThermistor cfg (1 - eb) (setThermistor cfg eb beta resistor thermistor s).1 =
      getThermistor cfg (1 - eb) s := by
  have hw : wrapChar (wrapInt16 ((1 : Int) - 1)) = 0 := by decide
  have hdiv : thermistor * cfg.exp (-beta / T25) / cfg.exp (-beta / T25) = thermistor :=
    mul_div_cancel_right₀ _ (hexp _)
  rcases heb with rfl | rfl
  · have hs : (setThermistor cfg 0 beta resistor thermistor s).1 =
        setBedThermistor beta resistor (thermistor * cfg.exp (-beta / T25)) s := rfl
    rw [hs]
    refine ⟨rfl, ?_, fun _ => ⟨rfl, rfl, rfl⟩, fun h => absurd h (by decide), ?_⟩
    · simp only [getThermistor, if_true, getBedBeta, getBedRs, getBedRInf, setBedThermistor,
        Option.map_some', hdiv]
    · rfl
  · have hne : ¬ ((1 : Int) = 0) := by decide
    have hs : (setThermistor cfg 1 beta resistor thermistor s).1 =
        setExtruderThermistor cfg 0 beta resistor (thermistor * cfg.exp (-beta / T25)) s := by
      simp only [setThermistor, if_neg hne, hw]
    have hs2 : setExtruderThermistor cfg 0 beta resistor
        (thermistor * cfg.exp (-beta / T25)) s =
        { s with eBeta := beta, eRs := resistor,
                 eRInf := thermistor * cfg.exp (-beta / T25) } := by
      simp [setExtruderThermistor]
    rw [hs, hs2]
    refine ⟨?_, ?_, fun h => absurd h (by decide), fun _ => ⟨rfl, rfl, rfl⟩, ?_⟩
    · simp only [setThermistor, if_neg hne]
    · simp only [getThermistor, if_neg hne, hw, getExtruderBeta, getExtruderRs,
        getExtruderRInf, if_true, Option.map_some', hdiv]
    · rfl

/-- C15 with the real exponential, on the bed channel. -/
theorem thermistor_round_trip_witness :
    getThermistor (cfgOf Real.exp Real.log) 0
      (setThermistor (cfgOf Real.exp Real.log) 0 3960 4700 100000
        (initState (cfgOf Real.exp Real.log))).1 =
      some { beta := 3960, resistor := 4700, thermistor := 100000,
             inf := 100000 * Real.exp (-3960 / T25) } :=
  (thermistor_round_trip (cfgOf Real.exp Real.log) (fun x => (Real.exp_pos x).ne') 0
    (Or.inl rfl) 3960 4700 100000 (initState (cfgOf Real.exp Real.log))).2.1

/-- The loop of `updatePID` writes `temp_iState_max` only. -/
theorem updatePID_gains (cfg : Config α) (s : State α) :
    (updatePID cfg s).Kp = s.Kp ∧ (updatePID cfg s).Ki = s.Ki ∧ (updatePID cfg s).Kd = s.Kd ∧
    (updatePID cfg s).Ki_Max = s.Ki_Max := by
  unfold updatePID
  split_ifs
  · refine foldl_keeps _ (fun u : State α => u.Kp = s.Kp ∧ u.Ki = s.Ki ∧ u.Kd = s.Kd ∧
      u.Ki_Max = s.Ki_Max) ?_ _ s ⟨rfl, rfl, rfl, rfl⟩
    intro u e hu
    exact hu
  · exact ⟨rfl, rfl, rfl, rfl⟩

/-- The clamp of an integer commutes with its conversion to a float. -/
theorem constrain_intCast (k lo hi : Int) :
    constrain (k : α) (lo : α) (hi : α) = ((constrain k lo hi : Int) : α) := by
  unfold constrain
  by_cases h1 : k < lo
  · have h1' : (k : α) < (lo : α) := by exact_mod_cast h1
    rw [if_pos h1, if_pos h1']
  · have h1' : ¬ (k : α) < (lo : α) := by exact_mod_cast h1
    rw [if_neg h1, if_neg h1']
    by_cases h2 : hi < k
    · have h2' : (hi : α) < (k : α) := by exact_mod_cast h2
      rw [if_pos h2, if_pos h2']
    · have h2' : ¬ (hi : α) < (k : α) := by exact_mod_cast h2
      rw [if_neg h2, if_neg h2']

/-- The conversion `(int)` of an integer-valued float inside the range of an `int`. -/
theorem truncInt_intCast (m : Int) (h0 : -32768 ≤ m) (h1 : m ≤ 32767) :
    truncInt (m : α) = m := by
  unfold truncInt wrapInt16
  split_ifs
  · rw [Int.floor_intCast]
    omega
  · rw [Int.ceil_intCast]
    omega

/-- C16: for `PID_dT ≠ 0`, after `setPIDValues(1, Kpi, Kii, Kdi, Kmi)` with an
integer-valued `Kmi`, `getPIDValues(1, ...)` returns `Kpi`, `Kii`, `Kdi` and `Kmi` clamped
to `[0, 255]`. -/
theorem pid_values_round_trip (cfg : Config α) (hdT : cfg.PID_dT ≠ 0) (Kpi Kii Kdi : α)
    (Kmi : Int) (s : State α) :
    getPIDValues cfg 1 (setPIDValues cfg 1 Kpi Kii Kdi (Kmi : α) s) =
      (Kpi, Kii, Kdi, ((constrain Kmi 0 255 : Int) : α)) := by
  have hw0 : wrapInt16 0 = 0 := by decide
  have hget : ∀ u : State α, getPIDValues cfg 1 u =
      (u.Kp, u.Ki / cfg.PID_dT, u.Kd * cfg.PID_dT, (u.Ki_Max : α)) := by
    intro u
    simp [getPIDValues, hw0]
  have hset : setPIDValues cfg 1 Kpi Kii Kdi (Kmi : α) s =
      updatePID cfg (setPIDLocal cfg Kpi Kii Kdi (Kmi : α) s) := by
    simp [setPIDValues, hw0]
  obtain ⟨u1, u2, u3, u4⟩ := updatePID_gains cfg (setPIDLocal cfg Kpi Kii Kdi (Kmi : α) s)
  have hc : constrain (Kmi : α) 0 255 = ((constrain Kmi 0 255 : Int) : α) := by
    have := constrain_intCast (α := α) Kmi 0 255
    simpa using this
  have hb : (0 : Int) ≤ constrain Kmi 0 255 ∧ constrain Kmi 0 255 ≤ 255 :=
    constrain_bounds Kmi 0 255 (by decide)
  rw [hset, hget, u1, u2, u3, u4]
  have e1 : (setPIDLocal cfg Kpi Kii Kdi (Kmi : α) s).Kp = Kpi := rfl
  have e2 : (setPIDLocal cfg Kpi Kii Kdi (Kmi : α) s).Ki = Kii * cfg.PID_dT := rfl
  have e3 : (setPIDLocal cfg Kpi Kii Kdi (Kmi : α) s).Kd = Kdi / cfg.PID_dT := rfl
  have e4 : (setPIDLocal cfg Kpi Kii Kdi (Kmi : α) s).Ki_Max =
      truncInt (constrain (Kmi : α) 0 255) := rfl
  rw [e1, e2, e3, e4, hc, truncInt_intCast _ (by omega) (by omega),
    mul_div_cancel_right₀ _ hdT, div_mul_cancel₀ _ hdT]

/-- C16 on the initial state of `cfgQ`: the ceiling 300 is read back as 255. -/
theorem pid_values_round_trip_witness :
    getPIDValues cfgQ 1 (setPIDValues cfgQ 1 22 (3 / 2) 114 ((300 : Int) : ℚ) (initState cfgQ)) =
      (22, 3 / 2, 114, 255) :=
  pid_values_round_trip cfgQ (by decide!) 22 (3 / 2) 114 300 (initState cfgQ)

end ClaimsParameters
/-! ## The PID parameters during autotune -/

section Gains

variable {α : Type} [LinearOrderedField α] [FloorRing α]

theorem GainsKept.grefl (s : State α) : GainsKept s s := ⟨rfl, rfl, rfl, rfl, rfl⟩

theorem GainsKept.gtrans {s t u : State α} (h : GainsKept s t) (k : GainsKept t u) :
    GainsKept s u :=
  ⟨k.1.trans h.1, k.2.1.trans h.2.1, k.2.2.1.trans h.2.2.1, k.2.2.2.1.trans h.2.2.2.1,
    k.2.2.2.2.trans h.2.2.2.2⟩

theorem LocalFrame.lgains {s s' : State α} (h : LocalFrame s s') : GainsKept s s' := by
  obtain ⟨a, b, c, p, q, r, n, w, x, y, z, ph, cnt, rfl⟩ := h
  exact ⟨rfl, rfl, rfl, rfl, rfl⟩

theorem CheckFrame.cgains {s s' : State α} (h : CheckFrame s s') : GainsKept s s' := by
  obtain ⟨c1, c2, c3, t, tb, l, rfl⟩ := h
  exact ⟨rfl, rfl, rfl, rfl, rfl⟩

/-- No execution of the ISR writes a PID parameter. -/
theorem isr_gains (cfg : Config α) (adc : Nat) (s : State α) : GainsKept s (isr cfg adc s) := by
  have hloc := (isrLocal_frame cfg adc s).lgains
  unfold isr
  split_ifs
  · unfold isrWindowEnd
    have hp : GainsKept (isrSample cfg adc (isrPwm cfg s))
        (isrPublish cfg (isrSample cfg adc (isrPwm cfg s))) := ⟨rfl, rfl, rfl, rfl, rfl⟩
    exact ((hloc.gtrans hp).gtrans (isrCheckLoop_frame cfg _).cgains).gtrans
      (isrCheckBed_frame cfg _).cgains
  · exact hloc

theorem runIsr_gains (cfg : Config α) (adcs : List Nat) (s : State α) :
    GainsKept s (runIsr cfg adcs s) := by
  induction adcs generalizing s with
  | nil => exact GainsKept.grefl s
  | cons a l ih => exact (isr_gains cfg a s).gtrans (ih _)

theorem setTargetHotendLatched_gains (cfg : Config α) (e : Nat) (s : State α) :
    GainsKept s (setTargetHotendLatched cfg e s) := by
  unfold setTargetHotendLatched max_temp_error min_temp_error
  split_ifs <;> exact ⟨rfl, rfl, rfl, rfl, rfl⟩

theorem setTargetHotendNormal_gains (cfg : Config α) (c : α) (e : Nat) (s : State α) :
    GainsKept s (setTargetHotendNormal cfg c e s) := by
  unfold setTargetHotendNormal
  split_ifs <;> exact ⟨rfl, rfl, rfl, rfl, rfl⟩

theorem setTargetHotendMaster_gains (cfg : Config α) (c : α) (e : Nat) (s : State α) :
    GainsKept s (setTargetHotendMaster cfg c e s) := by
  unfold setTargetHotendMaster
  split_ifs
  · exact setTargetHotendLatched_gains cfg e s
  · exact setTargetHotendNormal_gains cfg c e s
  · exact ⟨rfl, rfl, rfl, rfl, rfl⟩

theorem setTargetHotendLocal_gains (cfg : Config α) (c : α) (e : Nat) (s : State α) :
    GainsKept s (setTargetHotendLocal cfg c e s) := by
  have h : GainsKept s
      (if s.dudMinCount < 0 ∨ s.dudMaxCount < 0 then setTargetHotendLatched cfg e s
        else setTargetHotendNormal cfg c e s) := by
    split_ifs
    · exact setTargetHotendLatched_gains cfg e s
    · exact setTargetHotendNormal_gains cfg c e s
  unfold setTargetHotendLocal
  by_cases hp : cfg.PIDTEMP = true
  · simp only [hp, if_true]
    exact h
  · simp only [hp]
    exact h

theorem setTargetHotend_gains (cfg : Config α) (c : α) (e : Nat) (s : State α) :
    GainsKept s (setTargetHotend cfg c e s) := by
  unfold setTargetHotend
  split_ifs
  · exact setTargetHotendMaster_gains cfg c e s
  · exact setTargetHotendLocal_gains cfg c e s

theorem setTargetBed_gains (cfg : Config α) (c : α) (s : State α) :
    GainsKept s (setTargetBed cfg c s) := by
  unfold setTargetBed bed_temp_error
  split_ifs <;> exact ⟨rfl, rfl, rfl, rfl, rfl⟩

theorem disableTargets_gains (cfg : Config α) (s : State α) :
    GainsKept s (disableTargets cfg s) := by
  unfold disableTargets
  exact foldl_keeps _ (GainsKept s)
    (fun u e hu => hu.gtrans (setTargetHotend_gains cfg 0 e u)) _ s (GainsKept.grefl s)

theorem disableHeater0_gains (cfg : Config α) (s : State α) :
    GainsKept s (disableHeater0 cfg s) := by
  unfold disableHeater0
  split_ifs <;> exact ⟨rfl, rfl, rfl, rfl, rfl⟩

theorem disableHeater1_gains (cfg : Config α) (s : State α) :
    GainsKept s (disableHeater1 cfg s) := by
  unfold disableHeater1
  split_ifs <;> exact ⟨rfl, rfl, rfl, rfl, rfl⟩

theorem disableHeater2_gains (cfg : Config α) (s : State α) :
    GainsKept s (disableHeater2 cfg s) := by
  unfold disableHeater2
  split_ifs <;> exact ⟨rfl, rfl, rfl, rfl, rfl⟩

theorem disableHeaterBed_gains (cfg : Config α) (s : State α) :
    GainsKept s (disableHeaterBed cfg s) := by
  unfold disableHeaterBed
  split_ifs <;> exact ⟨rfl, rfl, rfl, rfl, rfl⟩

/-- `disable_heater` writes no PID parameter. -/
theorem disable_heater_gains (cfg : Config α) (s : State α) :
    GainsKept s (disable_heater cfg s) := by
  unfold disable_heater
  exact (((((disableTargets_gains cfg s).gtrans (setTargetBed_gains cfg 0 _)).gtrans
    (disableHeater0_gains cfg _)).gtrans (disableHeater1_gains cfg _)).gtrans
    (disableHeater2_gains cfg _)).gtrans (disableHeaterBed_gains cfg _)

theorem autotuneCool_gains (temp : α) (clk : Millis) (s : State α) (l : Autotune α) :
    GainsKept s (autotuneCool temp clk s l).1 := by
  unfold autotuneCool
  split_ifs <;> exact ⟨rfl, rfl, rfl, rfl, rfl⟩

theorem autotuneAdapt_gains (cfg : Config α) (s : State α) (l : Autotune α) :
    GainsKept s (autotuneAdapt cfg s l).1 := by
  unfold autotuneAdapt
  dsimp only
  split_ifs <;> exact ⟨rfl, rfl, rfl, rfl, rfl⟩

theorem autotuneHeat_gains (cfg : Config α) (temp : α) (clk : Millis) (s : State α)
    (l : Autotune α) : GainsKept s (autotuneHeat cfg temp clk s l).1 := by
  unfold autotuneHeat
  split_ifs
  · exact (autotuneAdapt_gains cfg s _).gtrans ⟨rfl, rfl, rfl, rfl, rfl⟩
  · exact GainsKept.grefl s
  · exact GainsKept.grefl s

theorem autotuneMeasure_gains (cfg : Config α) (temp : α) (clk : Millis) (s : State α)
    (l : Autotune α) : GainsKept s (autotuneMeasure cfg temp clk s l).1 := by
  unfold autotuneMeasure
  split_ifs
  · have h0 : GainsKept s { s with temp_meas_ready := false } := ⟨rfl, rfl, rfl, rfl, rfl⟩
    exact (h0.gtrans (autotuneCool_gains temp clk _ _)).gtrans (autotuneHeat_gains cfg temp clk _ _)
  · exact GainsKept.grefl s

theorem autotunePrint_gains (cfg : Config α) (clk : Millis) (s : State α) (l : Autotune α) :
    GainsKept s (autotunePrint cfg clk s l).1 := by
  unfold autotunePrint
  split_ifs <;> exact ⟨rfl, rfl, rfl, rfl, rfl⟩

theorem autotuneChecks_gains (cfg : Config α) (temp : α) (clk : Millis) (s : State α)
    (l : Autotune α) : GainsKept s (autotuneChecks cfg temp clk s l).state := by
  unfold autotuneChecks
  dsimp only
  split_ifs
  · exact ⟨rfl, rfl, rfl, rfl, rfl⟩
  · exact (autotunePrint_gains cfg clk s l).gtrans ⟨rfl, rfl, rfl, rfl, rfl⟩
  · exact (autotunePrint_gains cfg clk s l).gtrans ⟨rfl, rfl, rfl, rfl, rfl⟩
  · exact autotunePrint_gains cfg clk s l

/-- An iteration of the loop of `PID_autotune` writes no PID parameter. -/
theorem autotuneIter_gains (cfg : Config α) (temp : α) (clk : Millis) (s : State α)
    (l : Autotune α) : GainsKept s (autotuneIter cfg temp clk s l).state := by
  unfold autotuneIter
  exact (autotuneMeasure_gains cfg temp clk s l).gtrans (autotuneChecks_gains cfg temp clk _ _)

theorem autotuneStart_gains (cfg : Config α) (junk : Autotune α) (now : Nat) (s : State α) :
    GainsKept s (autotuneStart cfg junk now s).state := by
  unfold autotuneStart
  have h0 : GainsKept s { s with serial := s.serial ++ [Event.autotune_start] } :=
    ⟨rfl, rfl, rfl, rfl, rfl⟩
  exact (h0.gtrans (disable_heater_gains cfg _)).gtrans ⟨rfl, rfl, rfl, rfl, rfl⟩

theorem autotuneLoop_gains (cfg : Config α) (temp : α) (ticks : Nat → List Nat)
    (clk : Nat → Millis) (r : AutotuneRun α) (n : Nat) :
    GainsKept r.state (autotuneLoop cfg temp ticks clk r n).state := by
  induction n with
  | zero => exact GainsKept.grefl _
  | succ n ih =>
    have hstep : autotuneLoop cfg temp ticks clk r (n + 1) =
        match (autotuneLoop cfg temp ticks clk r n).exit with
        | some _ => autotuneLoop cfg temp ticks clk r n
        | none =>
          autotuneIter cfg temp (clk n)
            (runIsr cfg (ticks n) (autotuneLoop cfg temp ticks clk r n).state)
            (autotuneLoop cfg temp ticks clk r n).locals := rfl
    rw [hstep]
    cases (autotuneLoop cfg temp ticks clk r n).exit with
    | some e => exact ih
    | none =>
      exact (ih.gtrans (runIsr_gains cfg _ _)).gtrans (autotuneIter_gains cfg temp _ _ _)

end Gains

section ClaimsAutotune

variable {α : Type} [LinearOrderedField α] [FloorRing α]

/-- C17: whatever the number of iterations and on every exit, the global `Kp`, `Ki`, `Kd`,
`Ki_Max` and `temp_iState_max[]` after `PID_autotune` are those before the call. -/
theorem autotune_keeps_gains (cfg : Config α) (temp : α) (junk : Autotune α) (now : Nat)
    (ticks : Nat → List Nat) (clk : Nat → Millis) (n : Nat) (s : State α) :
    (PID_autotune cfg temp junk now ticks clk n s).state.Kp = s.Kp ∧
    (PID_autotune cfg temp junk now ticks clk n s).state.Ki = s.Ki ∧
    (PID_autotune cfg temp junk now ticks clk n s).state.Kd = s.Kd ∧
    (PID_autotune cfg temp junk now ticks clk n s).state.Ki_Max = s.Ki_Max ∧
    (PID_autotune cfg temp junk now ticks clk n s).state.temp_iState_max =
      s.temp_iState_max := by
  unfold PID_autotune
  exact (autotuneStart_gains cfg junk now s).gtrans (autotuneLoop_gains cfg temp ticks clk _ n)

end ClaimsAutotune
/-! ## The loop of the autotune and its exits -/

section AutotuneLoop

variable {α : Type} [LinearOrderedField α] [FloorRing α]

/-- An iteration is executed when no earlier one has returned. -/
theorem autotuneLoop_running (cfg : Config α) (temp : α) (ticks : Nat → List Nat)
    (clk : Nat → Millis) (r : AutotuneRun α) (n : Nat)
    (h : (autotuneLoop cfg temp ticks clk r n).exit = none) :
    autotuneLoop cfg temp ticks clk r (n + 1) =
      autotuneChecks cfg temp (clk n) (autotuneMeasured cfg temp ticks clk r n).1
        (autotuneMeasured cfg temp ticks clk r n).2 := by
  have hstep : autotuneLoop cfg temp ticks clk r (n + 1) =
      match (autotuneLoop cfg temp ticks clk r n).exit with
      | some _ => autotuneLoop cfg temp ticks clk r n
      | none =>
        autotuneIter cfg temp (clk n)
          (runIsr cfg (ticks n) (autotuneLoop cfg temp ticks clk r n).state)
          (autotuneLoop cfg temp ticks clk r n).locals := rfl
  rw [hstep, h]
  rfl

/-- Nothing changes after an iteration has returned. -/
theorem autotuneLoop_returned (cfg : Config α) (temp : α) (ticks : Nat → List Nat)
    (clk : Nat → Millis) (r : AutotuneRun α) (n : Nat) (e : AutotuneExit)
    (h : (autotuneLoop cfg temp ticks clk r n).exit = some e) (m : Nat) (hm : n ≤ m) :
    autotuneLoop cfg temp ticks clk r m = autotuneLoop cfg temp ticks clk r n := by
  induction m with
  | zero =>
    have : n = 0 := by omega
    rw [this]
  | succ m ih =>
    by_cases hnm : n = m + 1
    · rw [hnm]
    · have ih' := ih (by omega)
      have hstep : autotuneLoop cfg temp ticks clk r (m + 1) =
          match (autotuneLoop cfg temp ticks clk r m).exit with
          | some _ => autotuneLoop cfg temp ticks clk r m
          | none =>
            autotuneIter cfg temp (clk m)
              (runIsr cfg (ticks m) (autotuneLoop cfg temp ticks clk r m).state)
              (autotuneLoop cfg temp ticks clk r m).locals := rfl
      rw [hstep, ih', h]

end AutotuneLoop

section ClaimsAutotuneExits

variable {α : Type} [LinearOrderedField α] [FloorRing α]

/-- C19: an iteration of the loop of `PID_autotune` that is executed with the latest
reading `input` above `temp + 20` after its measurement block returns with the
over-temperature report as the only line it prints after that block, whatever the heating
flag, the cycle count and the clock are; no later iteration is executed. -/
theorem autotune_runaway_abort (cfg : Config α) (temp : α) (ticks : Nat → List Nat)
    (clk : Nat → Millis) (r : AutotuneRun α) (n : Nat)
    (hrun : (autotuneLoop cfg temp ticks clk r n).exit = none)
    (hot : temp + 20 < (autotuneMeasured cfg temp ticks clk r n).2.input) :
    (autotuneLoop cfg temp ticks clk r (n + 1)).exit = some AutotuneExit.too_high ∧
    (autotuneLoop cfg temp ticks clk r (n + 1)).state.serial =
      (autotuneMeasured cfg temp ticks clk r n).1.serial ++ [Event.autotune_too_high] ∧
    (autotuneLoop cfg temp ticks clk r (n + 1)).locals =
      (autotuneMeasured cfg temp ticks clk r n).2 ∧
    ∀ m, n + 1 ≤ m →
      autotuneLoop cfg temp ticks clk r m = autotuneLoop cfg temp ticks clk r (n + 1) := by
  have hstep := autotuneLoop_running cfg temp ticks clk r n hrun
  have hchk : autotuneChecks cfg temp (clk n) (autotuneMeasured cfg temp ticks clk r n).1
      (autotuneMeasured cfg temp ticks clk r n).2 =
      { state := { (autotuneMeasured cfg temp ticks clk r n).1 with
                   serial := (autotuneMeasured cfg temp ticks clk r n).1.serial ++
                     [Event.autotune_too_high] }
        locals := (autotuneMeasured cfg temp ticks clk r n).2
        exit := some AutotuneExit.too_high } := by
    unfold autotuneChecks
    rw [if_pos hot]
  have hexit : (autotuneLoop cfg temp ticks clk r (n + 1)).exit =
      some AutotuneExit.too_high := by
    rw [hstep, hchk]
  refine ⟨hexit, ?_, ?_,
    fun m hm => autotuneLoop_returned cfg temp ticks clk r (n + 1) _ hexit m hm⟩
  · rw [hstep, hchk]
  · rw [hstep, hchk]

/-- The print block of an iteration writes neither `t1`, `t2`, `cycles` nor `input`. -/
theorem autotunePrint_locals (cfg : Config α) (clk : Millis) (s : State α) (l : Autotune α) :
    (autotunePrint cfg clk s l).2.t1 = l.t1 ∧ (autotunePrint cfg clk s l).2.t2 = l.t2 ∧
    (autotunePrint cfg clk s l).2.cycles = l.cycles ∧
    (autotunePrint cfg clk s l).2.input = l.input := by
  unfold autotunePrint
  split_ifs <;> exact ⟨rfl, rfl, rfl, rfl⟩

/-- The unsigned difference of two clock values in their order is their difference. -/
theorem wrapU32_sub (a b : Nat) (hab : b ≤ a) (ha : a < 4294967296) :
    wrapU32 ((a : Int) - b) = a - b := by
  unfold wrapU32
  omega

/-- C20 as the code has it: an iteration that is executed without runaway, with a clock
that has not wrapped since `t1` and `t2`, returns with the timeout report when the two
elapsed times `(millis() - t1) + (millis() - t2)` add up to more than 1200000 ms. -/
theorem autotune_timeout_exit (cfg : Config α) (temp : α) (ticks : Nat → List Nat)
    (clk : Nat → Millis) (r : AutotuneRun α) (n : Nat)
    (hrun : (autotuneLoop cfg temp ticks clk r n).exit = none)
    (hcool : ¬ temp + 20 < (autotuneMeasured cfg temp ticks clk r n).2.input)
    (h1 : (autotuneMeasured cfg temp ticks clk r n).2.t1 ≤ (clk n).sinceT1)
    (h2 : (autotuneMeasured cfg temp ticks clk r n).2.t2 ≤ (clk n).sinceT2)
    (hw1 : (clk n).sinceT1 < 4294967296) (hw2 : (clk n).sinceT2 < 4294967296)
    (hsum : ((clk n).sinceT1 - (autotuneMeasured cfg temp ticks clk r n).2.t1) +
      ((clk n).sinceT2 - (autotuneMeasured cfg temp ticks clk r n).2.t2) < 4294967296)
    (hlate : 1200000 < ((clk n).sinceT1 - (autotuneMeasured cfg temp ticks clk r n).2.t1) +
      ((clk n).sinceT2 - (autotuneMeasured cfg temp ticks clk r n).2.t2)) :
    (autotuneLoop cfg temp ticks clk r (n + 1)).exit = some AutotuneExit.timeout ∧
    (autotuneLoop cfg temp ticks clk r (n + 1)).state.serial =
      (autotunePrint cfg (clk n) (autotuneMeasured cfg temp ticks clk r n).1
        (autotuneMeasured cfg temp ticks clk r n).2).1.serial ++ [Event.autotune_timeout] ∧
    ∀ m, n + 1 ≤ m →
      autotuneLoop cfg temp ticks clk r m = autotuneLoop cfg temp ticks clk r (n + 1) := by
  have hstep := autotuneLoop_running cfg temp ticks clk r n hrun
  obtain ⟨p1, p2, -, -⟩ := autotunePrint_locals cfg (clk n)
    (autotuneMeasured cfg temp ticks clk r n).1 (autotuneMeasured cfg temp ticks clk r n).2
  have hto : autotuneTimedOut (clk n) (autotunePrint cfg (clk n)
      (autotuneMeasured cfg temp ticks clk r n).1
      (autotuneMeasured cfg temp ticks clk r n).2).2 = true := by
    unfold autotuneTimedOut
    rw [p1, p2, wrapU32_sub _ _ h1 (by omega), wrapU32_sub _ _ h2 (by omega)]
    apply decide_eq_true
    unfold wrapU32
    omega
  have hchk : autotuneChecks cfg temp (clk n) (autotuneMeasured cfg temp ticks clk r n).1
      (autotuneMeasured cfg temp ticks clk r n).2 =
      { state := { (autotunePrint cfg (clk n) (autotuneMeasured cfg temp ticks clk r n).1
                     (autotuneMeasured cfg temp ticks clk r n).2).1 with
                   serial := (autotunePrint cfg (clk n)
                     (autotuneMeasured cfg temp ticks clk r n).1
                     (autotuneMeasured cfg temp ticks clk r n).2).1.serial ++
                       [Event.autotune_timeout] }
        locals := (autotunePrint cfg (clk n) (autotuneMeasured cfg temp ticks clk r n).1
                     (autotuneMeasured cfg temp ticks clk r n).2).2
        exit := some AutotuneExit.timeout } := by
    unfold autotuneChecks
    rw [if_neg hcool]
    dsimp only
    rw [if_pos hto]
  have hexit : (autotuneLoop cfg temp ticks clk r (n + 1)).exit =
      some AutotuneExit.timeout := by
    rw [hstep, hchk]
  refine ⟨hexit, ?_, fun m hm => autotuneLoop_returned cfg temp ticks clk r (n + 1) _ hexit m hm⟩
  rw [hstep, hchk]

end ClaimsAutotuneExits

/-! ## Concrete runs of the autotune -/

section ExitScenarios

/-- C19 on an autotune to 100 degrees started on `regState`, whose ready window reads 150
degrees: the first iteration returns with the over-temperature report. -/
theorem autotune_runaway_abort_witness :
    (autotuneLoop cfgQ 100 noTicks slowClock (autotuneStart cfgQ junkQ 0 regState) 1).exit =
      some AutotuneExit.too_high :=
  (autotune_runaway_abort cfgQ 100 noTicks slowClock (autotuneStart cfgQ junkQ 0 regState) 0
    rfl (by decide!)).1

/-- C20 refuted as stated: an autotune to 140 degrees started at 0 ms on `regState` (150
degrees) switches to cooling in its first iteration at 300000 ms; its second iteration
runs at 600001 ms, more than 600000 ms after the cycle began at `t2 = 0`, without runaway
and with the cycle not complete, and does not return. -/
theorem autotune_no_timeout_after_ten_minutes :
    (PID_autotune cfgQ 140 junkQ 0 noTicks slowClock 1 regState).exit = none ∧
    (PID_autotune cfgQ 140 junkQ 0 noTicks slowClock 1 regState).locals.t2 = 0 ∧
    (PID_autotune cfgQ 140 junkQ 0 noTicks slowClock 1 regState).locals.heating = false ∧
    (PID_autotune cfgQ 140 junkQ 0 noTicks slowClock 1 regState).locals.cycles = 0 ∧
    (slowClock 1).sinceT1 = 600001 ∧ (slowClock 1).sinceT2 = 600001 ∧
    600000 < 600001 - (PID_autotune cfgQ 140 junkQ 0 noTicks slowClock 1 regState).locals.t2 ∧
    ¬ ((140 : ℚ) + 20 <
      (autotuneMeasured cfgQ 140 noTicks slowClock
        (autotuneStart cfgQ junkQ 0 regState) 1).2.input) ∧
    (PID_autotune cfgQ 140 junkQ 0 noTicks slowClock 2 regState).exit = none ∧
    (PID_autotune cfgQ 140 junkQ 0 noTicks slowClock 2 regState).locals.cycles = 0 := by
  decide!

/-- C20 as the code has it, on the same autotune with the second iteration at 900001 ms:
the elapsed times 600001 and 900001 add up to more than 1200000 and the iteration returns
with the timeout report. -/
theorem autotune_timeout_exit_witness :
    (autotuneLoop cfgQ 140 noTicks lateClock (autotuneStart cfgQ junkQ 0 regState) 2).exit =
      some AutotuneExit.timeout :=
  (autotune_timeout_exit cfgQ 140 noTicks lateClock (autotuneStart cfgQ junkQ 0 regState) 1
    (by decide!) (by decide!) (by decide!) (by decide!) (by decide!) (by decide!) (by decide!)
    (by decide!)).1

/-- The third exit is reached as well: the autotune to 150 degrees on `tuneState`, whose
readings alternate between 155 and about 138.6 degrees, returns from iteration number 11
with the success report, after six switches to heating. -/
theorem autotune_finishes :
    (PID_autotune cfgQ 150 junkQ 0 tuneTicks tuneClock 11 tuneState).exit = none ∧
    (PID_autotune cfgQ 150 junkQ 0 tuneTicks tuneClock 12 tuneState).exit =
      some AutotuneExit.finished ∧
    (PID_autotune cfgQ 150 junkQ 0 tuneTicks tuneClock 12 tuneState).locals.cycles = 6 := by
  decide!

end ExitScenarios

/-! ## The gains computed by the autotune -/

section AutotuneInvariant

variable {α : Type} [LinearOrderedField α] [FloorRing α]

/-- An interval between two clock values less than `2^31` ms apart is stored in a `long`
unchanged. -/
theorem wrapInt32_sub (a b : Nat) (hab : b ≤ a) (ha : a < b + 2147483648) :
    wrapInt32 ((a : Int) - b) = (a : Int) - b := by
  unfold wrapInt32
  omega

theorem AutotuneInv.later {now : Nat} {temp : α} {T T' : Nat} {l : Autotune α}
    (h : AutotuneInv now temp T l) (hT : T ≤ T') : AutotuneInv now temp T' l :=
  ⟨h.1, h.2.1, le_trans h.2.2.1 hT, le_trans h.2.2.2.1 hT, h.2.2.2.2⟩

/-- The reading of lines 225-228 keeps the invariant, and its `min` is at most its
`input`. -/
theorem autotuneRead_inv (cfg : Config α) (s : State α) {now : Nat} {temp : α} {T : Nat}
    {l : Autotune α} (h : AutotuneInv now temp T l) :
    AutotuneInv now temp T (autotuneRead cfg s l) ∧
    (autotuneRead cfg s l).min ≤ (autotuneRead cfg s l).input ∧
    (autotuneRead cfg s l).heating = l.heating ∧
    (autotuneRead cfg s l).cycles = l.cycles := by
  obtain ⟨h1, h2, h3, h4, h5⟩ := h
  refine ⟨⟨h1, h2, h3, h4, fun hh => ?_⟩, ?_, rfl, rfl⟩
  · obtain ⟨m1, m2, m3, m4⟩ := h5 hh
    refine ⟨?_, m2, m3, m4⟩
    show temp ≤ (if analog2temp cfg s (s.current_raw 0) 0 < l.max then l.max
      else analog2temp cfg s (s.current_raw 0) 0)
    split_ifs with hc
    · exact m1
    · exact le_trans m1 (not_lt.mp hc)
  · show (if l.min < analog2temp cfg s (s.current_raw 0) 0 then l.min
      else analog2temp cfg s (s.current_raw 0) 0) ≤ analog2temp cfg s (s.current_raw 0) 0
    split_ifs with hc
    · exact hc.le
    · exact le_refl _

/-- The test for a switch to cooling keeps the invariant and writes neither `min`, `input`
nor `cycles`. -/
theorem autotuneCool_inv (temp : α) (clk : Millis) (s : State α) {now T : Nat}
    {l : Autotune α} (h : AutotuneInv now temp T l) (hT : T ≤ clk.coolTest)
    (hord : clk.coolTest ≤ clk.coolAt) (hw : clk.coolAt < 4294967296)
    (hlen : clk.coolAt < now + 2147483648) :
    AutotuneInv now temp clk.coolAt (autotuneCool temp clk s l).2 ∧
    (autotuneCool temp clk s l).2.min = l.min ∧
    (autotuneCool temp clk s l).2.input = l.input ∧
    (autotuneCool temp clk s l).2.cycles = l.cycles := by
  have hkeep : AutotuneInv now temp clk.coolAt l := h.later (le_trans hT hord)
  obtain ⟨h1, h2, h3, h4, h5⟩ := h
  unfold autotuneCool
  split_ifs with hc ht
  · refine ⟨⟨?_, h2, le_refl _, ?_, fun _ => ⟨le_refl _, ?_, ?_, ?_⟩⟩, rfl, rfl, rfl⟩
    · show now ≤ clk.coolAt
      omega
    · show l.t2 ≤ clk.coolAt
      omega
    · show l.t2 ≤ clk.coolAt
      omega
    · show wrapInt32 ((clk.coolAt : Int) - l.t2) = (clk.coolAt : Int) - l.t2
      exact wrapInt32_sub _ _ (by omega) (by omega)
    · show 5000 < wrapInt32 ((clk.coolAt : Int) - l.t2)
      rw [wrapInt32_sub _ _ (by omega) (by omega)]
      rw [wrapU32_sub _ _ (by omega) (by omega)] at ht
      omega
  · exact ⟨hkeep, rfl, rfl, rfl⟩
  · exact ⟨hkeep, rfl, rfl, rfl⟩

/-- The bias update writes `bias` and `d` only. -/
theorem autotuneBias_locals (cfg : Config α) (l : Autotune α) :
    (autotuneBias cfg l).heating = l.heating ∧ (autotuneBias cfg l).t1 = l.t1 ∧
    (autotuneBias cfg l).t2 = l.t2 ∧ (autotuneBias cfg l).t_high = l.t_high ∧
    (autotuneBias cfg l).t_low = l.t_low ∧ (autotuneBias cfg l).max = l.max ∧
    (autotuneBias cfg l).min = l.min ∧ (autotuneBias cfg l).cycles = l.cycles :=
  ⟨rfl, rfl, rfl, rfl, rfl, rfl, rfl, rfl⟩

/-- The adaptation of lines 243-266 writes neither the relay flag, the switch times nor
`t_high` and `max`. -/
theorem autotuneAdapt_locals (cfg : Config α) (s : State α) (l : Autotune α) :
    (autotuneAdapt cfg s l).2.heating = l.heating ∧ (autotuneAdapt cfg s l).2.t1 = l.t1 ∧
    (autotuneAdapt cfg s l).2.t2 = l.t2 ∧ (autotuneAdapt cfg s l).2.t_high = l.t_high ∧
    (autotuneAdapt cfg s l).2.max = l.max := by
  unfold autotuneAdapt
  dsimp only
  split_ifs <;> exact ⟨rfl, rfl, rfl, rfl, rfl⟩

/-- With `cycles > 2` the adaptation ends with the gains of lines 254-260. -/
theorem autotuneAdapt_gains_locals (cfg : Config α) (s : State α) (l : Autotune α)
    (h2 : 2 < l.cycles) :
    (autotuneAdapt cfg s l).2 = autotuneGains (autotuneBias cfg l) := by
  have h0 : 0 < l.cycles := by omega
  have h2' : 2 < (autotuneBias cfg l).cycles := h2
  unfold autotuneAdapt
  rw [if_pos h0]
  dsimp only
  rw [if_pos h2']

/-- The test for a switch to heating keeps the invariant. -/
theorem autotuneHeat_inv (cfg : Config α) (temp : α) (clk : Millis) (s : State α)
    {now T : Nat} {l : Autotune α} (h : AutotuneInv now temp T l) (hT : T ≤ clk.heatAt) :
    AutotuneInv now temp clk.heatAt (autotuneHeat cfg temp clk s l).2 := by
  have hkeep : AutotuneInv now temp clk.heatAt l := h.later hT
  obtain ⟨h1, h2, h3, h4, h5⟩ := h
  unfold autotuneHeat
  split_ifs with hc ht
  · obtain ⟨a1, a2, a3, -, -⟩ := autotuneAdapt_locals cfg s (autotuneSwitch clk l)
    refine ⟨?_, ?_, ?_, ?_, fun hh => ?_⟩
    · show now ≤ (autotuneAdapt cfg s (autotuneSwitch clk l)).2.t1
      rw [a2]
      exact h1
    · show now ≤ (autotuneAdapt cfg s (autotuneSwitch clk l)).2.t2
      rw [a3]
      show now ≤ clk.heatAt
      omega
    · show (autotuneAdapt cfg s (autotuneSwitch clk l)).2.t1 ≤ clk.heatAt
      rw [a2]
      show l.t1 ≤ clk.heatAt
      omega
    · show (autotuneAdapt cfg s (autotuneSwitch clk l)).2.t2 ≤ clk.heatAt
      rw [a3]
      exact le_refl _
    · have hh' : (autotuneAdapt cfg s (autotuneSwitch clk l)).2.heating = false := hh
      rw [a1] at hh'
      exact absurd (show (true : Bool) = false from hh') (by decide)
  · exact hkeep
  · exact hkeep

/-- The measurement block keeps the invariant. -/
theorem autotuneMeasure_inv (cfg : Config α) (temp : α) (clk : Millis) (s : State α)
    {now T : Nat} {l : Autotune α} (h : AutotuneInv now temp T l) (hT : T ≤ clk.coolTest)
    (hord : clk.ordered) (hw : clk.coolAt < 4294967296)
    (hlen : clk.coolAt < now + 2147483648) :
    AutotuneInv now temp clk.heatAt (autotuneMeasure cfg temp clk s l).2 := by
  obtain ⟨o1, o2, o3, -⟩ := hord
  unfold autotuneMeasure
  split_ifs
  · exact autotuneHeat_inv cfg temp clk _
      (autotuneCool_inv temp clk _ (autotuneRead_inv cfg _ h).1 hT o1 hw hlen).1 (by omega)
  · exact h.later (by omega)

/-- The exit tests and the progress line keep the invariant and the gains. -/
theorem autotuneChecks_locals (cfg : Config α) (temp : α) (clk : Millis) (s : State α)
    (l : Autotune α) :
    (autotuneChecks cfg temp clk s l).locals = l ∨
    (autotuneChecks cfg temp clk s l).locals = { l with temp_millis := clk.printAt } := by
  have hp : (autotunePrint cfg clk s l).2 = l ∨
      (autotunePrint cfg clk s l).2 = { l with temp_millis := clk.printAt } := by
    unfold autotunePrint
    split_ifs
    · exact Or.inr rfl
    · exact Or.inl rfl
  unfold autotuneChecks
  dsimp only
  split_ifs
  · exact Or.inl rfl
  · exact hp
  · exact hp
  · exact hp

theorem autotuneChecks_inv (cfg : Config α) (temp : α) (clk : Millis) (s : State α)
    {now T : Nat} {l : Autotune α} (h : AutotuneInv now temp T l) :
    AutotuneInv now temp T (autotuneChecks cfg temp clk s l).locals := by
  rcases autotuneChecks_locals cfg temp clk s l with e | e
  · rw [e]
    exact h
  · rw [e]
    exact h

/-- The local variables of an autotune started at `now` satisfy the invariant before
every iteration, under a monotonic clock that does not wrap. -/
theorem autotuneLoop_inv (cfg : Config α) (temp : α) (junk : Autotune α) (now : Nat)
    (ticks : Nat → List Nat) (clk : Nat → Millis) (s : State α) (n : Nat)
    (hclk : ClockOk now clk n) (k : Nat) (hk : k ≤ n) :
    AutotuneInv now temp (clk k).coolTest
      (autotuneLoop cfg temp ticks clk (autotuneStart cfg junk now s) k).locals := by
  induction k with
  | zero =>
    exact ⟨le_refl _, le_refl _, hclk.1, hclk.1,
      fun hh => absurd (show (true : Bool) = false from hh) (by decide)⟩
  | succ k ih =>
    have ih' := ih (by omega)
    obtain ⟨hord, w1, w2, b1, b2, hnext⟩ := hclk.2 k (by omega)
    obtain ⟨n1, n2⟩ := hnext (by omega)
    obtain ⟨o1, o2, o3, o4, o5, o6, o7⟩ := hord
    have hstep : autotuneLoop cfg temp ticks clk (autotuneStart cfg junk now s) (k + 1) =
        match (autotuneLoop cfg temp ticks clk (autotuneStart cfg junk now s) k).exit with
        | some _ => autotuneLoop cfg temp ticks clk (autotuneStart cfg junk now s) k
        | none =>
          autotuneIter cfg temp (clk k)
            (runIsr cfg (ticks k)
              (autotuneLoop cfg temp ticks clk (autotuneStart cfg junk now s) k).state)
            (autotuneLoop cfg temp ticks clk (autotuneStart cfg junk now s) k).locals := rfl
    rw [hstep]
    cases (autotuneLoop cfg temp ticks clk (autotuneStart cfg junk now s) k).exit with
    | some e => exact ih'.later (by omega)
    | none =>
      have hm := autotuneMeasure_inv cfg temp (clk k)
        (runIsr cfg (ticks k)
          (autotuneLoop cfg temp ticks clk (autotuneStart cfg junk now s) k).state)
        ih' (le_refl _) ⟨o1, o2, o3, o4, o5, o6, o7⟩ (by omega) (by omega)
      exact (autotuneChecks_inv cfg temp (clk k) _ hm).later (by omega)

/-- A measurement block whose reading switches the relay to heating with `cycles > 2`
ends with the gains of lines 254-260, computed from the local variables of line 254. -/
theorem autotuneMeasure_computes (cfg : Config α) (temp : α) (clk : Millis) (s : State α)
    (l : Autotune α) (hready : s.temp_meas_ready = true)
    (hoff : (autotuneCool temp clk { s with temp_meas_ready := false }
      (autotuneRead cfg { s with temp_meas_ready := false } l)).2.heating = false)
    (hlow : (autotuneCool temp clk { s with temp_meas_ready := false }
      (autotuneRead cfg { s with temp_meas_ready := false } l)).2.input < temp)
    (hlong : 5000 < wrapU32 ((clk.heatTest : Int) -
      (autotuneCool temp clk { s with temp_meas_ready := false }
        (autotuneRead cfg { s with temp_meas_ready := false } l)).2.t1))
    (hcyc : 2 < (autotuneCool temp clk { s with temp_meas_ready := false }
      (autotuneRead cfg { s with temp_meas_ready := false } l)).2.cycles) :
    (autotuneMeasure cfg temp clk s l).2 =
      { autotuneGains (autotuneBias cfg (autotuneSwitch clk
          (autotuneCool temp clk { s with temp_meas_ready := false }
            (autotuneRead cfg { s with temp_meas_ready := false } l)).2)) with
        cycles := wrapInt16 ((autotuneCool temp clk { s with temp_meas_ready := false }
          (autotuneRead cfg { s with temp_meas_ready := false } l)).2.cycles + 1)
        min := temp } := by
  unfold autotuneMeasure
  rw [if_pos hready]
  dsimp only
  generalize autotuneCool temp clk { s with temp_meas_ready := false }
    (autotuneRead cfg { s with temp_meas_ready := false } l) = c at hoff hlow hlong hcyc
  unfold autotuneHeat
  rw [if_pos ⟨hoff, hlow⟩, if_pos hlong]
  dsimp only
  rw [autotuneAdapt_gains_locals cfg c.1 (autotuneSwitch clk c.2) hcyc]
  rfl

end AutotuneInvariant
section ClaimsAutotuneGains

variable {α : Type} [LinearOrderedField α] [FloorRing α]

/-- C18: in an autotune started at `now` under a monotonic clock that does not wrap, let
iteration number `n` compute gains (a ready window, a switch to heating, `cycles > 2`) from
the local variables `g` of line 254 with a swing `g.d > 0`, and let `p` be the local
variables at the end of that iteration. Then `g.min < g.max`, `g.t_low + g.t_high > 0`,
and `p` holds `Ku = 4d/(3.14159*(max - min)/2)`, `Tu = (t_low + t_high)/1000`,
`Kp = 0.6*Ku`, `Ki = 2*Kp/Tu` and `Kd = Kp*Tu/8`, all of them positive. -/
theorem autotune_gains_positive (cfg : Config α) (temp : α) (junk : Autotune α) (now : Nat)
    (ticks : Nat → List Nat) (clk : Nat → Millis) (s : State α) (n : Nat)
    (hclk : ClockOk now clk n)
    (hcomp : computesGains cfg temp ticks clk (autotuneStart cfg junk now s) n = true)
    (g p : Autotune α)
    (hg : g = autotuneAtGains cfg temp ticks clk (autotuneStart cfg junk now s) n)
    (hp : p = (PID_autotune cfg temp junk now ticks clk (n + 1) s).locals)
    (hd : 0 < g.d) :
    g.min < g.max ∧ 0 < g.t_low + g.t_high ∧
    p.Ku = 4 * (g.d : α) / (314159 / 100000 * (g.max - g.min) / 2) ∧
    p.Tu = ((g.t_low + g.t_high : Int) : α) / 1000 ∧
    p.Kp = 6 / 10 * p.Ku ∧ p.Ki = 2 * p.Kp / p.Tu ∧ p.Kd = p.Kp * p.Tu / 8 ∧
    0 < p.Ku ∧ 0 < p.Tu ∧ 0 < p.Kp ∧ 0 < p.Ki ∧ 0 < p.Kd := by
  -- the conditions under which line 254 is reached
  unfold computesGains at hcomp
  simp only [Bool.and_eq_true, decide_eq_true_eq, Bool.not_eq_true'] at hcomp
  obtain ⟨⟨⟨⟨⟨hrun, hready⟩, hoff⟩, hlow⟩, hlong⟩, hcyc⟩ := hcomp
  -- the invariant before the iteration, after the reading and after the cooling test
  have hinv := autotuneLoop_inv cfg temp junk now ticks clk s n hclk n (le_refl n)
  obtain ⟨hord, w1, w2, b1, b2, -⟩ := hclk.2 n (le_refl n)
  obtain ⟨o1, o2, o3, o4, o5, o6, o7⟩ := hord
  obtain ⟨rinv, rmin, -, -⟩ := autotuneRead_inv cfg
    { autotuneEntry cfg temp ticks clk (autotuneStart cfg junk now s) n with
      temp_meas_ready := false } hinv
  obtain ⟨cinv, cmin, cinput, -⟩ := autotuneCool_inv temp (clk n)
    { autotuneEntry cfg temp ticks clk (autotuneStart cfg junk now s) n with
      temp_meas_ready := false } rinv (le_refl _) o1 (by omega) (by omega)
  have hS : autotuneSampled cfg temp ticks clk (autotuneStart cfg junk now s) n =
      (autotuneCool temp (clk n)
        { autotuneEntry cfg temp ticks clk (autotuneStart cfg junk now s) n with
          temp_meas_ready := false }
        (autotuneRead cfg
          { autotuneEntry cfg temp ticks clk (autotuneStart cfg junk now s) n with
            temp_meas_ready := false }
          (autotuneLoop cfg temp ticks clk (autotuneStart cfg junk now s) n).locals)).2 := rfl
  rw [← hS] at cinv cmin cinput
  have hmin : (autotuneSampled cfg temp ticks clk (autotuneStart cfg junk now s) n).min ≤
      (autotuneSampled cfg temp ticks clk (autotuneStart cfg junk now s) n).input := by
    rw [cmin, cinput]
    exact rmin
  -- the local variables after the measurement block
  have hM : (autotuneMeasured cfg temp ticks clk (autotuneStart cfg junk now s) n).2 =
      { autotuneGains g with
        cycles := wrapInt16
          ((autotuneSampled cfg temp ticks clk (autotuneStart cfg junk now s) n).cycles + 1)
        min := temp } := by
    rw [hg]
    exact autotuneMeasure_computes cfg temp (clk n) _ _ hready hoff hlow hlong hcyc
  have hG : g = autotuneBias cfg (autotuneSwitch (clk n)
      (autotuneSampled cfg temp ticks clk (autotuneStart cfg junk now s) n)) := hg
  generalize autotuneSampled cfg temp ticks clk (autotuneStart cfg junk now s) n = S
    at hoff hlow hlong hcyc cinv hmin hM hG
  obtain ⟨i1, i2, i3, i4, i5⟩ := cinv
  obtain ⟨m1, m2, m3, m4⟩ := i5 hoff
  have gmax : g.max = S.max := by rw [hG]; rfl
  have gmin : g.min = S.min := by rw [hG]; rfl
  have ghigh : g.t_high = (S.t1 : Int) - S.t2 := by rw [hG]; exact m3
  have glow : g.t_low = ((clk n).heatAt : Int) - S.t1 := by
    rw [hG]
    exact wrapInt32_sub _ _ (by omega) (by omega)
  rw [wrapU32_sub _ _ (by omega) (by omega)] at hlong
  have hsum : g.t_low + g.t_high = ((clk n).heatAt : Int) - S.t2 := by
    rw [glow, ghigh]
    ring
  have hsum0 : 0 < g.t_low + g.t_high := by
    rw [hsum]
    omega
  have hwrap : wrapInt32 (g.t_low + g.t_high) = g.t_low + g.t_high := by
    rw [hsum]
    exact wrapInt32_sub _ _ (by omega) (by omega)
  have hspan : g.min < g.max := by
    rw [gmax, gmin]
    exact lt_of_le_of_lt hmin (lt_of_lt_of_le hlow m1)
  -- the local variables at the end of the iteration
  have hP : p = (autotuneChecks cfg temp (clk n)
      (autotuneMeasured cfg temp ticks clk (autotuneStart cfg junk now s) n).1
      (autotuneMeasured cfg temp ticks clk (autotuneStart cfg junk now s) n).2).locals := by
    rw [hp]
    unfold PID_autotune
    rw [autotuneLoop_running cfg temp ticks clk _ n hrun]
  have hK : p.Ku = (autotuneGains g).Ku ∧ p.Tu = (autotuneGains g).Tu ∧
      p.Kp = (autotuneGains g).Kp ∧ p.Ki = (autotuneGains g).Ki ∧
      p.Kd = (autotuneGains g).Kd := by
    rw [hP]
    rcases autotuneChecks_locals cfg temp (clk n)
      (autotuneMeasured cfg temp ticks clk (autotuneStart cfg junk now s) n).1
      (autotuneMeasured cfg temp ticks clk (autotuneStart cfg junk now s) n).2 with e | e
    · rw [e, hM]
      exact ⟨rfl, rfl, rfl, rfl, rfl⟩
    · rw [e, hM]
      exact ⟨rfl, rfl, rfl, rfl, rfl⟩
  obtain ⟨k1, k2, k3, k4, k5⟩ := hK
  have eKu : (autotuneGains g).Ku = 4 * (g.d : α) / (314159 / 100000 * (g.max - g.min) / 2) :=
    rfl
  have eTu : (autotuneGains g).Tu = ((g.t_low + g.t_high : Int) : α) / 1000 := by
    show ((wrapInt32 (g.t_low + g.t_high) : Int) : α) / 1000 = _
    rw [hwrap]
  have eKp : (autotuneGains g).Kp = 6 / 10 * (autotuneGains g).Ku := rfl
  have eKi : (autotuneGains g).Ki = 2 * (autotuneGains g).Kp / (autotuneGains g).Tu := rfl
  have eKd : (autotuneGains g).Kd = (autotuneGains g).Kp * (autotuneGains g).Tu / 8 := rfl
  have pKu : 0 < (autotuneGains g).Ku := by
    rw [eKu]
    have hdα : (0 : α) < (g.d : α) := by exact_mod_cast hd
    have hsp : (0 : α) < g.max - g.min := sub_pos.mpr hspan
    positivity
  have pTu : 0 < (autotuneGains g).Tu := by
    rw [eTu]
    have : (0 : α) < ((g.t_low + g.t_high : Int) : α) := by exact_mod_cast hsum0
    positivity
  have pKp : 0 < (autotuneGains g).Kp := by
    rw [eKp]
    positivity
  have pKi : 0 < (autotuneGains g).Ki := by
    rw [eKi]
    positivity
  have pKd : 0 < (autotuneGains g).Kd := by
    rw [eKd]
    positivity
  rw [k1, k2, k3, k4, k5]
  exact ⟨hspan, hsum0, eKu, eTu, eKp, eKi, eKd, pKu, pTu, pKp, pKi, pKd⟩

/-- C18 on an autotune to 150 degrees whose readings alternate between 155 and about 138.6
degrees every 6000 ms: iteration number 7 switches to heating with `cycles = 3` and the
swing `d = 105`, and the gains it leaves are positive. -/
theorem autotune_gains_positive_witness :
    computesGains cfgQ 150 tuneTicks tuneClock (autotuneStart cfgQ junkQ 0 tuneState) 7 = true ∧
    (autotuneAtGains cfgQ 150 tuneTicks tuneClock (autotuneStart cfgQ junkQ 0 tuneState) 7).d =
      105 ∧
    0 < (PID_autotune cfgQ 150 junkQ 0 tuneTicks tuneClock 8 tuneState).locals.Kp ∧
    0 < (PID_autotune cfgQ 150 junkQ 0 tuneTicks tuneClock 8 tuneState).locals.Ki ∧
    0 < (PID_autotune cfgQ 150 junkQ 0 tuneTicks tuneClock 8 tuneState).locals.Kd :=
  ⟨by decide!, by decide!,
    (autotune_gains_positive cfgQ 150 junkQ 0 tuneTicks tuneClock tuneState 7
      (by unfold ClockOk Millis.ordered; decide) (by decide!) _ _ rfl rfl
      (by decide!)).2.2.2.2.2.2.2.2.2⟩

end ClaimsAutotuneGains

/-! ## The sampling part of the interrupt -/

section Sampling

variable {α : Type}

theorem PwmFrame.prefl (s : State α) : PwmFrame s s := ⟨_, _, _, _, _, _, _, rfl⟩

theorem PwmFrame.ptrans {s t u : State α} (h : PwmFrame s t) (k : PwmFrame t u) :
    PwmFrame s u := by
  obtain ⟨a, b, c, p, q, r, n, rfl⟩ := h
  obtain ⟨a', b', c', p', q', r', n', rfl⟩ := k
  exact ⟨_, _, _, _, _, _, _, rfl⟩

/-- The PWM part of the ISR writes the PWM snapshots, the PWM counter and the extruder
pins only. -/
theorem isrPwm_pframe (cfg : Config α) (s : State α) : PwmFrame s (isrPwm cfg s) := by
  have h0 : ∀ (hOn : Bool) (u : State α), PwmFrame u (pwmLoad0 hOn u) :=
    fun hOn u => ⟨_, _, _, _, _, _, _, rfl⟩
  have h1 : ∀ (hOn : Bool) (u : State α), PwmFrame u (pwmLoad1 cfg hOn u) := by
    intro hOn u
    unfold pwmLoad1
    by_cases h : 1 < cfg.EXTRUDERS
    · rw [if_pos h]
      exact ⟨_, _, _, _, _, _, _, rfl⟩
    · rw [if_neg h]
      exact PwmFrame.prefl u
  have h2 : ∀ (hOn : Bool) (u : State α), PwmFrame u (pwmLoad2 cfg hOn u) := by
    intro hOn u
    unfold pwmLoad2
    by_cases h : 2 < cfg.EXTRUDERS
    · rw [if_pos h]
      exact ⟨_, _, _, _, _, _, _, rfl⟩
    · rw [if_neg h]
      exact PwmFrame.prefl u
  have hl : ∀ (hOn : Bool) (u : State α), PwmFrame u (pwmLoad cfg hOn u) := by
    intro hOn u
    unfold pwmLoad
    split_ifs
    · exact h0 hOn u
    · exact ((h0 hOn u).ptrans (h1 hOn _)).ptrans (h2 hOn _)
    · exact PwmFrame.prefl u
  have ho : ∀ u : State α, PwmFrame u (pwmOff0 u) := fun u => ⟨_, _, _, _, _, _, _, rfl⟩
  have ho12 : ∀ u : State α, PwmFrame u (pwmOff12 cfg u) := by
    intro u
    unfold pwmOff12
    by_cases h : cfg.REPRAPPRO_MULTIMATERIALS = true
    · rw [if_pos h]
      exact PwmFrame.prefl u
    · rw [if_neg h]
      exact ⟨_, _, _, _, _, _, _, rfl⟩
  have ha : ∀ u : State α, PwmFrame u (pwmAdvance u) := fun u => ⟨_, _, _, _, _, _, _, rfl⟩
  unfold isrPwm
  exact (((hl _ s).ptrans (ho _)).ptrans (ho12 _)).ptrans (ha _)

/-- The sampling switch for a phase below 8: the next phase, the pass counter, the four
accumulators, and the published values, which it leaves alone. -/
theorem isrSample_step (cfg : Config α) (adc : Nat) (s : State α) (h : s.temp_state < 8) :
    (isrSample cfg adc s).temp_state = (s.temp_state + 1) % 8 ∧
    (isrSample cfg adc s).temp_count =
      (if s.temp_state = 7 then (s.temp_count + 1) % 256 else s.temp_count) ∧
    (isrSample cfg adc s).raw_temp_0_value =
      (if s.temp_state = 1 ∧ cfg.TEMP_0_PIN = true then wrapU32 (s.raw_temp_0_value + adc)
        else s.raw_temp_0_value) ∧
    (isrSample cfg adc s).raw_temp_bed_value =
      (if s.temp_state = 3 ∧ cfg.TEMP_BED_PIN = true then wrapU32 (s.raw_temp_bed_value + adc)
        else s.raw_temp_bed_value) ∧
    (isrSample cfg adc s).current_raw = s.current_raw ∧
    (isrSample cfg adc s).current_raw_bed = s.current_raw_bed ∧
    (isrSample cfg adc s).temp_meas_ready = s.temp_meas_ready := by
  unfold isrSample
  split
  · rename_i hs
    simp [hs]
  · rename_i hs
    simp [hs]
  · rename_i hs
    simp [hs]
  · rename_i hs
    simp [hs]
  · rename_i hs
    simp [hs]
  · rename_i hs
    simp [hs]
  · rename_i hs
    simp [hs]
  · rename_i hs
    simp [hs]
  · rename_i h0 h1 h2 h3 h4 h5 h6 h7
    have hc : s.temp_state = 0 ∨ s.temp_state = 1 ∨ s.temp_state = 2 ∨ s.temp_state = 3 ∨
        s.temp_state = 4 ∨ s.temp_state = 5 ∨ s.temp_state = 6 ∨ s.temp_state = 7 := by omega
    rcases hc with c | c | c | c | c | c | c | c
    · exact (h0 c).elim
    · exact (h1 c).elim
    · exact (h2 c).elim
    · exact (h3 c).elim
    · exact (h4 c).elim
    · exact (h5 c).elim
    · exact (h6 c).elim
    · exact (h7 c).elim

/-- One execution of the ISR for a phase below 8, seen from the sampling variables: the
next phase; whether the tick ends a window; at the end of a window the publication of the
accumulated sums, the ready flag and the reset; otherwise the pass counter and the
accumulators, with the published values and the ready flag left alone. -/
theorem isr_sampling_step (cfg : Config α) (adc : Nat) (s : State α) (h : s.temp_state < 8) :
    (isr cfg adc s).temp_state = (s.temp_state + 1) % 8 ∧
    (endsWindow cfg adc s = true ↔
      16 ≤ (if s.temp_state = 7 then (s.temp_count + 1) % 256 else s.temp_count)) ∧
    (endsWindow cfg adc s = true →
      (isr cfg adc s).temp_count = 0 ∧ (isr cfg adc s).raw_temp_0_value = 0 ∧
      (isr cfg adc s).raw_temp_1_value = 0 ∧ (isr cfg adc s).raw_temp_2_value = 0 ∧
      (isr cfg adc s).raw_temp_bed_value = 0 ∧ (isr cfg adc s).temp_meas_ready = true ∧
      (isr cfg adc s).current_raw 0 = publishRaw cfg.HEATER_0_USES_AD595
        (if s.temp_state = 1 ∧ cfg.TEMP_0_PIN = true then wrapU32 (s.raw_temp_0_value + adc)
          else s.raw_temp_0_value) ∧
      (isr cfg adc s).current_raw_bed = publishRaw false
        (if s.temp_state = 3 ∧ cfg.TEMP_BED_PIN = true then
          wrapU32 (s.raw_temp_bed_value + adc) else s.raw_temp_bed_value)) ∧
    (endsWindow cfg adc s = false →
      (isr cfg adc s).temp_count =
        (if s.temp_state = 7 then (s.temp_count + 1) % 256 else s.temp_count) ∧
      (isr cfg adc s).raw_temp_0_value =
        (if s.temp_state = 1 ∧ cfg.TEMP_0_PIN = true then wrapU32 (s.raw_temp_0_value + adc)
          else s.raw_temp_0_value) ∧
      (isr cfg adc s).raw_temp_bed_value =
        (if s.temp_state = 3 ∧ cfg.TEMP_BED_PIN = true then
          wrapU32 (s.raw_temp_bed_value + adc) else s.raw_temp_bed_value) ∧
      (isr cfg adc s).current_raw = s.current_raw ∧
      (isr cfg adc s).current_raw_bed = s.current_raw_bed ∧
      (isr cfg adc s).temp_meas_ready = s.temp_meas_ready) := by
  obtain ⟨a, b, c, p, q, r, n, hpwm⟩ := isrPwm_pframe cfg s
  have hst : (isrPwm cfg s).temp_state = s.temp_state := by rw [hpwm]
  have hcnt : (isrPwm cfg s).temp_count = s.temp_count := by rw [hpwm]
  have hr0 : (isrPwm cfg s).raw_temp_0_value = s.raw_temp_0_value := by rw [hpwm]
  have hrb : (isrPwm cfg s).raw_temp_bed_value = s.raw_temp_bed_value := by rw [hpwm]
  have hcr : (isrPwm cfg s).current_raw = s.current_raw := by rw [hpwm]
  have hcb : (isrPwm cfg s).current_raw_bed = s.current_raw_bed := by rw [hpwm]
  have hrdy : (isrPwm cfg s).temp_meas_ready = s.temp_meas_ready := by rw [hpwm]
  obtain ⟨s1, s2, s3, s4, s5, s6, s7⟩ := isrSample_step cfg adc (isrPwm cfg s)
    (by rw [hst]; exact h)
  rw [hst, hcnt] at s2
  rw [hst] at s1
  rw [hst, hr0] at s3
  rw [hst, hrb] at s4
  rw [hcr] at s5
  rw [hcb] at s6
  rw [hrdy] at s7
  have hends : endsWindow cfg adc s = true ↔
      16 ≤ (if s.temp_state = 7 then (s.temp_count + 1) % 256 else s.temp_count) := by
    unfold endsWindow
    rw [s2, decide_eq_true_eq]
  have hw : ∀ x : State α,
      (isrWindowEnd cfg x).temp_state = x.temp_state ∧ (isrWindowEnd cfg x).temp_count = 0 ∧
      (isrWindowEnd cfg x).raw_temp_0_value = 0 ∧ (isrWindowEnd cfg x).raw_temp_1_value = 0 ∧
      (isrWindowEnd cfg x).raw_temp_2_value = 0 ∧ (isrWindowEnd cfg x).raw_temp_bed_value = 0 ∧
      (isrWindowEnd cfg x).temp_meas_ready = true ∧
      (isrWindowEnd cfg x).current_raw 0 =
        publishRaw cfg.HEATER_0_USES_AD595 x.raw_temp_0_value ∧
      (isrWindowEnd cfg x).current_raw_bed = publishRaw false x.raw_temp_bed_value := by
    intro x
    obtain ⟨c1, c2, c3, t, tb, l, h1⟩ := isrCheckLoop_frame cfg (isrPublish cfg x)
    obtain ⟨d1, d2, d3, t', tb', l', h2⟩ :=
      isrCheckBed_frame cfg (isrCheckLoop cfg (isrPublish cfg x))
    unfold isrWindowEnd
    rw [h2, h1]
    exact ⟨rfl, rfl, rfl, rfl, rfl, rfl, rfl, rfl, rfl⟩
  refine ⟨?_, hends, ?_, ?_⟩
  · by_cases he : endsWindow cfg adc s = true
    · rw [isr_of_endsWindow cfg adc s he, (hw _).1, s1]
    · have he' : endsWindow cfg adc s = false := by
        cases hb : endsWindow cfg adc s
        · rfl
        · exact absurd hb he
      rw [isr_of_not_endsWindow cfg adc s he', s1]
  · intro he
    obtain ⟨-, w2, w3, w4, w5, w6, w7, w8, w9⟩ := hw (isrSample cfg adc (isrPwm cfg s))
    rw [isr_of_endsWindow cfg adc s he]
    rw [s3] at w8
    rw [s4] at w9
    exact ⟨w2, w3, w4, w5, w6, w7, w8, w9⟩
  · intro he
    rw [isr_of_not_endsWindow cfg adc s he]
    exact ⟨s2, s3, s4, s5, s6, s7⟩

theorem partialSum_zero (adc : Nat → Nat) (ph w : Nat) : partialSum adc ph w 0 = 0 := rfl

theorem partialSum_succ (adc : Nat → Nat) (ph w m : Nat) :
    partialSum adc ph w (m + 1) =
      partialSum adc ph w m + (if m % 8 = ph then adc (128 * w + m) else 0) := by
  unfold partialSum
  rw [List.range_succ, List.filter_append, List.map_append, List.sum_append]
  by_cases h : m % 8 = ph
  · simp [h]
  · simp [h]

theorem partialSum_le (adc : Nat → Nat) (hadc : ∀ k, adc k ≤ 1023) (ph w m : Nat) :
    partialSum adc ph w m ≤ 1023 * m := by
  induction m with
  | zero => simp [partialSum_zero]
  | succ m ih =>
    rw [partialSum_succ]
    have := hadc (128 * w + m)
    split_ifs <;> omega

/-- The samples of phase 1 and of phase 3 among the first 127 ticks of a window are its 16
samples of that phase. -/
theorem partialSum_window (adc : Nat → Nat) (w : Nat) :
    partialSum adc 1 w 127 = phaseSum adc 1 w ∧ partialSum adc 3 w 127 = phaseSum adc 3 w := by
  have h1 : (List.range 127).filter (fun k => k % 8 = 1) =
      (List.range 16).map (fun j => 8 * j + 1) := by decide
  have h3 : (List.range 127).filter (fun k => k % 8 = 3) =
      (List.range 16).map (fun j => 8 * j + 3) := by decide
  unfold partialSum phaseSum
  rw [h1, h3, List.map_map, List.map_map]
  exact ⟨rfl, rfl⟩

theorem phaseSum_le (adc : Nat → Nat) (hadc : ∀ k, adc k ≤ 1023) (ph w : Nat) :
    phaseSum adc ph w ≤ 16368 := by
  unfold phaseSum
  have h := List.sum_le_card_nsmul ((List.range 16).map (fun j => adc (128 * w + (8 * j + ph))))
    1023 (by
      intro x hx
      obtain ⟨j, -, rfl⟩ := List.mem_map.mp hx
      exact hadc _)
  simpa using h

/-- The value published for a thermistor whose accumulator is at most 16383. -/
theorem publishRaw_thermistor (acc : Nat) (h : acc ≤ 16383) :
    publishRaw false acc = 16383 - (acc : Int) := by
  unfold publishRaw wrapInt16 wrapU32
  simp only [Bool.false_eq_true, if_false]
  omega

/-- Phase and pass counter of the ISR after `n` ticks from its initial state. -/
theorem sampling_phase (cfg : Config α) (adc : Nat → Nat) (s0 : State α)
    (h0 : s0.temp_state = 0) (hc : s0.temp_count = 0) (n : Nat) :
    (isrTrace cfg adc s0 n).temp_state = n % 8 ∧
    (isrTrace cfg adc s0 n).temp_count = n % 128 / 8 := by
  induction n with
  | zero => exact ⟨h0, hc⟩
  | succ n ih =>
    obtain ⟨i1, i2⟩ := ih
    obtain ⟨t1, t2, t3, t4⟩ := isr_sampling_step cfg (adc n) (isrTrace cfg adc s0 n)
      (by rw [i1]; omega)
    rw [i1, i2] at t2 t4
    rw [i1] at t1
    have hstep : isrTrace cfg adc s0 (n + 1) = isr cfg (adc n) (isrTrace cfg adc s0 n) := rfl
    rw [hstep]
    refine ⟨by rw [t1]; omega, ?_⟩
    by_cases he : endsWindow cfg (adc n) (isrTrace cfg adc s0 n) = true
    · have hge := t2.mp he
      rw [(t3 he).1]
      split_ifs at hge <;> omega
    · have he' : endsWindow cfg (adc n) (isrTrace cfg adc s0 n) = false := by
        cases hb : endsWindow cfg (adc n) (isrTrace cfg adc s0 n)
        · rfl
        · exact absurd hb he
      have hlt : ¬ 16 ≤ (if n % 8 = 7 then (n % 128 / 8 + 1) % 256 else n % 128 / 8) :=
        fun hge => he (t2.mpr hge)
      rw [(t4 he').1]
      split_ifs at hlt ⊢ <;> omega

/-- The ticks that end a window are those whose number is a multiple of 128. -/
theorem endsWindow_iff (cfg : Config α) (adc : Nat → Nat) (s0 : State α)
    (h0 : s0.temp_state = 0) (hc : s0.temp_count = 0) (n : Nat) :
    endsWindow cfg (adc n) (isrTrace cfg adc s0 n) = true ↔ (n + 1) % 128 = 0 := by
  obtain ⟨i1, i2⟩ := sampling_phase cfg adc s0 h0 hc n
  obtain ⟨-, t2, -, -⟩ := isr_sampling_step cfg (adc n) (isrTrace cfg adc s0 n)
    (by rw [i1]; omega)
  rw [t2, i1, i2]
  split_ifs <;> omega

/-- Accumulators of extruder 0 and of the bed after `n` ticks from the initial state of
the ISR, for 10-bit samples: the sums of the samples of their phases read so far in the
current window. -/
theorem sampling_sums (cfg : Config α) (adc : Nat → Nat) (s0 : State α)
    (h0 : s0.temp_state = 0) (hc : s0.temp_count = 0) (hr0 : s0.raw_temp_0_value = 0)
    (hrb : s0.raw_temp_bed_value = 0) (hpin0 : cfg.TEMP_0_PIN = true)
    (hpinb : cfg.TEMP_BED_PIN = true) (hadc : ∀ k, adc k ≤ 1023) (n : Nat) :
    (isrTrace cfg adc s0 n).raw_temp_0_value = partialSum adc 1 (n / 128) (n % 128) ∧
    (isrTrace cfg adc s0 n).raw_temp_bed_value = partialSum adc 3 (n / 128) (n % 128) := by
  induction n with
  | zero => exact ⟨hr0, hrb⟩
  | succ n ih =>
    obtain ⟨i1, i2⟩ := ih
    obtain ⟨p1, -⟩ := sampling_phase cfg adc s0 h0 hc n
    obtain ⟨-, -, t3, t4⟩ := isr_sampling_step cfg (adc n) (isrTrace cfg adc s0 n)
      (by rw [p1]; omega)
    have hiff := endsWindow_iff cfg adc s0 h0 hc n
    have hstep : isrTrace cfg adc s0 (n + 1) = isr cfg (adc n) (isrTrace cfg adc s0 n) := rfl
    rw [hstep]
    by_cases he : endsWindow cfg (adc n) (isrTrace cfg adc s0 n) = true
    · obtain ⟨-, w2, -, -, w5, -⟩ := t3 he
      have hm : (n + 1) % 128 = 0 := hiff.mp he
      rw [w2, w5, hm, partialSum_zero, partialSum_zero]
      exact ⟨rfl, rfl⟩
    · have he' : endsWindow cfg (adc n) (isrTrace cfg adc s0 n) = false := by
        cases hb : endsWindow cfg (adc n) (isrTrace cfg adc s0 n)
        · rfl
        · exact absurd hb he
      have hm : (n + 1) % 128 ≠ 0 := fun hm => he (hiff.mpr hm)
      obtain ⟨-, v2, v3, -⟩ := t4 he'
      have hw : (n + 1) / 128 = n / 128 := by omega
      have hmod : (n + 1) % 128 = n % 128 + 1 := by omega
      have hn : 128 * (n / 128) + n % 128 = n := by omega
      have hph : n % 128 % 8 = n % 8 := by omega
      have b1 := partialSum_le adc hadc 1 (n / 128) (n % 128)
      have b3 := partialSum_le adc hadc 3 (n / 128) (n % 128)
      have ha := hadc n
      rw [v2, v3, p1, i1, i2, hw, hmod, partialSum_succ, partialSum_succ, hn, hph]
      constructor
      · by_cases h1 : n % 8 = 1
        · rw [if_pos ⟨h1, hpin0⟩, if_pos h1]
          unfold wrapU32
          omega
        · rw [if_neg (fun h => h1 h.1), if_neg h1, Nat.add_zero]
      · by_cases h3 : n % 8 = 3
        · rw [if_pos ⟨h3, hpinb⟩, if_pos h3]
          unfold wrapU32
          omega
        · rw [if_neg (fun h => h3 h.1), if_neg h3, Nat.add_zero]

end Sampling

/-! ## Claims about the sampling windows -/

section ClaimsSampling

variable {α : Type}

/-- C22: from the initial state of the ISR (`temp_state = 0`, `temp_count = 0`) the phase
after tick `n` is `n mod 8`; tick `n + 1` reaches the end-of-window block, which sets
`temp_meas_ready`, exactly when `n + 1` is a multiple of 128; after such a tick the flag is
set and the pass counter and the four accumulators are 0, and every other tick leaves the
flag alone. -/
theorem sampling_window (cfg : Config α) (adc : Nat → Nat) (s0 : State α)
    (h0 : s0.temp_state = 0) (hc : s0.temp_count = 0) (n : Nat) :
    (isrTrace cfg adc s0 n).temp_state = n % 8 ∧
    (endsWindow cfg (adc n) (isrTrace cfg adc s0 n) = true ↔ (n + 1) % 128 = 0) ∧
    ((n + 1) % 128 = 0 →
      (isrTrace cfg adc s0 (n + 1)).temp_meas_ready = true ∧
      (isrTrace cfg adc s0 (n + 1)).temp_count = 0 ∧
      (isrTrace cfg adc s0 (n + 1)).raw_temp_0_value = 0 ∧
      (isrTrace cfg adc s0 (n + 1)).raw_temp_1_value = 0 ∧
      (isrTrace cfg adc s0 (n + 1)).raw_temp_2_value = 0 ∧
      (isrTrace cfg adc s0 (n + 1)).raw_temp_bed_value = 0) ∧
    ((n + 1) % 128 ≠ 0 →
      (isrTrace cfg adc s0 (n + 1)).temp_meas_ready =
        (isrTrace cfg adc s0 n).temp_meas_ready) := by
  obtain ⟨p1, -⟩ := sampling_phase cfg adc s0 h0 hc n
  obtain ⟨-, -, t3, t4⟩ := isr_sampling_step cfg (adc n) (isrTrace cfg adc s0 n)
    (by rw [p1]; omega)
  have hiff := endsWindow_iff cfg adc s0 h0 hc n
  have hstep : isrTrace cfg adc s0 (n + 1) = isr cfg (adc n) (isrTrace cfg adc s0 n) := rfl
  refine ⟨p1, hiff, fun hm => ?_, fun hm => ?_⟩
  · obtain ⟨w1, w2, w3, w4, w5, w6, -, -⟩ := t3 (hiff.mpr hm)
    rw [hstep]
    exact ⟨w6, w1, w2, w3, w4, w5⟩
  · have he' : endsWindow cfg (adc n) (isrTrace cfg adc s0 n) = false := by
      cases hb : endsWindow cfg (adc n) (isrTrace cfg adc s0 n)
      · rfl
      · exact absurd (hiff.mp hb) hm
    rw [hstep]
    exact (t4 he').2.2.2.2.2

/-- C22 on the first window of `heatingState`: tick 128 sets the flag, tick 127 does
not. -/
theorem sampling_window_witness :
    heatingState.temp_state = 0 ∧ heatingState.temp_count = 0 ∧
    endsWindow cfgQ (adcMid 127) (isrTrace cfgQ adcMid heatingState 127) = true ∧
    (isrTrace cfgQ adcMid heatingState 128).temp_meas_ready = true ∧
    (isrTrace cfgQ adcMid heatingState 127).temp_meas_ready = false :=
  ⟨by decide, by decide,
    ((sampling_window cfgQ adcMid heatingState (by decide) (by decide) 127).2.1).mpr
      (by decide),
    ((sampling_window cfgQ adcMid heatingState (by decide) (by decide) 127).2.2.1
      (by decide)).1,
    by decide!⟩

/-- C23: from the initial state of the ISR with empty accumulators, for a thermistor on
extruder 0 and 10-bit samples, the tick that ends window number `w` sets `current_raw[0]` to
16383 minus the sum of the 16 samples of phase 1 of that window and `current_raw_bed` to
16383 minus the sum of the 16 samples of phase 3, both in `[15, 16383]`; every other tick
leaves `current_raw[]` and `current_raw_bed` alone. -/
theorem published_raw (cfg : Config α) (adc : Nat → Nat) (s0 : State α)
    (h0 : s0.temp_state = 0) (hc : s0.temp_count = 0) (hr0 : s0.raw_temp_0_value = 0)
    (hrb : s0.raw_temp_bed_value = 0) (hpin0 : cfg.TEMP_0_PIN = true)
    (hpinb : cfg.TEMP_BED_PIN = true) (hlin : cfg.HEATER_0_USES_AD595 = false)
    (hadc : ∀ k, adc k ≤ 1023) :
    (∀ w,
      (isrTrace cfg adc s0 (128 * (w + 1))).current_raw 0 = 16383 - (phaseSum adc 1 w : Int) ∧
      (isrTrace cfg adc s0 (128 * (w + 1))).current_raw_bed =
        16383 - (phaseSum adc 3 w : Int) ∧
      15 ≤ (isrTrace cfg adc s0 (128 * (w + 1))).current_raw 0 ∧
      (isrTrace cfg adc s0 (128 * (w + 1))).current_raw 0 ≤ 16383 ∧
      15 ≤ (isrTrace cfg adc s0 (128 * (w + 1))).current_raw_bed ∧
      (isrTrace cfg adc s0 (128 * (w + 1))).current_raw_bed ≤ 16383) ∧
    (∀ n, (n + 1) % 128 ≠ 0 →
      (isrTrace cfg adc s0 (n + 1)).current_raw = (isrTrace cfg adc s0 n).current_raw ∧
      (isrTrace cfg adc s0 (n + 1)).current_raw_bed =
        (isrTrace cfg adc s0 n).current_raw_bed) := by
  constructor
  · intro w
    have hn : 128 * (w + 1) = (128 * w + 127) + 1 := by omega
    obtain ⟨p1, -⟩ := sampling_phase cfg adc s0 h0 hc (128 * w + 127)
    obtain ⟨a1, a2⟩ := sampling_sums cfg adc s0 h0 hc hr0 hrb hpin0 hpinb hadc (128 * w + 127)
    obtain ⟨-, -, t3, -⟩ := isr_sampling_step cfg (adc (128 * w + 127))
      (isrTrace cfg adc s0 (128 * w + 127)) (by rw [p1]; omega)
    have he := (endsWindow_iff cfg adc s0 h0 hc (128 * w + 127)).mpr (by omega)
    obtain ⟨-, -, -, -, -, -, w7, w8⟩ := t3 he
    have hdiv : (128 * w + 127) / 128 = w := by omega
    have hmod : (128 * w + 127) % 128 = 127 := by omega
    have hph : (128 * w + 127) % 8 = 7 := by omega
    obtain ⟨f1, f3⟩ := partialSum_window adc w
    have b1 := phaseSum_le adc hadc 1 w
    have b3 := phaseSum_le adc hadc 3 w
    rw [p1, hph, a1, hdiv, hmod, f1, hlin, if_neg (fun h => absurd h.1 (by decide)),
      publishRaw_thermistor _ (by omega)] at w7
    rw [p1, hph, a2, hdiv, hmod, f3, if_neg (fun h => absurd h.1 (by decide)),
      publishRaw_thermistor _ (by omega)] at w8
    have hstep : isrTrace cfg adc s0 (128 * (w + 1)) =
        isr cfg (adc (128 * w + 127)) (isrTrace cfg adc s0 (128 * w + 127)) := by
      rw [hn]
      rfl
    rw [hstep, w7, w8]
    refine ⟨rfl, rfl, ?_, ?_, ?_, ?_⟩ <;> omega
  · intro n hm
    obtain ⟨p1, -⟩ := sampling_phase cfg adc s0 h0 hc n
    obtain ⟨-, -, -, t4⟩ := isr_sampling_step cfg (adc n) (isrTrace cfg adc s0 n)
      (by rw [p1]; omega)
    have he' : endsWindow cfg (adc n) (isrTrace cfg adc s0 n) = false := by
      cases hb : endsWindow cfg (adc n) (isrTrace cfg adc s0 n)
      · rfl
      · exact absurd ((endsWindow_iff cfg adc s0 h0 hc n).mp hb) hm
    have hstep : isrTrace cfg adc s0 (n + 1) = isr cfg (adc n) (isrTrace cfg adc s0 n) := rfl
    rw [hstep]
    exact ⟨(t4 he').2.2.2.1, (t4 he').2.2.2.2.1⟩

/-- C23 on the first window of `heatingState` with every sample at 500: both published
values are `16383 - 16*500 = 8383`. -/
theorem published_raw_witness :
    phaseSum adcMid 1 0 = 8000 ∧
    (isrTrace cfgQ adcMid heatingState (128 * (0 + 1))).current_raw 0 =
      16383 - (phaseSum adcMid 1 0 : Int) ∧
    (isrTrace cfgQ adcMid heatingState (128 * (0 + 1))).current_raw_bed =
      16383 - (phaseSum adcMid 3 0 : Int) :=
  ⟨by decide!,
    ((published_raw cfgQ adcMid heatingState (by decide) (by decide) (by decide) (by decide)
      (by decide) (by decide) (by decide) (fun _ => by simp [adcMid])).1 0).1,
    ((published_raw cfgQ adcMid heatingState (by decide) (by decide) (by decide) (by decide)
      (by decide) (by decide) (by decide) (fun _ => by simp [adcMid])).1 0).2.1⟩

end ClaimsSampling

/-! ## Claims about the terms of the regulator -/

section ClaimsTerms

variable {α : Type} [LinearOrderedField α] [FloorRing α]

/-- The in-band branch of the loop body: the accumulator, the integral term, the
derivative term and the derivative state it stores for its channel. -/
theorem manageChannel_band (cfg : Config α) (e : Nat) (u : State α)
    (hp : cfg.PIDTEMP = true) (h1 : ¬ (cfg.FULL_PID_BAND : α) < pidErrorOf cfg e u)
    (h2 : ¬ pidErrorOf cfg e u < -(cfg.FULL_PID_BAND : α)) :
    (manageChannel cfg e u).temp_iState e =
      constrain ((if u.pid_reset e = true then 0 else u.temp_iState e) + pidErrorOf cfg e u)
        (u.temp_iState_min e) (u.temp_iState_max e) ∧
    (manageChannel cfg e u).iTerm e = u.Ki * (manageChannel cfg e u).temp_iState e ∧
    (manageChannel cfg e u).dTerm e =
      (u.Kd * (analog2temp cfg u (u.current_raw e) e - u.temp_dState e)) * (1 - cfg.K1) +
        cfg.K1 * u.dTerm e ∧
    (manageChannel cfg e u).temp_dState e = analog2temp cfg u (u.current_raw e) e := by
  obtain ⟨-, f2, f3, -, f5, f6⟩ := storeDuty_fields e (heaterOutput cfg e u)
  unfold manageChannel
  rw [f2, f3, f5, f6]
  unfold heaterOutput
  rw [if_pos hp, pidOutput_band cfg e u h1 h2]
  unfold pidInBand
  simp only []
  rw [setAt_same, setAt_same, setAt_same, setAt_same]
  exact ⟨rfl, rfl, rfl, rfl⟩

/-- The in-band window of `manage_heater` in terms of the state at the call. -/
theorem manage_heater_band (cfg : Config α) (now : Nat) (s : State α) (e : Nat)
    (hp : cfg.PIDTEMP = true) (he : e < EXTRUDERS_T cfg) (hr : s.temp_meas_ready = true)
    (h1 : ¬ (cfg.FULL_PID_BAND : α) < pidErrorOf cfg e s)
    (h2 : ¬ pidErrorOf cfg e s < -(cfg.FULL_PID_BAND : α)) :
    (manage_heater cfg now s).temp_iState e =
      constrain ((if s.pid_reset e = true then 0 else s.temp_iState e) + pidErrorOf cfg e s)
        (s.temp_iState_min e) (s.temp_iState_max e) ∧
    (manage_heater cfg now s).iTerm e = s.Ki * (manage_heater cfg now s).temp_iState e ∧
    (manage_heater cfg now s).dTerm e =
      (s.Kd * (analog2temp cfg s (s.current_raw e) e - s.temp_dState e)) * (1 - cfg.K1) +
        cfg.K1 * s.dTerm e ∧
    (manage_heater cfg now s).temp_dState e = analog2temp cfg s (s.current_raw e) e := by
  obtain ⟨u, hf, hk, hk'⟩ := manage_heater_channel cfg now s e hr he
  have herr := pidErrorOf_frame cfg e hf
  obtain ⟨b1, b2, b3, b4⟩ := manageChannel_band cfg e u hp (by rw [herr]; exact h1)
    (by rw [herr]; exact h2)
  obtain ⟨-, k2, k3, -, -, k6, k7, -⟩ := hk
  obtain ⟨-, -, j3, -, j5, j6, j7, -⟩ := hk'
  rw [j3, j5, j6, j7, b2, b1, b3, b4, herr, k2, k3, k6, k7]
  obtain ⟨rdy, pe, pr, ti, pt, it, dt, td, sp, rfl⟩ := hf
  exact ⟨rfl, rfl, rfl, rfl⟩

theorem ClampKept.mrefl (s : State α) : ClampKept s s := ⟨rfl, rfl, rfl, rfl⟩

theorem ClampKept.mtrans {s t u : State α} (h : ClampKept s t) (k : ClampKept t u) :
    ClampKept s u :=
  ⟨k.1.trans h.1, k.2.1.trans h.2.1, k.2.2.1.trans h.2.2.1, k.2.2.2.trans h.2.2.2⟩

theorem LocalFrame.lclamp {s s' : State α} (h : LocalFrame s s') : ClampKept s s' := by
  obtain ⟨a, b, c, p, q, r, n, w, x, y, z, ph, cnt, rfl⟩ := h
  exact ⟨rfl, rfl, rfl, rfl⟩

theorem CheckFrame.cclamp {s s' : State α} (h : CheckFrame s s') : ClampKept s s' := by
  obtain ⟨c1, c2, c3, t, tb, l, rfl⟩ := h
  exact ⟨rfl, rfl, rfl, rfl⟩

/-- No execution of the ISR writes the integral clamp. -/
theorem isr_clamp (cfg : Config α) (adc : Nat) (s : State α) : ClampKept s (isr cfg adc s) := by
  have hloc := (isrLocal_frame cfg adc s).lclamp
  unfold isr
  split_ifs
  · unfold isrWindowEnd
    have hp : ClampKept (isrSample cfg adc (isrPwm cfg s))
        (isrPublish cfg (isrSample cfg adc (isrPwm cfg s))) := ⟨rfl, rfl, rfl, rfl⟩
    exact ((hloc.mtrans hp).mtrans (isrCheckLoop_frame cfg _).cclamp).mtrans
      (isrCheckBed_frame cfg _).cclamp
  · exact hloc

theorem runIsr_clamp (cfg : Config α) (adcs : List Nat) (s : State α) :
    ClampKept s (runIsr cfg adcs s) := by
  induction adcs generalizing s with
  | nil => exact ClampKept.mrefl s
  | cons a l ih => exact (isr_clamp cfg a s).mtrans (ih _)

theorem setMinLimit_clamp (cfg : Config α) (lim : Option Int) (e : Nat) (s : State α) :
    ClampKept s (setMinLimit cfg lim e s) := by
  unfold setMinLimit
  split <;> exact ⟨rfl, rfl, rfl, rfl⟩

theorem setMaxLimit_clamp (cfg : Config α) (lim : Option Int) (e : Nat) (s : State α) :
    ClampKept s (setMaxLimit cfg lim e s) := by
  unfold setMaxLimit
  split <;> exact ⟨rfl, rfl, rfl, rfl⟩

theorem tpInitLimits12_clamp (cfg : Config α) (s : State α) :
    ClampKept s (tpInitLimits12 cfg s) := by
  have h1 : ∀ u : State α, ClampKept u (tpInitLimits1 cfg u) := by
    intro u
    unfold tpInitLimits1
    split_ifs
    · exact (setMinLimit_clamp cfg _ 1 u).mtrans (setMaxLimit_clamp cfg _ 1 _)
    · exact ClampKept.mrefl u
  have h2 : ∀ u : State α, ClampKept u (tpInitLimits2 cfg u) := by
    intro u
    unfold tpInitLimits2
    split_ifs
    · exact (setMinLimit_clamp cfg _ 2 u).mtrans (setMaxLimit_clamp cfg _ 2 _)
    · exact ClampKept.mrefl u
  unfold tpInitLimits12
  split_ifs
  · exact ClampKept.mrefl s
  · exact (h1 s).mtrans (h2 _)

theorem tp_init_limits_clamp (cfg : Config α) (s : State α) :
    ClampKept s (tp_init_limits cfg s) := by
  have hmin : ∀ u : State α, ClampKept u (tpInitBedMin cfg u) := by
    intro u
    unfold tpInitBedMin
    split <;> exact ⟨rfl, rfl, rfl, rfl⟩
  have hmax : ∀ u : State α, ClampKept u (tpInitBedMax cfg u) := by
    intro u
    unfold tpInitBedMax
    split <;> exact ⟨rfl, rfl, rfl, rfl⟩
  unfold tp_init_limits
  exact ((((setMinLimit_clamp cfg _ 0 s).mtrans (setMaxLimit_clamp cfg _ 0 _)).mtrans
    (tpInitLimits12_clamp cfg _)).mtrans (hmin _)).mtrans (hmax _)

/-- The loop of `tp_init` sets the clamp of every local channel to `[0, Ki_Max / Ki]`. -/
theorem tp_init_reset_clamp (cfg : Config α) (hp : cfg.PIDTEMP = true) (s : State α) (e : Nat)
    (he : e < EXTRUDERS_T cfg) :
    (tp_init_reset cfg s).Ki = s.Ki ∧ (tp_init_reset cfg s).Ki_Max = s.Ki_Max ∧
    (tp_init_reset cfg s).temp_iState_min e = 0 ∧
    (tp_init_reset cfg s).temp_iState_max e = (s.Ki_Max : α) / s.Ki := by
  unfold tp_init_reset
  have h := foldl_sets (fun u e => tpInitChannel cfg e u)
    (fun u : State α => u.Ki = s.Ki ∧ u.Ki_Max = s.Ki_Max)
    (fun u : State α => u.Ki = s.Ki ∧ u.Ki_Max = s.Ki_Max ∧ u.temp_iState_min e = 0 ∧
      u.temp_iState_max e = (s.Ki_Max : α) / s.Ki) e
    (fun u e' hu => hu) ?_ ?_ (List.range (EXTRUDERS_T cfg)) (List.mem_range.mpr he)
    { s with dudMaxCount := 0, dudMinCount := 0, dudBedCount := 0 } ⟨rfl, rfl⟩
  · exact h
  · intro u hu
    refine ⟨hu.1, hu.2, ?_, ?_⟩
    · show (if cfg.PIDTEMP then setAt u.temp_iState_min e 0 else u.temp_iState_min) e = 0
      rw [if_pos hp, setAt_same]
    · show (if cfg.PIDTEMP then setAt u.temp_iState_max e ((u.Ki_Max : α) / u.Ki)
        else u.temp_iState_max) e = _
      rw [if_pos hp, setAt_same, hu.1, hu.2]
  · intro u e' hu
    obtain ⟨u1, u2, u3, u4⟩ := hu
    refine ⟨u1, u2, ?_, ?_⟩
    · show (if cfg.PIDTEMP then setAt u.temp_iState_min e' 0 else u.temp_iState_min) e = 0
      rw [if_pos hp]
      by_cases hee : e = e'
      · rw [hee, setAt_same]
      · rw [setAt_other _ _ _ _ hee, u3]
    · show (if cfg.PIDTEMP then setAt u.temp_iState_max e' ((u.Ki_Max : α) / u.Ki)
        else u.temp_iState_max) e = _
      rw [if_pos hp]
      by_cases hee : e = e'
      · rw [hee, setAt_same, u1, u2]
      · rw [setAt_other _ _ _ _ hee, u4]

/-- The loop of `updatePID` sets the upper clamp of every local channel to `Ki_Max / Ki`. -/
theorem updatePID_clamp (cfg : Config α) (hp : cfg.PIDTEMP = true) (s : State α) (e : Nat)
    (he : e < EXTRUDERS_T cfg) :
    (updatePID cfg s).temp_iState_max e = (s.Ki_Max : α) / s.Ki := by
  unfold updatePID
  rw [if_pos hp]
  have h := foldl_sets
    (fun (u : State α) e =>
      { u with temp_iState_max := setAt u.temp_iState_max e ((u.Ki_Max : α) / u.Ki) })
    (fun u : State α => u.Ki = s.Ki ∧ u.Ki_Max = s.Ki_Max)
    (fun u : State α => u.Ki = s.Ki ∧ u.Ki_Max = s.Ki_Max ∧
      u.temp_iState_max e = (s.Ki_Max : α) / s.Ki) e
    (fun u e' hu => hu) ?_ ?_ (List.range (EXTRUDERS_T cfg)) (List.mem_range.mpr he)
    s ⟨rfl, rfl⟩
  · exact h.2.2
  · intro u hu
    refine ⟨hu.1, hu.2, ?_⟩
    show setAt u.temp_iState_max e ((u.Ki_Max : α) / u.Ki) e = _
    rw [setAt_same, hu.1, hu.2]
  · intro u e' hu
    obtain ⟨u1, u2, u4⟩ := hu
    refine ⟨u1, u2, ?_⟩
    show setAt u.temp_iState_max e' ((u.Ki_Max : α) / u.Ki) e = _
    by_cases hee : e = e'
    · rw [hee, setAt_same, u1, u2]
    · rw [setAt_other _ _ _ _ hee, u4]

/-- The local branch of `setPIDValues` is taken for extruder 1 and in every build without
a slave board. -/
theorem setPIDValues_local (cfg : Config α) (eb : Int) (Kpi Kii Kdi Kmi : α) (s : State α)
    (hloc : cfg.REPRAPPRO_MULTIMATERIALS = false ∨ eb = 1) :
    setPIDValues cfg eb Kpi Kii Kdi Kmi s = updatePID cfg (setPIDLocal cfg Kpi Kii Kdi Kmi s) := by
  have hw0 : wrapInt16 0 = 0 := by decide
  unfold setPIDValues
  rcases hloc with h | h
  · simp [h]
  · simp [h, hw0]

/-- C24: with `Ki > 0`, `Ki_Max >= 0` and the clamp of channel `e` at `[0, Ki_Max / Ki]`, an
in-band PID window of `manage_heater` leaves `0 <= temp_iState[e] <= Ki_Max / Ki` and
`0 <= iTerm[e] <= Ki_Max`; the local `setPIDValues` leaves `temp_iState_max[e']` at
`Ki_Max / Ki` for the `Ki` it stored, `Kii * PID_dT`, and `tp_init` leaves the clamp of
every local channel at `[0, Ki_Max / Ki]`. -/
theorem integral_clamp (cfg : Config α) (now : Nat) (s : State α) (e : Nat)
    (hp : cfg.PIDTEMP = true) (he : e < EXTRUDERS_T cfg) (hr : s.temp_meas_ready = true)
    (hband : |pidErrorOf cfg e s| ≤ (cfg.FULL_PID_BAND : α))
    (hKi : 0 < s.Ki) (hKm : 0 ≤ s.Ki_Max) (hmin : s.temp_iState_min e = 0)
    (hmax : s.temp_iState_max e = (s.Ki_Max : α) / s.Ki) :
    (0 ≤ (manage_heater cfg now s).temp_iState e ∧
      (manage_heater cfg now s).temp_iState e ≤ (s.Ki_Max : α) / s.Ki ∧
      0 ≤ (manage_heater cfg now s).iTerm e ∧
      (manage_heater cfg now s).iTerm e ≤ (s.Ki_Max : α)) ∧
    (∀ (eb : Int) (Kpi Kii Kdi Kmi : α) (e' : Nat),
      cfg.REPRAPPRO_MULTIMATERIALS = false ∨ eb = 1 → e' < EXTRUDERS_T cfg →
      (setPIDValues cfg eb Kpi Kii Kdi Kmi s).Ki = Kii * cfg.PID_dT ∧
      (setPIDValues cfg eb Kpi Kii Kdi Kmi s).temp_iState_max e' =
        ((setPIDValues cfg eb Kpi Kii Kdi Kmi s).Ki_Max : α) /
          (setPIDValues cfg eb Kpi Kii Kdi Kmi s).Ki) ∧
    (∀ (adcs : List Nat) (e' : Nat), e' < EXTRUDERS_T cfg →
      (tp_init cfg adcs s).temp_iState_min e' = 0 ∧
      (tp_init cfg adcs s).temp_iState_max e' =
        ((tp_init cfg adcs s).Ki_Max : α) / (tp_init cfg adcs s).Ki) := by
  obtain ⟨hlo, hhi⟩ := abs_le.mp hband
  obtain ⟨b1, b2, -, -⟩ := manage_heater_band cfg now s e hp he hr (not_lt.mpr hhi)
    (not_lt.mpr hlo)
  have hKm' : (0 : α) ≤ (s.Ki_Max : α) := by exact_mod_cast hKm
  have hq : (0 : α) ≤ (s.Ki_Max : α) / s.Ki := div_nonneg hKm' hKi.le
  obtain ⟨c1, c2⟩ := constrain_bounds
    ((if s.pid_reset e = true then 0 else s.temp_iState e) + pidErrorOf cfg e s)
    (s.temp_iState_min e) (s.temp_iState_max e) (by rw [hmin, hmax]; exact hq)
  rw [← b1, hmin] at c1
  rw [← b1, hmax] at c2
  refine ⟨⟨c1, c2, ?_, ?_⟩, ?_, ?_⟩
  · rw [b2]
    exact mul_nonneg hKi.le c1
  · rw [b2]
    calc s.Ki * (manage_heater cfg now s).temp_iState e
        ≤ s.Ki * ((s.Ki_Max : α) / s.Ki) := mul_le_mul_of_nonneg_left c2 hKi.le
      _ = (s.Ki_Max : α) := mul_div_cancel₀ _ hKi.ne'
  · intro eb Kpi Kii Kdi Kmi e' hloc he'
    rw [setPIDValues_local cfg eb Kpi Kii Kdi Kmi s hloc]
    obtain ⟨-, u2, -, u4⟩ := updatePID_gains cfg (setPIDLocal cfg Kpi Kii Kdi Kmi s)
    rw [updatePID_clamp cfg hp _ e' he', u2, u4]
    exact ⟨rfl, rfl⟩
  · intro adcs e' he'
    obtain ⟨r1, r2, r3, r4⟩ := tp_init_reset_clamp cfg hp s e' he'
    obtain ⟨i1, i2, i3, i4⟩ := runIsr_clamp cfg adcs (tp_init_reset cfg s)
    obtain ⟨l1, l2, l3, l4⟩ := tp_init_limits_clamp cfg (runIsr cfg adcs (tp_init_reset cfg s))
    unfold tp_init
    rw [l3, l4, l1, l2, i3, i4, i1, i2, r3, r4, r1, r2]
    exact ⟨rfl, rfl⟩

/-- C24 on the window of `regState` (clamp `[0, 255]`, `Ki = 1`, accumulator 1000, error
50): the accumulator is brought back to 255. -/
theorem integral_clamp_witness :
    (0 : ℚ) ≤ (manage_heater cfgQ 0 regState).temp_iState 0 ∧
    (manage_heater cfgQ 0 regState).temp_iState 0 ≤ ((regState.Ki_Max : Int) : ℚ) / regState.Ki ∧
    (0 : ℚ) ≤ (manage_heater cfgQ 0 regState).iTerm 0 ∧
    (manage_heater cfgQ 0 regState).iTerm 0 ≤ ((regState.Ki_Max : Int) : ℚ) :=
  (integral_clamp cfgQ 0 regState 0 (by decide) (by decide) (by decide) (by decide!)
    (by decide!) (by decide) (by decide!) (by decide!)).1

/-- C25: two in-band PID windows of `manage_heater` from states that differ only in the
setpoints leave the same `dTerm[e]` and `temp_dState[e]`, namely
`Kd*(input - temp_dState[e])*(1 - K1) + K1*dTerm[e]` and `input`, the measured
temperature. -/
theorem derivative_on_measurement (cfg : Config α) (now : Nat) (s1 s2 : State α) (e : Nat)
    (sp : Nat → α) (hp : cfg.PIDTEMP = true) (he : e < EXTRUDERS_T cfg)
    (hr : s1.temp_meas_ready = true) (hs : s2 = { s1 with pid_setpoint := sp })
    (hband1 : |pidErrorOf cfg e s1| ≤ (cfg.FULL_PID_BAND : α))
    (hband2 : |pidErrorOf cfg e s2| ≤ (cfg.FULL_PID_BAND : α)) :
    (manage_heater cfg now s1).dTerm e =
      (s1.Kd * (analog2temp cfg s1 (s1.current_raw e) e - s1.temp_dState e)) * (1 - cfg.K1) +
        cfg.K1 * s1.dTerm e ∧
    (manage_heater cfg now s1).temp_dState e = analog2temp cfg s1 (s1.current_raw e) e ∧
    (manage_heater cfg now s2).dTerm e = (manage_heater cfg now s1).dTerm e ∧
    (manage_heater cfg now s2).temp_dState e = (manage_heater cfg now s1).temp_dState e := by
  obtain ⟨lo1, hi1⟩ := abs_le.mp hband1
  obtain ⟨lo2, hi2⟩ := abs_le.mp hband2
  obtain ⟨-, -, a3, a4⟩ := manage_heater_band cfg now s1 e hp he hr (not_lt.mpr hi1)
    (not_lt.mpr lo1)
  have hr2 : s2.temp_meas_ready = true := by rw [hs]; exact hr
  obtain ⟨-, -, b3, b4⟩ := manage_heater_band cfg now s2 e hp he hr2 (not_lt.mpr hi2)
    (not_lt.mpr lo2)
  refine ⟨a3, a4, ?_, ?_⟩
  · rw [b3, a3, hs]
    rfl
  · rw [b4, a4, hs]
    rfl

/-- C25 on the window of `regState` with the setpoints 200 and 180 (reading 150). -/
theorem derivative_on_measurement_witness :
    (manage_heater cfgQ 0 { regState with pid_setpoint := fun _ => 180 }).dTerm 0 =
      (manage_heater cfgQ 0 regState).dTerm 0 ∧
    (manage_heater cfgQ 0 { regState with pid_setpoint := fun _ => 180 }).temp_dState 0 =
      (manage_heater cfgQ 0 regState).temp_dState 0 :=
  (derivative_on_measurement cfgQ 0 regState { regState with pid_setpoint := fun _ => 180 } 0
    (fun _ => 180) (by decide) (by decide) (by decide) rfl (by decide!) (by decide!)).2.2

end ClaimsTerms
/-! ## The debounce counter with several local extruders -/

section SharedCounter

variable {α : Type}

/-- The maximum check of a channel that reads below its bound clears a counter that is not
latched. -/
theorem isrCheckMax_in_range (e : Nat) (s : State α) (h0 : 0 ≤ s.dudMaxCount)
    (hin : s.current_raw e < s.maxttemp e) : (isrCheckMax e s).dudMaxCount = 0 := by
  unfold isrCheckMax
  rw [if_pos h0, if_neg (not_le.mpr hin)]

/-- Counter left by the first `k` passes of the extruder loop at the end of a window, in a
build without a slave board, when the counter starts at 0 and every channel above 0 reads
below its bound: 0, except that it may be 1 after the pass of channel 0. -/
theorem isrCheckLoop_upto (cfg : Config α) (hrem : cfg.REPRAPPRO_MULTIMATERIALS = false)
    (s : State α) (h0 : s.dudMaxCount = 0) (N : Nat)
    (hin : ∀ e, 1 ≤ e → e < N → s.current_raw e < s.maxttemp e) (k : Nat) (hk : k ≤ N) :
    CheckFrame s ((List.range k).foldl (fun u e => isrCheckExtruder cfg e u) s) ∧
    0 ≤ ((List.range k).foldl (fun u e => isrCheckExtruder cfg e u) s).dudMaxCount ∧
    ((List.range k).foldl (fun u e => isrCheckExtruder cfg e u) s).dudMaxCount ≤ 1 ∧
    (k ≠ 1 → ((List.range k).foldl (fun u e => isrCheckExtruder cfg e u) s).dudMaxCount = 0) := by
  induction k with
  | zero =>
    refine ⟨CheckFrame.crefl s, ?_, ?_, fun _ => h0⟩
    · show 0 ≤ s.dudMaxCount
      omega
    · show s.dudMaxCount ≤ 1
      omega
  | succ k ih =>
    obtain ⟨hf, i0, i1, iz⟩ := ih (by omega)
    rw [List.range_succ, List.foldl_append]
    show CheckFrame s (isrCheckExtruder cfg k _) ∧ 0 ≤ (isrCheckExtruder cfg k _).dudMaxCount ∧
      (isrCheckExtruder cfg k _).dudMaxCount ≤ 1 ∧
      (k + 1 ≠ 1 → (isrCheckExtruder cfg k _).dudMaxCount = 0)
    generalize (List.range k).foldl (fun u e => isrCheckExtruder cfg e u) s = u at hf i0 i1 iz
    have hraw : u.current_raw = s.current_raw ∧ u.maxttemp = s.maxttemp := by
      obtain ⟨c1, c2, c3, t, tb, l, rfl⟩ := hf
      exact ⟨rfl, rfl⟩
    have hext : isrCheckExtruder cfg k u = isrCheckMin k (isrCheckMax k u) := by
      unfold isrCheckExtruder
      simp [hrem]
    rw [hext, isrCheckMin_dudMaxCount]
    refine ⟨hf.ctrans (by rw [← hext]; exact isrCheckExtruder_frame cfg k u), ?_⟩
    by_cases hk0 : k = 0
    · have hu0 : u.dudMaxCount = 0 := iz (by omega)
      rw [isrCheckMax_counting k u (by omega) (by omega), hu0]
      show 0 ≤ (if u.maxttemp k ≤ u.current_raw k then (0 : Int) + 1 else 0) ∧
        (if u.maxttemp k ≤ u.current_raw k then (0 : Int) + 1 else 0) ≤ 1 ∧
        (k + 1 ≠ 1 → (if u.maxttemp k ≤ u.current_raw k then (0 : Int) + 1 else 0) = 0)
      refine ⟨?_, ?_, fun h => absurd (by omega) h⟩ <;> split_ifs <;> omega
    · have hz : (isrCheckMax k u).dudMaxCount = 0 :=
        isrCheckMax_in_range k u i0 (by rw [hraw.1, hraw.2]; exact hin k (by omega) (by omega))
      rw [hz]
      exact ⟨le_refl _, by omega, fun _ => rfl⟩

/-- With two or more local extruders whose channels above 0 read below their bounds, the
extruder loop at the end of a window leaves a maximum counter that was 0 at 0, whatever
channel 0 reads. -/
theorem isrCheckLoop_shared (cfg : Config α) (hN : 2 ≤ EXTRUDERS_T cfg) (s : State α)
    (h0 : s.dudMaxCount = 0)
    (hin : ∀ e, 1 ≤ e → e < EXTRUDERS_T cfg → s.current_raw e < s.maxttemp e) :
    (isrCheckLoop cfg s).dudMaxCount = 0 := by
  have hrem : cfg.REPRAPPRO_MULTIMATERIALS = false := by
    unfold EXTRUDERS_T at hN
    cases hb : cfg.REPRAPPRO_MULTIMATERIALS
    · rfl
    · rw [hb] at hN
      simp at hN
  exact (isrCheckLoop_upto cfg hrem s h0 (EXTRUDERS_T cfg) hin (EXTRUDERS_T cfg)
    (le_refl _)).2.2.2 (by omega)

/-- With two or more local extruders, as long as the channels above 0 are published below
their bounds at the end of every window, the maximum counter is 0 after every tick: no
maximum fault is ever latched, whatever channel 0 reads. -/
theorem shared_counter_never_latches (cfg : Config α) (adc : Nat → Nat) (s0 : State α)
    (hN : 2 ≤ EXTRUDERS_T cfg) (h0 : s0.dudMaxCount = 0) (n : Nat)
    (hin : ∀ m, m < n → endsWindow cfg (adc m) (isrTrace cfg adc s0 m) = true →
      ∀ e, e < EXTRUDERS_T cfg → 1 ≤ e →
        (isrTrace cfg adc s0 (m + 1)).current_raw e < (isrTrace cfg adc s0 (m + 1)).maxttemp e) :
    ∀ m, m ≤ n → (isrTrace cfg adc s0 m).dudMaxCount = 0 := by
  intro m
  induction m with
  | zero => exact fun _ => h0
  | succ m ih =>
    intro hm
    have ih' := ih (by omega)
    have hin' := hin m (by omega)
    have hstep : isrTrace cfg adc s0 (m + 1) = isr cfg (adc m) (isrTrace cfg adc s0 m) := rfl
    rw [hstep] at hin' ⊢
    generalize isrTrace cfg adc s0 m = s at ih' hin'
    obtain ⟨l1, -, -, -, -, -⟩ := isrLocal_counters cfg (adc m) s
    by_cases he : endsWindow cfg (adc m) s = true
    · have hin2 := hin' he
      rw [isr_of_endsWindow cfg (adc m) s he] at hin2 ⊢
      unfold isrWindowEnd at hin2 ⊢
      have hp : (isrPublish cfg (isrSample cfg (adc m) (isrPwm cfg s))).dudMaxCount = 0 := by
        show (isrSample cfg (adc m) (isrPwm cfg s)).dudMaxCount = 0
        rw [l1, ih']
      generalize isrPublish cfg (isrSample cfg (adc m) (isrPwm cfg s)) = p at hp hin2
      rw [isrCheckBed_dudMaxCount]
      apply isrCheckLoop_shared cfg hN p hp
      intro e h1 h2
      have key := hin2 e h2 h1
      obtain ⟨c1, c2, c3, t, tb, l, hl⟩ := isrCheckLoop_frame cfg p
      obtain ⟨d1, d2, d3, t', tb', l', hb⟩ := isrCheckBed_frame cfg (isrCheckLoop cfg p)
      rw [hb, hl] at key
      exact key
    · have he' : endsWindow cfg (adc m) s = false := by
        cases hb : endsWindow cfg (adc m) s
        · rfl
        · exact absurd hb he
      rw [isr_of_not_endsWindow cfg (adc m) s he', l1, ih']

/-- The run of `shared_counter_never_latches` on two extruders with extruder 0 shorted:
after five windows the counter is 0. -/
theorem shared_counter_never_latches_witness :
    2 ≤ EXTRUDERS_T cfgTwo ∧ twoState.dudMaxCount = 0 ∧
    (isrTrace cfgTwo adcShorted0 twoState 640).dudMaxCount = 0 :=
  ⟨by decide, by decide,
    shared_counter_never_latches cfgTwo adcShorted0 twoState (by decide) (by decide) 640
      (by decide!) 640 (le_refl 640)⟩

/-- C21 fails on the code: with two local extruders, extruder 0 shorted (published at
16383, its upper bound, in each of five windows) and extruder 1 in range, the shared
counter is back at 0 after every window, no maximum fault is latched or reported and
`target_raw[0]` keeps its value; the same readings latch the fault in the fourth window of
the build with one extruder. -/
theorem shared_counter_scenario :
    EXTRUDERS_T cfgTwo = 2 ∧
    (∀ k ∈ [127, 255, 383, 511, 639],
      endsWindow cfgTwo (adcShorted0 k) (isrTrace cfgTwo adcShorted0 twoState k) = true ∧
      (isrTrace cfgTwo adcShorted0 twoState (k + 1)).maxttemp 0 ≤
        (isrTrace cfgTwo adcShorted0 twoState (k + 1)).current_raw 0 ∧
      (isrTrace cfgTwo adcShorted0 twoState (k + 1)).current_raw 1 = 8383 ∧
      (isrTrace cfgTwo adcShorted0 twoState (k + 1)).dudMaxCount = 0) ∧
    (isrTrace cfgTwo adcShorted0 twoState 640).target_raw 0 = 9000 ∧
    (isrTrace cfgTwo adcShorted0 twoState 640).serial.length = 0 ∧
    (isrTrace cfgQ adcShorted0 twoState 512).dudMaxCount = -1 ∧
    (isrTrace cfgQ adcShorted0 twoState 512).target_raw 0 = 0 := by
  decide!

end SharedCounter

/-! ## The relay levels of the autotune -/

section DutyLevels

variable {α : Type} [LinearOrderedField α] [FloorRing α]

/-- A value inside the range of a `long` is stored unchanged. -/
theorem wrapInt32_of_range (x : Int) (h0 : -2147483648 ≤ x) (h1 : x ≤ 2147483647) :
    wrapInt32 x = x := by
  unfold wrapInt32
  omega

/-- `PID_MAX/2` for a `PID_MAX` that is not negative. -/
theorem halfMax_eq (cfg : Config α) (h : 0 ≤ cfg.PID_MAX) : halfMax cfg = cfg.PID_MAX / 2 := by
  unfold halfMax
  rw [Int.tdiv_eq_ediv h (by decide)]

/-- The correction of lines 244-247 leaves `bias` in `[20, PID_MAX - FULL_PID_BAND]` and
both relay levels in `[0, PID_MAX]`, whatever the local variables were. -/
theorem autotuneBias_range (cfg : Config α) (hB1 : 1 ≤ cfg.FULL_PID_BAND)
    (hB2 : 20 ≤ cfg.PID_MAX - cfg.FULL_PID_BAND) (hM : cfg.PID_MAX ≤ 32767)
    (l : Autotune α) :
    20 ≤ (autotuneBias cfg l).bias ∧
    (autotuneBias cfg l).bias ≤ cfg.PID_MAX - cfg.FULL_PID_BAND ∧
    DutyRange cfg (autotuneBias cfg l) := by
  have hw : wrapInt16 (cfg.PID_MAX - cfg.FULL_PID_BAND) = cfg.PID_MAX - cfg.FULL_PID_BAND :=
    wrapInt16_of_range _ (by omega) (by omega)
  have hhalf := halfMax_eq cfg (by omega)
  obtain ⟨c1, c2⟩ := constrain_bounds
    (wrapInt32 (l.bias + Int.tdiv (wrapInt32 (l.d * wrapInt32 (l.t_high - l.t_low)))
      (wrapInt32 (l.t_low + l.t_high))))
    20 (wrapInt16 (cfg.PID_MAX - cfg.FULL_PID_BAND)) (by rw [hw]; exact hB2)
  have hb : (autotuneBias cfg l).bias = constrain
      (wrapInt32 (l.bias + Int.tdiv (wrapInt32 (l.d * wrapInt32 (l.t_high - l.t_low)))
        (wrapInt32 (l.t_low + l.t_high))))
      20 (wrapInt16 (cfg.PID_MAX - cfg.FULL_PID_BAND)) := rfl
  have hd : (autotuneBias cfg l).d =
      if halfMax cfg < (autotuneBias cfg l).bias then
        wrapInt32 (cfg.PID_MAX - 1 - (autotuneBias cfg l).bias)
      else (autotuneBias cfg l).bias := rfl
  rw [← hb] at c1 c2
  rw [hw] at c2
  refine ⟨c1, c2, ?_⟩
  unfold DutyRange
  rw [hd, hhalf]
  generalize (autotuneBias cfg l).bias = b at c1 c2
  by_cases hc : cfg.PID_MAX / 2 < b
  · rw [if_pos hc, wrapInt32_of_range _ (by omega) (by omega)]
    omega
  · rw [if_neg hc]
    omega

/-- Both relay levels computed from local variables in range lie in
`[0, PID_MAX >> 1]`, and so does what an `unsigned char` holds of them. -/
theorem relay_levels (cfg : Config α) (hM : cfg.PID_MAX ≤ 32767) (l : Autotune α)
    (h : DutyRange cfg l) :
    0 ≤ wrapInt32 (l.bias - l.d) >>> (1 : Nat) ∧
    wrapInt32 (l.bias - l.d) >>> (1 : Nat) ≤ cfg.PID_MAX >>> (1 : Nat) ∧
    0 ≤ wrapInt32 (l.bias + l.d) >>> (1 : Nat) ∧
    wrapInt32 (l.bias + l.d) >>> (1 : Nat) ≤ cfg.PID_MAX >>> (1 : Nat) ∧
    ((wrapU8 (wrapInt32 (l.bias - l.d) >>> (1 : Nat)) : Nat) : Int) ≤
      cfg.PID_MAX >>> (1 : Nat) ∧
    ((wrapU8 (wrapInt32 (l.bias + l.d) >>> (1 : Nat)) : Nat) : Int) ≤
      cfg.PID_MAX >>> (1 : Nat) := by
  obtain ⟨h1, h2, h3⟩ := h
  rw [wrapInt32_of_range (l.bias - l.d) (by omega) (by omega),
    wrapInt32_of_range (l.bias + l.d) (by omega) (by omega)]
  unfold wrapU8
  simp only [Int.shiftRight_eq_div_pow]
  norm_num
  omega

/-- No execution of the ISR writes `soft_pwm[]`. -/
theorem runIsr_soft_pwm (cfg : Config α) (adcs : List Nat) (s : State α) :
    (runIsr cfg adcs s).soft_pwm = s.soft_pwm := by
  have hisr : ∀ (adc : Nat) (u : State α), (isr cfg adc u).soft_pwm = u.soft_pwm := by
    intro adc u
    obtain ⟨a, b, c, p, q, r, n, w, x, y, z, ph, cnt, hl⟩ := isrLocal_frame cfg adc u
    unfold isr
    split_ifs
    · unfold isrWindowEnd
      obtain ⟨c1, c2, c3, t, tb, l, h1⟩ :=
        isrCheckLoop_frame cfg (isrPublish cfg (isrSample cfg adc (isrPwm cfg u)))
      obtain ⟨d1, d2, d3, t', tb', l', h2⟩ := isrCheckBed_frame cfg
        (isrCheckLoop cfg (isrPublish cfg (isrSample cfg adc (isrPwm cfg u))))
      rw [h2, h1]
      show (isrSample cfg adc (isrPwm cfg u)).soft_pwm = u.soft_pwm
      rw [hl]
    · rw [hl]
  induction adcs generalizing s with
  | nil => rfl
  | cons a l ih =>
    show (runIsr cfg l (isr cfg a s)).soft_pwm = s.soft_pwm
    rw [ih, hisr]

/-- The adaptation keeps the relay levels in range and writes no duty. -/
theorem autotuneAdapt_duty (cfg : Config α) (hB1 : 1 ≤ cfg.FULL_PID_BAND)
    (hB2 : 20 ≤ cfg.PID_MAX - cfg.FULL_PID_BAND) (hM : cfg.PID_MAX ≤ 32767) (s : State α)
    (l : Autotune α) (h : DutyRange cfg l) :
    DutyRange cfg (autotuneAdapt cfg s l).2 ∧ (autotuneAdapt cfg s l).1.soft_pwm = s.soft_pwm := by
  have hb := (autotuneBias_range cfg hB1 hB2 hM l).2.2
  have hg : DutyRange cfg (autotuneGains (autotuneBias cfg l)) := hb
  unfold autotuneAdapt
  dsimp only
  split_ifs
  · exact ⟨hg, rfl⟩
  · exact ⟨hb, rfl⟩
  · exact ⟨h, rfl⟩

/-- The measurement block keeps the relay levels in range and the duty of extruder 0 at
most `PID_MAX >> 1`. -/
theorem autotuneMeasure_duty (cfg : Config α) (hB1 : 1 ≤ cfg.FULL_PID_BAND)
    (hB2 : 20 ≤ cfg.PID_MAX - cfg.FULL_PID_BAND) (hM : cfg.PID_MAX ≤ 32767) (temp : α)
    (clk : Millis) (s : State α) (l : Autotune α) (h : DutyRange cfg l)
    (hs : ((s.soft_pwm 0 : Nat) : Int) ≤ cfg.PID_MAX >>> (1 : Nat)) :
    DutyRange cfg (autotuneMeasure cfg temp clk s l).2 ∧
    (((autotuneMeasure cfg temp clk s l).1.soft_pwm 0 : Nat) : Int) ≤
      cfg.PID_MAX >>> (1 : Nat) := by
  have hcool : ∀ (u : State α) (m : Autotune α), DutyRange cfg m →
      ((u.soft_pwm 0 : Nat) : Int) ≤ cfg.PID_MAX >>> (1 : Nat) →
      DutyRange cfg (autotuneCool temp clk u m).2 ∧
      (((autotuneCool temp clk u m).1.soft_pwm 0 : Nat) : Int) ≤ cfg.PID_MAX >>> (1 : Nat) := by
    intro u m hm hu
    unfold autotuneCool
    split_ifs
    · refine ⟨hm, ?_⟩
      show ((setAt u.soft_pwm 0 (wrapU8 (wrapInt32 (m.bias - m.d) >>> (1 : Nat))) 0 : Nat) : Int)
        ≤ _
      rw [setAt_same]
      exact (relay_levels cfg hM m hm).2.2.2.2.1
    · exact ⟨hm, hu⟩
    · exact ⟨hm, hu⟩
  have hheat : ∀ (u : State α) (m : Autotune α), DutyRange cfg m →
      ((u.soft_pwm 0 : Nat) : Int) ≤ cfg.PID_MAX >>> (1 : Nat) →
      DutyRange cfg (autotuneHeat cfg temp clk u m).2 ∧
      (((autotuneHeat cfg temp clk u m).1.soft_pwm 0 : Nat) : Int) ≤ cfg.PID_MAX >>> (1 : Nat) := by
    intro u m hm hu
    have ha := (autotuneAdapt_duty cfg hB1 hB2 hM u (autotuneSwitch clk m) hm).1
    unfold autotuneHeat
    split_ifs
    · refine ⟨ha, ?_⟩
      show ((setAt (autotuneAdapt cfg u (autotuneSwitch clk m)).1.soft_pwm 0
        (wrapU8 (wrapInt32 ((autotuneAdapt cfg u (autotuneSwitch clk m)).2.bias +
          (autotuneAdapt cfg u (autotuneSwitch clk m)).2.d) >>> (1 : Nat))) 0 : Nat) : Int) ≤ _
      rw [setAt_same]
      exact (relay_levels cfg hM _ ha).2.2.2.2.2
    · exact ⟨hm, hu⟩
    · exact ⟨hm, hu⟩
  unfold autotuneMeasure
  split_ifs
  · obtain ⟨c1, c2⟩ := hcool { s with temp_meas_ready := false }
      (autotuneRead cfg { s with temp_meas_ready := false } l) h hs
    exact hheat _ _ c1 c2
  · exact ⟨h, hs⟩

/-- The exit tests and the progress line keep the relay levels and the duty. -/
theorem autotuneChecks_duty (cfg : Config α) (temp : α) (clk : Millis) (s : State α)
    (l : Autotune α) :
    (autotuneChecks cfg temp clk s l).locals.bias = l.bias ∧
    (autotuneChecks cfg temp clk s l).locals.d = l.d ∧
    (autotuneChecks cfg temp clk s l).state.soft_pwm = s.soft_pwm := by
  have hp : (autotunePrint cfg clk s l).2.bias = l.bias ∧
      (autotunePrint cfg clk s l).2.d = l.d ∧
      (autotunePrint cfg clk s l).1.soft_pwm = s.soft_pwm := by
    unfold autotunePrint
    split_ifs <;> exact ⟨rfl, rfl, rfl⟩
  unfold autotuneChecks
  dsimp only
  split_ifs
  · exact ⟨rfl, rfl, rfl⟩
  · exact hp
  · exact hp
  · exact hp

/-- Along an autotune the relay levels stay in `[0, PID_MAX]` and the duty of extruder 0
stays at most `PID_MAX >> 1`. -/
theorem autotuneLoop_duty (cfg : Config α) (hB1 : 1 ≤ cfg.FULL_PID_BAND)
    (hB2 : 20 ≤ cfg.PID_MAX - cfg.FULL_PID_BAND) (hM : cfg.PID_MAX ≤ 32767) (temp : α)
    (junk : Autotune α) (now : Nat) (ticks : Nat → List Nat) (clk : Nat → Millis)
    (s : State α) (k : Nat) :
    DutyRange cfg (autotuneLoop cfg temp ticks clk (autotuneStart cfg junk now s) k).locals ∧
    (((autotuneLoop cfg temp ticks clk (autotuneStart cfg junk now s) k).state.soft_pwm 0 : Nat)
      : Int) ≤ cfg.PID_MAX >>> (1 : Nat) := by
  have hhalf := halfMax_eq cfg (by omega)
  induction k with
  | zero =>
    constructor
    · show 0 ≤ wrapInt32 (halfMax cfg) ∧
        0 ≤ wrapInt32 (halfMax cfg) - wrapInt32 (halfMax cfg) ∧
        wrapInt32 (halfMax cfg) + wrapInt32 (halfMax cfg) ≤ cfg.PID_MAX
      rw [hhalf, wrapInt32_of_range _ (by omega) (by omega)]
      omega
    · show ((setAt (disable_heater cfg
          { s with serial := s.serial ++ [Event.autotune_start] }).soft_pwm 0
        (wrapU8 (halfMax cfg)) 0 : Nat) : Int) ≤ _
      rw [setAt_same, hhalf]
      unfold wrapU8
      rw [Int.shiftRight_eq_div_pow]
      norm_num
      omega
  | succ k ih =>
    obtain ⟨i1, i2⟩ := ih
    have hstep : autotuneLoop cfg temp ticks clk (autotuneStart cfg junk now s) (k + 1) =
        match (autotuneLoop cfg temp ticks clk (autotuneStart cfg junk now s) k).exit with
        | some _ => autotuneLoop cfg temp ticks clk (autotuneStart cfg junk now s) k
        | none =>
          autotuneIter cfg temp (clk k)
            (runIsr cfg (ticks k)
              (autotuneLoop cfg temp ticks clk (autotuneStart cfg junk now s) k).state)
            (autotuneLoop cfg temp ticks clk (autotuneStart cfg junk now s) k).locals := rfl
    rw [hstep]
    cases (autotuneLoop cfg temp ticks clk (autotuneStart cfg junk now s) k).exit with
    | some e => exact ⟨i1, i2⟩
    | none =>
      obtain ⟨m1, m2⟩ := autotuneMeasure_duty cfg hB1 hB2 hM temp (clk k)
        (runIsr cfg (ticks k)
          (autotuneLoop cfg temp ticks clk (autotuneStart cfg junk now s) k).state)
        (autotuneLoop cfg temp ticks clk (autotuneStart cfg junk now s) k).locals i1
        (by rw [runIsr_soft_pwm]; exact i2)
      show DutyRange cfg (autotuneChecks cfg temp (clk k) _ _).locals ∧
        (((autotuneChecks cfg temp (clk k) _ _).state.soft_pwm 0 : Nat) : Int) ≤ _
      obtain ⟨c1, c2, c3⟩ := autotuneChecks_duty cfg temp (clk k)
        (autotuneMeasure cfg temp (clk k)
          (runIsr cfg (ticks k)
            (autotuneLoop cfg temp ticks clk (autotuneStart cfg junk now s) k).state)
          (autotuneLoop cfg temp ticks clk (autotuneStart cfg junk now s) k).locals).1
        (autotuneMeasure cfg temp (clk k)
          (runIsr cfg (ticks k)
            (autotuneLoop cfg temp ticks clk (autotuneStart cfg junk now s) k).state)
          (autotuneLoop cfg temp ticks clk (autotuneStart cfg junk now s) k).locals).2
      unfold DutyRange at m1 ⊢
      rw [c1, c2, c3]
      exact ⟨m1, m2⟩

/-- The divisor of line 244: when an iteration corrects `bias` under a monotonic clock
that does not wrap, both half periods are longer than 5000 ms and their sum is stored in a
`long` unchanged. -/
theorem autotune_divisor (cfg : Config α) (temp : α) (junk : Autotune α) (now : Nat)
    (ticks : Nat → List Nat) (clk : Nat → Millis) (s : State α) (n : Nat)
    (hclk : ClockOk now clk n)
    (hcor : correctsBias cfg temp ticks clk (autotuneStart cfg junk now s) n = true) :
    5000 < (autotuneAtBias cfg temp ticks clk (autotuneStart cfg junk now s) n).t_low ∧
    5000 < (autotuneAtBias cfg temp ticks clk (autotuneStart cfg junk now s) n).t_high ∧
    wrapInt32 ((autotuneAtBias cfg temp ticks clk (autotuneStart cfg junk now s) n).t_low +
      (autotuneAtBias cfg temp ticks clk (autotuneStart cfg junk now s) n).t_high) =
      (autotuneAtBias cfg temp ticks clk (autotuneStart cfg junk now s) n).t_low +
      (autotuneAtBias cfg temp ticks clk (autotuneStart cfg junk now s) n).t_high := by
  unfold correctsBias at hcor
  simp only [Bool.and_eq_true, decide_eq_true_eq, Bool.not_eq_true'] at hcor
  obtain ⟨⟨⟨⟨⟨-, -⟩, hoff⟩, -⟩, hlong⟩, -⟩ := hcor
  have hinv := autotuneLoop_inv cfg temp junk now ticks clk s n hclk n (le_refl n)
  obtain ⟨hord, w1, w2, b1, b2, -⟩ := hclk.2 n (le_refl n)
  obtain ⟨o1, o2, o3, o4, o5, o6, o7⟩ := hord
  obtain ⟨rinv, -, -, -⟩ := autotuneRead_inv cfg
    { autotuneEntry cfg temp ticks clk (autotuneStart cfg junk now s) n with
      temp_meas_ready := false } hinv
  obtain ⟨cinv, -, -, -⟩ := autotuneCool_inv temp (clk n)
    { autotuneEntry cfg temp ticks clk (autotuneStart cfg junk now s) n with
      temp_meas_ready := false } rinv (le_refl _) o1 (by omega) (by omega)
  have hS : autotuneSampled cfg temp ticks clk (autotuneStart cfg junk now s) n =
      (autotuneCool temp (clk n)
        { autotuneEntry cfg temp ticks clk (autotuneStart cfg junk now s) n with
          temp_meas_ready := false }
        (autotuneRead cfg
          { autotuneEntry cfg temp ticks clk (autotuneStart cfg junk now s) n with
            temp_meas_ready := false }
          (autotuneLoop cfg temp ticks clk (autotuneStart cfg junk now s) n).locals)).2 := rfl
  rw [← hS] at cinv
  unfold autotuneAtBias
  generalize autotuneSampled cfg temp ticks clk (autotuneStart cfg junk now s) n = S
    at hoff hlong cinv
  obtain ⟨i1, i2, i3, i4, i5⟩ := cinv
  obtain ⟨m1, m2, m3, m4⟩ := i5 hoff
  have ghigh : (autotuneSwitch (clk n) S).t_high = (S.t1 : Int) - S.t2 := m3
  have glow : (autotuneSwitch (clk n) S).t_low = ((clk n).heatAt : Int) - S.t1 :=
    wrapInt32_sub _ _ (by omega) (by omega)
  rw [wrapU32_sub _ _ (by omega) (by omega)] at hlong
  rw [m3] at m4
  rw [ghigh, glow]
  refine ⟨by omega, m4, ?_⟩
  have hsum : ((clk n).heatAt : Int) - S.t1 + ((S.t1 : Int) - S.t2) =
      ((clk n).heatAt : Int) - S.t2 := by ring
  rw [hsum]
  exact wrapInt32_sub _ _ (by omega) (by omega)

end DutyLevels

/-! ## Claim C26 -/

section ClaimsDuty

variable {α : Type} [LinearOrderedField α] [FloorRing α]

/-- C26: let `1 ≤ FULL_PID_BAND`, `20 ≤ PID_MAX - FULL_PID_BAND` and `PID_MAX` fit an
`int`. Every bias correction of lines 244-247 leaves `20 ≤ bias ≤ PID_MAX - FULL_PID_BAND`,
`d ≥ 0`, `bias - d ≥ 0` and `bias + d ≤ PID_MAX`. At every point of an autotune the two
relay levels `(bias - d) >> 1` and `(bias + d) >> 1` lie in `[0, PID_MAX >> 1]`, and so does
the duty `soft_pwm[0]`. In an iteration that corrects `bias` under a monotonic clock that
does not wrap, the divisor `t_low + t_high` is more than 10000 and is stored unchanged. -/
theorem autotune_duty_range (cfg : Config α) (hB1 : 1 ≤ cfg.FULL_PID_BAND)
    (hB2 : 20 ≤ cfg.PID_MAX - cfg.FULL_PID_BAND) (hM : cfg.PID_MAX ≤ 32767) (temp : α)
    (junk : Autotune α) (now : Nat) (ticks : Nat → List Nat) (clk : Nat → Millis)
    (s : State α) :
    (∀ l : Autotune α,
      20 ≤ (autotuneBias cfg l).bias ∧
      (autotuneBias cfg l).bias ≤ cfg.PID_MAX - cfg.FULL_PID_BAND ∧
      0 ≤ (autotuneBias cfg l).d ∧
      0 ≤ (autotuneBias cfg l).bias - (autotuneBias cfg l).d ∧
      (autotuneBias cfg l).bias + (autotuneBias cfg l).d ≤ cfg.PID_MAX) ∧
    (∀ k : Nat,
      0 ≤ wrapInt32 ((PID_autotune cfg temp junk now ticks clk k s).locals.bias -
        (PID_autotune cfg temp junk now ticks clk k s).locals.d) >>> (1 : Nat) ∧
      wrapInt32 ((PID_autotune cfg temp junk now ticks clk k s).locals.bias -
        (PID_autotune cfg temp junk now ticks clk k s).locals.d) >>> (1 : Nat) ≤
        cfg.PID_MAX >>> (1 : Nat) ∧
      0 ≤ wrapInt32 ((PID_autotune cfg temp junk now ticks clk k s).locals.bias +
        (PID_autotune cfg temp junk now ticks clk k s).locals.d) >>> (1 : Nat) ∧
      wrapInt32 ((PID_autotune cfg temp junk now ticks clk k s).locals.bias +
        (PID_autotune cfg temp junk now ticks clk k s).locals.d) >>> (1 : Nat) ≤
        cfg.PID_MAX >>> (1 : Nat) ∧
      (((PID_autotune cfg temp junk now ticks clk k s).state.soft_pwm 0 : Nat) : Int) ≤
        cfg.PID_MAX >>> (1 : Nat)) ∧
    (∀ n : Nat, ClockOk now clk n →
      correctsBias cfg temp ticks clk (autotuneStart cfg junk now s) n = true →
      10000 < (autotuneAtBias cfg temp ticks clk (autotuneStart cfg junk now s) n).t_low +
        (autotuneAtBias cfg temp ticks clk (autotuneStart cfg junk now s) n).t_high ∧
      wrapInt32 ((autotuneAtBias cfg temp ticks clk (autotuneStart cfg junk now s) n).t_low +
        (autotuneAtBias cfg temp ticks clk (autotuneStart cfg junk now s) n).t_high) =
        (autotuneAtBias cfg temp ticks clk (autotuneStart cfg junk now s) n).t_low +
        (autotuneAtBias cfg temp ticks clk (autotuneStart cfg junk now s) n).t_high) := by
  refine ⟨fun l => ?_, fun k => ?_, fun n hclk hcor => ?_⟩
  · obtain ⟨a, b, c, d, e⟩ := autotuneBias_range cfg hB1 hB2 hM l
    exact ⟨a, b, c, d, e⟩
  · obtain ⟨i1, i2⟩ := autotuneLoop_duty cfg hB1 hB2 hM temp junk now ticks clk s k
    obtain ⟨r1, r2, r3, r4, -, -⟩ := relay_levels cfg hM _ i1
    exact ⟨r1, r2, r3, r4, i2⟩
  · obtain ⟨a, b, c⟩ := autotune_divisor cfg temp junk now ticks clk s n hclk hcor
    exact ⟨by omega, c⟩

/-- C26 on the autotune to 150 degrees whose readings alternate every 6000 ms, with
`PID_MAX = 255` and `FULL_PID_BAND = 150`: iteration number 3 corrects `bias` with the
divisor 12000, and after 8 iterations the duty of extruder 0 is at most 127. -/
theorem autotune_duty_range_witness :
    correctsBias cfgQ 150 tuneTicks tuneClock (autotuneStart cfgQ junkQ 0 tuneState) 3 = true ∧
    (autotuneAtBias cfgQ 150 tuneTicks tuneClock (autotuneStart cfgQ junkQ 0 tuneState) 3).t_low
      + (autotuneAtBias cfgQ 150 tuneTicks tuneClock (autotuneStart cfgQ junkQ 0
        tuneState) 3).t_high = 12000 ∧
    10000 <
      (autotuneAtBias cfgQ 150 tuneTicks tuneClock (autotuneStart cfgQ junkQ 0 tuneState) 3).t_low
      + (autotuneAtBias cfgQ 150 tuneTicks tuneClock (autotuneStart cfgQ junkQ 0
        tuneState) 3).t_high ∧
    (((PID_autotune cfgQ 150 junkQ 0 tuneTicks tuneClock 8 tuneState).state.soft_pwm 0 : Nat)
      : Int) ≤ cfgQ.PID_MAX >>> (1 : Nat) :=
  ⟨by decide!, by decide!,
    ((autotune_duty_range cfgQ (by decide) (by decide) (by decide) 150 junkQ 0 tuneTicks
      tuneClock tuneState).2.2 3 (by unfold ClockOk Millis.ordered; decide)
      (by decide!)).1,
    ((autotune_duty_range cfgQ (by decide) (by decide) (by decide) 150 junkQ 0 tuneTicks
      tuneClock tuneState).2.1 8).2.2.2.2⟩

end ClaimsDuty
end Marlin
